import Mathlib

/-!
# YADA media server: content directory tree and seek-range grammar

Shallow embedding of `src/cds.c` (the content tree) and `src/utils/seekrange.c`
(NPT, bytes-range and TimeSeekRange parsing and printing).

Conventions of the embedding:
* a C string is the list of its characters before the terminating NUL;
* a pointer to a `cds_object` is `Option Nat`: `none` is `NULL`, `some a` is the address
  of the `a`-th allocated object. The four static objects `root_tree`, `audio_tree`,
  `photo_tree`, `video_tree` have the addresses 0, 1, 2, 3; `calloc` returns the next
  unused address;
* a function that dereferences a pointer returns `none` when the pointer is invalid or when
  the recursion budget of the model is spent; theorems show that this never happens on the
  trees the program builds.
-/

namespace Yada

/-- A C string: its characters, without the terminating NUL. -/
abbrev CString := List Char

/-! ## Data model of `cds.c` -/

/-- The enum `CDS_OBJ_TYPE`. -/
inductive CDS_OBJ_TYPE where
  | CDS_OBJ_ITEM
  | CDS_OBJ_FOLDER
deriving DecidableEq, Repr

open CDS_OBJ_TYPE

/-- The type `OBJECT_ID` (`ITEM_ID`, a `char[33]` holding 32 hexadecimal digits). -/
abbrev OBJECT_ID := CString

/-- The enum `ITEM_TYPE` of `item.h`, a bit mask. -/
abbrev ITEM_TYPE := Nat

def ITEM_UNDEFINED : ITEM_TYPE := 0
def ITEM_VIDEO : ITEM_TYPE := 1
def ITEM_AUDIO : ITEM_TYPE := 2
def ITEM_AUDIOVIDEO : ITEM_TYPE := 4
def ITEM_PHOTO : ITEM_TYPE := 8
def ITEM_PLAYLIST : ITEM_TYPE := 16
def ITEM_CONTAINER : ITEM_TYPE := 32

/-- The fields of `struct item_info` that the content tree reads. -/
structure item_info where
  type : ITEM_TYPE
  id : OBJECT_ID
  filename : CString
deriving DecidableEq, Repr

/-- The struct `cds_object`. The anonymous union is flattened: a folder uses `name`, `id`,
`num_children`, `first_child`, `last_child`, an item uses `item`. -/
structure cds_object where
  type : CDS_OBJ_TYPE
  parent : Option Nat
  next : Option Nat
  previous : Option Nat
  name : CString
  id : OBJECT_ID
  num_children : Int
  first_child : Option Nat
  last_child : Option Nat
  item : Option item_info
deriving DecidableEq, Repr

/-- The memory holding the `cds_object`s: the object at address `a` is `h[a]?`. -/
abbrev Heap := List cds_object

/-- Assignment through a pointer, `p->field = v`: fails on an invalid pointer. -/
def Heap.write (h : Heap) (p : Nat) (f : cds_object → cds_object) : Option Heap :=
  match h[p]? with
  | some o => some (h.set p (f o))
  | none => none

def CDS_ROOT_TREE_ID : OBJECT_ID := "2673a016ad6e08603d7aea0e4fed596b".toList
def CDS_MUSIC_TREE_ID : OBJECT_ID := "e7d5184e4366142787fa4a153bcd3c6a".toList
def CDS_PHOTO_TREE_ID : OBJECT_ID := "9007afba8fdf31332b36c8e5afb440d1".toList
def CDS_VIDEO_TREE_ID : OBJECT_ID := "d97685b624d6c12778e7080e76b3fb3f".toList

/-- Address of the static object `root_tree`. -/
def root_tree : Nat := 0
/-- Address of the static object `audio_tree`. -/
def audio_tree : Nat := 1
/-- Address of the static object `photo_tree`. -/
def photo_tree : Nat := 2
/-- Address of the static object `video_tree`. -/
def video_tree : Nat := 3

/-- A static initializer `{ CDS_OBJ_FOLDER, NULL, NULL, NULL, {name, id, 0, NULL, NULL} }`. -/
def static_folder (name : CString) (id : OBJECT_ID) : cds_object :=
  { type := CDS_OBJ_FOLDER, parent := none, next := none, previous := none,
    name := name, id := id, num_children := 0, first_child := none, last_child := none,
    item := none }

/-- The four static objects as the initializers of `cds.c` (lines 96-99) set them. -/
def static_heap : Heap :=
  [ static_folder "Root".toList CDS_ROOT_TREE_ID,
    static_folder "Music".toList CDS_PHOTO_TREE_ID,
    static_folder "Photo".toList CDS_MUSIC_TREE_ID,
    static_folder "Video".toList CDS_VIDEO_TREE_ID ]

/-- The object `calloc(1, sizeof(cds_object))` returns: all bytes zero. -/
def calloc_object : cds_object :=
  { type := CDS_OBJ_ITEM, parent := none, next := none, previous := none,
    name := [], id := [], num_children := 0, first_child := none, last_child := none,
    item := none }

/-- Recursion budget that covers every walk along `first_child` and `next` links. -/
def walk_fuel (h : Heap) : Nat := 2 * h.length + 2

/-! ## Operations of `cds.c` -/

/-- The function `cds_del_object`: unlinks `obj` from its siblings and its parent. -/
def cds_del_object (h : Heap) (obj : Option Nat) : Option Heap :=
  match obj with
  | none => some h
  | some a => do
    let o ← h[a]?
    let h ← match o.previous with
      | some p => h.write p (fun x => { x with next := o.next })
      | none => some h
    let o ← h[a]?
    let h ← match o.next with
      | some n => h.write n (fun x => { x with previous := o.previous })
      | none => some h
    let o ← h[a]?
    let par ← o.parent
    let po ← h[par]?
    let h ← if po.first_child = some a then
        h.write par (fun x => { x with first_child := none })
      else some h
    let o ← h[a]?
    let po ← h[par]?
    let h ← if po.last_child = some a then
        h.write par (fun x => { x with last_child := o.previous })
      else some h
    h.write par (fun x => { x with num_children := x.num_children - 1 })

/-- The function `cds_find_item_tree`. -/
def cds_find_item_tree (item : item_info) : Option Nat :=
  if item.type = ITEM_PHOTO then some photo_tree
  else if item.type = ITEM_AUDIO then some audio_tree
  else if item.type = ITEM_VIDEO ∨ item.type = ITEM_AUDIOVIDEO then some video_tree
  else none

mutual
/-- The function `cds_find_folder_id`: the outer `Option` is `none` when the model is stuck,
the inner one is the returned pointer. -/
def cds_find_folder_id : Nat → Heap → OBJECT_ID → Option Nat → Option (Option Nat)
  | 0, _, _, _ => none
  | fuel + 1, h, id, root =>
    let root := root.getD root_tree
    match h[root]? with
    | none => none
    | some r =>
      if r.id = id then some (some root)
      else cds_find_folder_id_loop fuel h id r.first_child
/-- The `while( child != NULL )` loop of `cds_find_folder_id`. -/
def cds_find_folder_id_loop : Nat → Heap → OBJECT_ID → Option Nat → Option (Option Nat)
  | 0, _, _, _ => none
  | _ + 1, _, _, none => some none
  | fuel + 1, h, id, some child =>
    match h[child]? with
    | none => none
    | some c =>
      if c.type = CDS_OBJ_FOLDER then
        match cds_find_folder_id fuel h id (some child) with
        | none => none
        | some (some _) => some (some child)
        | some none => cds_find_folder_id_loop fuel h id c.next
      else cds_find_folder_id_loop fuel h id c.next
end

/-- The common tail of `cds_add_item` (lines 386-404) and `cds_add_folder` (lines 484-504):
the new object gets `parent` and `previous`, is linked after the parent's last child, and the
parent's `num_children` is incremented. Returns the new memory and the new object's address. -/
def cds_link_new_object (h : Heap) (real_parent : Nat) (new_object : cds_object) :
    Option (Heap × Nat) := do
  let rp ← h[real_parent]?
  let addr := h.length
  let h := h ++ [{ new_object with parent := some real_parent, previous := rp.last_child }]
  let rp ← h[real_parent]?
  let h ← if rp.first_child = none then do
      let h ← h.write real_parent (fun x => { x with first_child := some addr })
      let rp ← h[real_parent]?
      h.write real_parent (fun x => { x with last_child := rp.first_child })
    else do
      let last ← rp.last_child
      let h ← h.write last (fun x => { x with next := some addr })
      h.write real_parent (fun x => { x with last_child := some addr })
  let h ← h.write real_parent (fun x => { x with num_children := x.num_children + 1 })
  pure (h, addr)

/-- The function `cds_add_item`. The result is the new memory and the returned pointer. -/
def cds_add_item (h : Heap) (item : Option item_info) (parent_id : OBJECT_ID) :
    Option (Heap × Option Nat) :=
  match item with
  | none => some (h, none)
  | some it =>
    match cds_find_item_tree it with
    | none => some (h, none)
    | some real_tree => do
      let root ← h[root_tree]?
      let real_parent ←
        if parent_id = root.id then some (some real_tree)
        else cds_find_folder_id (walk_fuel h) h parent_id (some real_tree)
      match real_parent with
      | none => pure (h, none)
      | some rp => do
        let (h, new_object) ← cds_link_new_object h rp { calloc_object with item := some it }
        pure (h, some new_object)

/-- The `for` loop of `cds_add_folder` over the children of `root_tree`. -/
def cds_add_folder_loop (digest : OBJECT_ID) (name : CString) (parent_id : OBJECT_ID) :
    Nat → Heap → Option Nat → Option Nat → Option (Heap × Option OBJECT_ID)
  | 0, _, _, _ => none
  | _ + 1, h, none, new_folder => do
    let nf ← new_folder
    let o ← h[nf]?
    pure (h, some o.id)
  | fuel + 1, h, some curr_tree, _ => do
    let root ← h[root_tree]?
    let real_parent ←
      if parent_id = root.id then some (some curr_tree)
      else cds_find_folder_id (walk_fuel h) h parent_id (some curr_tree)
    match real_parent with
    | none => pure (h, none)
    | some rp => do
      let (h, new_folder) ← cds_link_new_object h rp
        { calloc_object with type := CDS_OBJ_FOLDER, name := name, id := digest }
      let ct ← h[curr_tree]?
      cds_add_folder_loop digest name parent_id fuel h ct.next (some new_folder)

/-- The function `cds_add_folder`. The digest function `md5` stands for `md5_message_digest`;
`path` and `name` are `none` for `NULL`. The result is the new memory and the returned
identity (`none` for `NULL`). -/
def cds_add_folder (md5 : CString → OBJECT_ID) (h : Heap) (path name : Option CString)
    (parent_id : OBJECT_ID) : Option (Heap × Option OBJECT_ID) :=
  match path, name with
  | some p, some n =>
    if p = [] ∨ n = [] then some (h, none)
    else do
      let root ← h[root_tree]?
      cds_add_folder_loop (md5 p) n parent_id (walk_fuel h) h root.first_child none
  | _, _ => some (h, none)

mutual
/-- The function `cds_reset_tree`. -/
def cds_reset_tree : Nat → Heap → Nat → Option Heap
  | 0, _, _ => none
  | fuel + 1, h, root => do
    let r ← h[root]?
    cds_reset_tree_loop fuel h root r.first_child
/-- The `while( obj != NULL )` loop of `cds_reset_tree`; `free` leaves the memory of the
model unchanged. -/
def cds_reset_tree_loop : Nat → Heap → Nat → Option Nat → Option Heap
  | 0, _, _, _ => none
  | _ + 1, h, _, none => some h
  | fuel + 1, h, root, some obj => do
    let o ← h[obj]?
    let h ← if o.type = CDS_OBJ_FOLDER then cds_reset_tree fuel h obj else some h
    let h ← cds_del_object h (some obj)
    let r ← h[root]?
    cds_reset_tree_loop fuel h root r.first_child
end

/-- The function `cds_init` (the tree part): links the three virtual folders under the root. -/
def cds_init (h : Heap) : Option Heap := do
  let h ← h.write root_tree (fun x => { x with first_child := some audio_tree })
  let h ← h.write root_tree (fun x => { x with last_child := some video_tree })
  let h ← h.write root_tree (fun x => { x with num_children := 3 })
  let h ← h.write audio_tree (fun x => { x with parent := some root_tree })
  let h ← h.write audio_tree (fun x => { x with next := some photo_tree })
  let h ← h.write photo_tree (fun x => { x with parent := some root_tree })
  let h ← h.write photo_tree (fun x => { x with previous := some audio_tree })
  let h ← h.write photo_tree (fun x => { x with next := some video_tree })
  let h ← h.write video_tree (fun x => { x with parent := some root_tree })
  h.write video_tree (fun x => { x with previous := some photo_tree })

/-- The function `cds_reinit`. -/
def cds_reinit (h : Heap) : Option Heap := do
  let h ← cds_reset_tree (walk_fuel h) h audio_tree
  let h ← cds_reset_tree (walk_fuel h) h video_tree
  cds_reset_tree (walk_fuel h) h photo_tree

/-! ## C library functions used by `seekrange.c` -/

/-- The function `isspace` of `ctype.h` in the C locale. -/
def c_isspace (c : Char) : Bool :=
  c = ' ' || c = '\t' || c = '\n' || c = '\x0b' || c = '\x0c' || c = '\r'

/-- The function `isdigit` of `ctype.h`. -/
def c_isdigit (c : Char) : Bool := 48 ≤ c.toNat && c.toNat ≤ 57

/-- The digits read by a `%u` conversion: the value so far and the unread input. -/
def scan_digits : CString → Nat → Nat × CString
  | [], acc => (acc, [])
  | c :: cs, acc =>
    if c_isdigit c then scan_digits cs (acc * 10 + (c.toNat - 48)) else (acc, c :: cs)

/-- The optional sign in front of the digits of a `%u` conversion. -/
def scan_sign : CString → Bool × CString
  | '-' :: t => (true, t)
  | '+' :: t => (false, t)
  | s => (false, s)

/-- The `%u` conversion of `sscanf`: skips white space, takes an optional sign and at least
one decimal digit. The value is stored in a 32-bit `unsigned int`: a `-` sign negates it
modulo `2^32`. For digits that denote a number of `2^32` or more C does not define the stored
value; this definition takes it modulo `2^32`. -/
def scan_u (s : CString) : Option (Nat × CString) :=
  let p := scan_sign (s.dropWhile c_isspace)
  match p.2 with
  | [] => none
  | c :: _ =>
    if c_isdigit c then
      let r := scan_digits p.2 0
      some ((if p.1 then 2 ^ 32 - r.1 % 2 ^ 32 else r.1) % 2 ^ 32, r.2)
    else none

/-- The directives of the `sscanf` formats of `seekrange.c`. -/
inductive scan_directive where
  | conv_u
  | conv_c
  | lit (c : Char)
deriving DecidableEq, Repr

/-- A value converted by `sscanf`. -/
inductive scan_value where
  | u (n : Nat)
  | c (ch : Char)
deriving DecidableEq, Repr

open scan_directive

/-- The function `sscanf` on the formats of `seekrange.c`: the converted values, in order.
The C return value is their number (or `EOF`, which every caller treats like 0). -/
def sscanf : CString → List scan_directive → List scan_value
  | _, [] => []
  | s, conv_u :: fmt =>
    match scan_u s with
    | some (v, rest) => scan_value.u v :: sscanf rest fmt
    | none => []
  | s, conv_c :: fmt =>
    match s with
    | ch :: rest => scan_value.c ch :: sscanf rest fmt
    | [] => []
  | s, lit c :: fmt =>
    match s with
    | ch :: rest => if ch = c then sscanf rest fmt else []
    | [] => []

/-- The character of a decimal digit. -/
def digit_char (d : Nat) : Char := Char.ofNat (48 + d)

/-- Decimal digits of `n`, most significant first, put in front of `acc`. -/
def utoa_aux : Nat → Nat → CString → CString
  | 0, _, acc => acc
  | fuel + 1, n, acc =>
    if n / 10 = 0 then digit_char (n % 10) :: acc
    else utoa_aux fuel (n / 10) (digit_char (n % 10) :: acc)

/-- The `%u` conversion of `sprintf`. -/
def utoa (n : Nat) : CString := utoa_aux (n + 1) n []

/-- The `%02u` conversion of `sprintf`: at least two digits, padded with `0`. -/
def utoa02 (n : Nat) : CString := if n < 10 then '0' :: utoa n else utoa n

/-- The number denoted by a text of decimal digits, continuing from `acc`. -/
def digits_value (l : CString) (acc : Nat) : Nat :=
  l.foldl (fun a c => a * 10 + (c.toNat - 48)) acc

/-- The `%s` conversion of `sprintf`; a `NULL` argument is printed as `(null)`. -/
def fmt_s (s : Option CString) : CString := s.getD "(null)".toList

/-- Index of the first occurrence of `c` in `s` (`strchr`), `none` for `NULL`. -/
def strchr : CString → Char → Option Nat
  | [], _ => none
  | x :: xs, c => if x = c then some 0 else (strchr xs c).map (fun i => i + 1)

/-- Index of the first occurrence of `needle` in `s` (`strstr`), `none` for `NULL`. -/
def strstr : CString → CString → Option Nat
  | [], needle => if needle = [] then some 0 else none
  | x :: xs, needle =>
    if needle.isPrefixOf (x :: xs) then some 0
    else (strstr xs needle).map (fun i => i + 1)

/-- The common end of the three `tostring` functions: `buf_len` is `none` when `buf` is `NULL`
(the text is duplicated) and the size of the caller's buffer otherwise. -/
def copy_out (text : CString) (buf_len : Option Nat) : Option CString :=
  match buf_len with
  | none => some text
  | some n => if n < text.length then none else some text

/-! ## Normal Play Time (`seekrange.c`) -/

/-- The enum `NPT_TYPE`. -/
inductive NPT_TYPE where
  | NPT_INVALID
  | NPT_UNKNOWN
  | NPT_NOW
  | NPT_SEC
  | NPT_SEC_FULL
  | NPT_HHMMSS
  | NPT_HHMMSS_FULL
deriving DecidableEq, Repr

open NPT_TYPE

/-- The struct `npt_time`; the union of `secs` (`sec_hi`, `sec_lo`) and `hhmmss` (`hh`, `mm`,
`ss`, `low`) is flattened. `mm` and `ss` are `unsigned char`, the others 32 bits wide. -/
structure npt_time where
  type : NPT_TYPE
  sec_hi : Nat
  sec_lo : Nat
  hh : Nat
  mm : Nat
  ss : Nat
  low : Nat
deriving DecidableEq, Repr

/-- The function `npt_parse` on non-null arguments: the return value and the content of
`*npt` afterwards. `%u` stores into the `unsigned char` fields `mm` and `ss` keep the low
byte of the converted value. -/
def npt_parse (npt_string : CString) (npt : npt_time) : Nat × npt_time :=
  if npt_string.head? = some '*' then (1, { npt with type := NPT_UNKNOWN })
  else if npt_string.take 3 = "now".toList then (1, { npt with type := NPT_NOW })
  else if strchr npt_string ':' = none then
    if strchr npt_string '.' ≠ none then
      match sscanf npt_string [conv_u, lit '.', conv_u] with
      | [scan_value.u a, scan_value.u b] =>
        (1, { npt with type := NPT_SEC_FULL, sec_hi := a, sec_lo := b })
      | [scan_value.u a] => (0, { npt with type := NPT_INVALID, sec_hi := a })
      | _ => (0, { npt with type := NPT_INVALID })
    else
      match sscanf npt_string [conv_u] with
      | [scan_value.u a] => (1, { npt with type := NPT_SEC, sec_hi := a })
      | _ => (0, { npt with type := NPT_INVALID })
  else
    let scanned : Nat × npt_time :=
      if strchr npt_string '.' ≠ none then
        match sscanf npt_string [conv_u, lit ':', conv_u, lit ':', conv_u, lit '.', conv_u] with
        | [scan_value.u a, scan_value.u b, scan_value.u c, scan_value.u d] =>
          (1, { npt with type := NPT_HHMMSS_FULL, hh := a, mm := b % 256, ss := c % 256,
                         low := d })
        | [scan_value.u a, scan_value.u b, scan_value.u c] =>
          (0, { npt with type := NPT_HHMMSS_FULL, hh := a, mm := b % 256, ss := c % 256 })
        | [scan_value.u a, scan_value.u b] =>
          (0, { npt with type := NPT_HHMMSS_FULL, hh := a, mm := b % 256 })
        | [scan_value.u a] => (0, { npt with type := NPT_HHMMSS_FULL, hh := a })
        | _ => (0, { npt with type := NPT_HHMMSS_FULL })
      else
        match sscanf npt_string [conv_u, lit ':', conv_u, lit ':', conv_u] with
        | [scan_value.u a, scan_value.u b, scan_value.u c] =>
          (1, { npt with type := NPT_HHMMSS, hh := a, mm := b % 256, ss := c % 256 })
        | [scan_value.u a, scan_value.u b] =>
          (0, { npt with type := NPT_HHMMSS, hh := a, mm := b % 256 })
        | [scan_value.u a] => (0, { npt with type := NPT_HHMMSS, hh := a })
        | _ => (0, { npt with type := NPT_HHMMSS })
    if scanned.1 = 0 then (0, { scanned.2 with type := NPT_INVALID })
    else if scanned.2.mm > 59 ∨ scanned.2.ss > 59 then (0, { scanned.2 with type := NPT_INVALID })
    else (1, scanned.2)

/-- The function `npt_tostring` on a non-null `npt`: `none` is the `NULL` result. -/
def npt_tostring (npt : npt_time) (buf_len : Option Nat) : Option CString :=
  if buf_len = some 0 then none
  else
    match npt.type with
    | NPT_INVALID => none
    | NPT_UNKNOWN => copy_out "*".toList buf_len
    | NPT_NOW => copy_out "now".toList buf_len
    | NPT_SEC => copy_out (utoa npt.sec_hi) buf_len
    | NPT_SEC_FULL => copy_out (utoa npt.sec_hi ++ '.' :: utoa npt.sec_lo) buf_len
    | NPT_HHMMSS =>
      copy_out (utoa npt.hh ++ '.' :: utoa02 npt.mm ++ '.' :: utoa02 npt.ss) buf_len
    | NPT_HHMMSS_FULL =>
      copy_out (utoa npt.hh ++ '.' :: utoa02 npt.mm ++ '.' :: utoa02 npt.ss ++ '.' :: utoa npt.low)
        buf_len

/-! ## Bytes range (`seekrange.c`) -/

/-- The enum `BR_TYPE`. -/
inductive BR_TYPE where
  | BR_INVALID
  | BR_OPEN
  | BR_CLOSED
deriving DecidableEq, Repr

open BR_TYPE

/-- The struct `bytes_range`. -/
structure bytes_range where
  type : BR_TYPE
  first : Nat
  last : Nat
deriving DecidableEq, Repr

/-- The function `bytesrange_parse`: the return value and the content of `*br` afterwards. -/
def bytesrange_parse (bytesrange_string : CString) (br : bytes_range) : Nat × bytes_range :=
  if bytesrange_string.take 6 ≠ "bytes=".toList then (0, { br with type := BR_INVALID })
  else
    match sscanf (bytesrange_string.drop 6) [conv_u, lit '-', conv_u] with
    | [scan_value.u a, scan_value.u b] => (1, { br with first := a, last := b, type := BR_CLOSED })
    | vals =>
      let br : bytes_range :=
        match vals with
        | [scan_value.u a] => { br with first := a }
        | _ => br
      match sscanf (bytesrange_string.drop 6) [conv_u, conv_c] with
      | [scan_value.u a, scan_value.c dash] =>
        if dash ≠ '-' then (0, { br with first := a, type := BR_INVALID })
        else (1, { br with first := a, type := BR_OPEN })
      | [scan_value.u a] => (0, { br with first := a, type := BR_INVALID })
      | _ => (0, { br with type := BR_INVALID })

/-- The function `bytesrange_tostring` on a non-null `br`. For `BR_CLOSED` the call
`sprintf( brstring, "bytes=%u-%u", br->last )` passes one argument for two conversions: the
first `%u` prints `br->last` and the second one an indeterminate value, the parameter
`junk`. -/
def bytesrange_tostring (junk : Nat) (br : bytes_range) (buf_len : Option Nat) :
    Option CString :=
  if buf_len = some 0 then none
  else
    match br.type with
    | BR_INVALID => none
    | BR_OPEN => copy_out ("bytes=".toList ++ utoa br.first ++ ['-']) buf_len
    | BR_CLOSED => copy_out ("bytes=".toList ++ utoa br.last ++ '-' :: utoa junk) buf_len

/-! ## TimeSeekRange (`seekrange.c`) -/

/-- The enum `TSR_TYPE`. -/
inductive TSR_TYPE where
  | TSR_INVALID
  | TSR_NPT
  | TSR_NPT_ID
  | TSR_NPT_NPT
  | TSR_NPT_NPT_ID
  | TSR_NPT_BYTES
  | TSR_NPT_ID_BYTES
  | TSR_NPT_NPT_BYTES
  | TSR_NPT_NPT_ID_BYTES
deriving DecidableEq, Repr

open TSR_TYPE

/-- The struct `timeseek_range`. -/
structure timeseek_range where
  type : TSR_TYPE
  npt_start : npt_time
  npt_end : npt_time
  instance_duration : npt_time
  range_start : Nat
  range_end : Nat
  instance_length : npt_time
deriving DecidableEq, Repr

/-- The bytes block at the end of `timeseek_parse` (lines 524-555): `bytes` is the text from
the first occurrence of `bytes=` on, `none` when there is none. -/
def timeseek_parse_bytes (bytes : Option CString) (tsr : timeseek_range) :
    Nat × timeseek_range :=
  match bytes with
  | none => (1, tsr)
  | some b =>
    let fmt3 : List scan_directive :=
      [lit 'b', lit 'y', lit 't', lit 'e', lit 's', lit '=', conv_u, lit '-', conv_u, lit '/']
    match sscanf b (fmt3 ++ [conv_u]) with
    | [scan_value.u a, scan_value.u e, scan_value.u ul] =>
      (1, { tsr with range_start := a, range_end := e,
                     instance_length := { tsr.instance_length with type := NPT_SEC, sec_hi := ul } })
    | vals =>
      let tsr : timeseek_range :=
        match vals with
        | [scan_value.u a, scan_value.u e] => { tsr with range_start := a, range_end := e }
        | [scan_value.u a] => { tsr with range_start := a }
        | _ => tsr
      match sscanf b (fmt3 ++ [conv_c]) with
      | [scan_value.u a, scan_value.u e, scan_value.c star] =>
        if star ≠ '*' then (0, { tsr with range_start := a, range_end := e, type := TSR_INVALID })
        else (1, { tsr with range_start := a, range_end := e,
                            instance_length := { tsr.instance_length with type := NPT_UNKNOWN } })
      | [scan_value.u a, scan_value.u e] =>
        (0, { tsr with range_start := a, range_end := e, type := TSR_INVALID })
      | [scan_value.u a] => (0, { tsr with range_start := a, type := TSR_INVALID })
      | _ => (0, { tsr with type := TSR_INVALID })

/-- The part of `timeseek_parse` after a successful parse of the end time (lines 413-467):
`npt` is the text after the first `-`, `bytes` the text from `bytes=` on (`none` for `NULL`). -/
def timeseek_parse_after_end (npt : CString) (bytes : Option CString) (tsr : timeseek_range) :
    Nat × timeseek_range :=
  let tsr := { tsr with type := if bytes ≠ none then TSR_NPT_NPT_BYTES else TSR_NPT_NPT }
  let npt := npt.dropWhile
    (fun x => (x ≠ ' ' && x ≠ '/' && x ≠ '\r' && x ≠ '\n') || x = '.' || x = ':' || c_isdigit x)
  match npt with
  | '/' :: dur =>
    let r := npt_parse dur tsr.instance_duration
    let tsr := { tsr with instance_duration := r.2 }
    if r.1 = 0 then (0, { tsr with type := TSR_INVALID })
    else
      timeseek_parse_bytes bytes
        { tsr with type := if bytes ≠ none then TSR_NPT_NPT_ID_BYTES else TSR_NPT_NPT_ID }
  | '\r' :: _ => timeseek_parse_bytes bytes tsr
  | '\n' :: _ => timeseek_parse_bytes bytes tsr
  | _ => (0, { tsr with type := TSR_INVALID })

/-- The part of `timeseek_parse` after a successful parse of the start time (lines 390-555):
`npt` is the text after the first `-`, `bytes` the text from `bytes=` on (`none` for `NULL`). -/
def timeseek_parse_rest (npt : CString) (bytes : Option CString) (tsr : timeseek_range) :
    Nat × timeseek_range :=
  match npt with
  | [] => (1, tsr)
  | c :: after =>
    if c_isdigit c then
      let r := npt_parse npt tsr.npt_end
      let tsr := { tsr with npt_end := r.2 }
      if r.1 = 0 then (0, { tsr with type := TSR_INVALID })
      else timeseek_parse_after_end npt bytes tsr
    else if c = ' ' then
      if bytes ≠ none then timeseek_parse_bytes bytes { tsr with type := TSR_NPT_BYTES }
      else (0, { tsr with type := TSR_INVALID })
    else if c = '/' then
      let r := npt_parse after tsr.instance_duration
      let tsr := { tsr with instance_duration := r.2 }
      if r.1 = 0 then (0, { tsr with type := TSR_INVALID })
      else
        timeseek_parse_bytes bytes
          { tsr with type := if bytes ≠ none then TSR_NPT_ID_BYTES else TSR_NPT_ID }
    else timeseek_parse_bytes bytes tsr

/-- The function `timeseek_parse`: the return value and the content of `*tsr` afterwards.
The result is `none` where the C code has no defined behaviour: the first `-` stands before
the fifth character (the length given to `strncpy` is negative) or the text copied into
`nptstart[80]` does not fit. -/
def timeseek_parse (timeseek_string : CString) (tsr : timeseek_range) :
    Option (Nat × timeseek_range) :=
  if strstr timeseek_string "npt=".toList = none then some (0, { tsr with type := TSR_INVALID })
  else
    let bytes := strstr timeseek_string "bytes=".toList
    match strchr timeseek_string '-' with
    | none => some (0, { tsr with type := TSR_INVALID })
    | some minus =>
      if bytes.any (fun b => b ≤ minus) then some (0, { tsr with type := TSR_INVALID })
      else if minus < 4 ∨ 80 ≤ minus - 4 then none
      else
        let nptstart := (timeseek_string.drop 4).take (minus - 4)
        let r := npt_parse nptstart tsr.npt_start
        let tsr := { tsr with npt_start := r.2 }
        if r.1 = 0 then some (0, { tsr with type := TSR_INVALID })
        else
          some (timeseek_parse_rest (timeseek_string.drop (minus + 1))
            (bytes.map (fun b => timeseek_string.drop b)) tsr)

/-- The `"bytes=%u-%u/%s"` end of the formats of `timeseek_tostring`. -/
def timeseek_bytes_text (tsr : timeseek_range) : CString :=
  " bytes=".toList ++ utoa tsr.range_start ++ '-' :: utoa tsr.range_end ++
    '/' :: fmt_s (npt_tostring tsr.instance_length none)

/-- The function `timeseek_tostring` on a non-null `tsr`: `none` is the `NULL` result. -/
def timeseek_tostring (tsr : timeseek_range) (buf_len : Option Nat) : Option CString :=
  if buf_len = some 0 then none
  else
    let nptstart := fmt_s (npt_tostring tsr.npt_start none)
    let nptend := fmt_s (npt_tostring tsr.npt_end none)
    let nptduration := fmt_s (npt_tostring tsr.instance_duration none)
    match tsr.type with
    | TSR_INVALID => none
    | TSR_NPT => copy_out ("npt=".toList ++ nptstart ++ ['-']) buf_len
    | TSR_NPT_ID => copy_out ("npt=".toList ++ nptstart ++ '-' :: '/' :: nptduration) buf_len
    | TSR_NPT_NPT => copy_out ("npt=".toList ++ nptstart ++ '-' :: nptend) buf_len
    | TSR_NPT_NPT_ID =>
      copy_out ("npt=".toList ++ nptstart ++ '-' :: nptend ++ '/' :: nptduration) buf_len
    | TSR_NPT_BYTES =>
      copy_out ("npt=".toList ++ nptstart ++ '-' :: timeseek_bytes_text tsr) buf_len
    | TSR_NPT_ID_BYTES =>
      copy_out ("npt=".toList ++ nptstart ++ '-' :: '/' :: nptduration ++ timeseek_bytes_text tsr)
        buf_len
    | TSR_NPT_NPT_BYTES =>
      copy_out ("npt=".toList ++ nptstart ++ '-' :: nptend ++ timeseek_bytes_text tsr) buf_len
    | TSR_NPT_NPT_ID_BYTES =>
      copy_out ("npt=".toList ++ nptstart ++ '-' :: nptend ++ '/' :: nptduration ++
        timeseek_bytes_text tsr) buf_len

/-! ## SOAP actions of `cds.c` -/

/-- An element of a parsed XML document (`xmlNode` of libxml2): its local name, its text
content (`xmlNodeGetContent`) and its child elements. -/
inductive xml_node where
  | mk (name : CString) (content : CString) (children : List xml_node)

/-- The field `name` of an `xmlNode`. -/
def xml_node.name : xml_node → CString
  | .mk n _ _ => n

/-- The function `xmlNodeGetContent`. -/
def xml_node.content : xml_node → CString
  | .mk _ c _ => c

/-- The field `children` of an `xmlNode`. -/
def xml_node.children : xml_node → List xml_node
  | .mk _ _ cs => cs

/-- The function `xml_first_node_by_name` of `xmlutils.c`. -/
def xml_first_node_by_name (root_node : xml_node) (node_name : CString) : Option xml_node :=
  root_node.children.find? (fun n => n.name = node_name)

/-- The function `xml_get_soap_body` of `xmlutils.c`. The parameter `xml_read` stands for
`xmlReadMemory` followed by `xmlDocGetRootElement` of libxml2: it gives the root element of a
well-formed document and `none` otherwise. -/
def xml_get_soap_body (xml_read : CString → Option xml_node) (soap_action : CString) :
    Option xml_node :=
  match xml_read soap_action with
  | none => none
  | some root_node => xml_first_node_by_name root_node "Body".toList

def CDS_SUCCESS : Int := 1
def CDS_402_ERROR : Int := -402
def CDS_501_ERROR : Int := -501
def CDS_701_ERROR : Int := -701
def CDS_709_ERROR : Int := -709
def CDS_720_ERROR : Int := -720

/-- The enum of the field `BrowseFlag` of `browse_request`. -/
inductive BROWSE_FLAG where
  | BrowseMetadata
  | BrowseDirectChildren
deriving DecidableEq, Repr

open BROWSE_FLAG

/-- The function `atoi`: optional white space and sign, then decimal digits; 0 when there is
no digit. -/
def atoi (s : CString) : Int :=
  let p := scan_sign (s.dropWhile c_isspace)
  let v : Int := (scan_digits p.2 0).1
  if p.1 then -v else v

/-- The struct `browse_request`. -/
structure browse_request where
  ObjectID : CString
  BrowseFlag : BROWSE_FLAG
  Filter : CString
  StartingIndex : Int
  RequestedCount : Int
  SortCriteria : CString

/-- The function `cds_parse_browse_request`: the return code and, on success, the request. -/
def cds_parse_browse_request (xml_read : CString → Option xml_node) (soap_action_body : CString) :
    Int × Option browse_request :=
  match xml_get_soap_body xml_read soap_action_body with
  | none => (CDS_402_ERROR, none)
  | some body_node =>
    match xml_first_node_by_name body_node "Browse".toList with
    | none => (CDS_402_ERROR, none)
    | some browse_node =>
      match xml_first_node_by_name browse_node "ObjectID".toList with
      | none => (CDS_402_ERROR, none)
      | some object_id =>
        match xml_first_node_by_name browse_node "BrowseFlag".toList with
        | none => (CDS_402_ERROR, none)
        | some flag =>
          match xml_first_node_by_name browse_node "Filter".toList with
          | none => (CDS_402_ERROR, none)
          | some filter =>
            match xml_first_node_by_name browse_node "StartingIndex".toList with
            | none => (CDS_402_ERROR, none)
            | some starting_index =>
              match xml_first_node_by_name browse_node "RequestedCount".toList with
              | none => (CDS_402_ERROR, none)
              | some requested_count =>
                match xml_first_node_by_name browse_node "SortCriteria".toList with
                | none => (CDS_402_ERROR, none)
                | some sort_criteria =>
                  (CDS_SUCCESS, some
                    { ObjectID := object_id.content,
                      BrowseFlag :=
                        if flag.content = "BrowseMetadata".toList then BrowseMetadata
                        else BrowseDirectChildren,
                      Filter := filter.content,
                      StartingIndex := atoi starting_index.content,
                      RequestedCount := atoi requested_count.content,
                      SortCriteria := sort_criteria.content })

/-- The static text `canned_response` of `cds_browse_metadata`. -/
def browse_metadata_canned_response : CString :=
  "<s:Envelope xmlns:s=\"http://schemas.xmlsoap.org/soap/envelope/\" s:encodingStyle=\"http://schemas.xmlsoap.org/soap/encoding/\"><s:Body><u:BrowseResponse xmlns:u=\"urn:schemas-upnp-org:service:ContentDirectory:1\"><Result>&lt;DIDL-Lite xmlns=&quot;urn:schemas-upnp-org:metadata-1-0/DIDL-Lite/&quot; xmlns:dc=&quot;http://purl.org/dc/elements/1.1/&quot; xmlns:upnp=&apos;urn:schemas-upnp-org:metadata-1-0/upnp/&apos; xmlns:dlna=&quot;urn:schemas-dlna-org:metadata-1-0/&quot; xmlns:sec=&quot;http://www.sec.co.kr/&quot;&gt;&lt;item id=&quot;A_F_0000_217&quot; parentID=&quot;A_F_0000&quot; restricted=&quot;1&quot;&gt;&lt;dc:title&gt;Zecchino d&amp;apos;oro - Un poco di zucchero&lt;/dc:title&gt;&lt;upnp:class&gt;object.item.audioItem&lt;/upnp:class&gt;&lt;upnp:album&gt;Nessun album&lt;/upnp:album&gt;&lt;sec:dcmInfo&gt;MOODSCORE=30322,MOODID=1,CREATIONDATE=1239615310,YEAR=2009&lt;/sec:dcmInfo&gt;&lt;dc:date&gt;2009-04-13&lt;/dc:date&gt;&lt;dc:creator&gt;Nessun cantante&lt;/dc:creator&gt;&lt;upnp:genre&gt;Other&lt;/upnp:genre&gt;&lt;res protocolInfo=&quot;http-get:*:audio/mpeg:DLNA.ORG_PN=MP3;DLNA.ORG_OP=01;DLNA.ORG_CI=0;DLNA.ORG_FLAGS=01500000000000000000000000000000&quot; size=&quot;3673383&quot; duration=&quot;0:03:03&quot;&gt;http://192.168.1.102:53235/A_F_0000_217.MP3&lt;/res&gt;&lt;/item&gt;&lt;/DIDL-Lite&gt;</Result><NumberReturned>1</NumberReturned><TotalMatches>1</TotalMatches><UpdateID>0</UpdateID></u:BrowseResponse></s:Body></s:Envelope>".toList

/-- The static text `canned_response` of `cds_browse_direct_children`. -/
def browse_direct_children_canned_response : CString :=
  "<s:Envelope xmlns:s=\"http://schemas.xmlsoap.org/soap/envelope/\" s:encodingStyle=\"http://schemas.xmlsoap.org/soap/encoding/\"><s:Body><u:BrowseResponse xmlns:u=\"urn:schemas-upnp-org:service:ContentDirectory:1\"><Result>&lt;DIDL-Lite xmlns=&quot;urn:schemas-upnp-org:metadata-1-0/DIDL-Lite/&quot; xmlns:dc=&quot;http://purl.org/dc/elements/1.1/&quot; xmlns:upnp=&apos;urn:schemas-upnp-org:metadata-1-0/upnp/&apos; xmlns:dlna=&quot;urn:schemas-dlna-org:metadata-1-0/&quot; xmlns:sec=&quot;http://www.sec.co.kr/&quot;&gt;&lt;container id=&quot;A_F_0000&quot; parentID=&quot;A_F&quot; childCount=&quot;218&quot; restricted=&quot;1&quot;&gt;&lt;dc:title&gt;Canzoni Bimbi&lt;/dc:title&gt;&lt;upnp:class&gt;object.container&lt;/upnp:class&gt;&lt;/container&gt;&lt;/DIDL-Lite&gt;</Result><NumberReturned>1</NumberReturned><TotalMatches>1</TotalMatches><UpdateID>0</UpdateID></u:BrowseResponse></s:Body></s:Envelope>".toList

/-- The function `cds_browse_metadata`: the return code and the text assigned to
`*BrowseResult`. -/
def cds_browse_metadata (_browse_req : browse_request) : Int × Option CString :=
  (CDS_SUCCESS, some browse_metadata_canned_response)

/-- The function `cds_browse_direct_children`: the return code and the text assigned to
`*BrowseResult`. -/
def cds_browse_direct_children (_browse_req : browse_request) : Int × Option CString :=
  (CDS_SUCCESS, some browse_direct_children_canned_response)

/-- The function `cds_Browse`: the return code and the text assigned to `*BrowseResponse`
(`none` when nothing is assigned). -/
def cds_Browse (xml_read : CString → Option xml_node) (soap_action_body : CString) :
    Int × Option CString :=
  match cds_parse_browse_request xml_read soap_action_body with
  | (res, some browse_req) =>
    if res = CDS_SUCCESS then
      match browse_req.BrowseFlag with
      | BrowseMetadata => cds_browse_metadata browse_req
      | BrowseDirectChildren => cds_browse_direct_children browse_req
    else (res, none)
  | (res, none) => (res, none)

/-- The static text of `cds_GetSearchCapabilities`. -/
def search_caps_response : CString :=
  "<s:Envelope xmlns:s=\"http://schemas.xmlsoap.org/soap/envelope/\" s:encodingStyle=\"http://schemas.xmlsoap.org/soap/encoding/\">  <s:Body>    <u:GetSearchCapabilitiesResponse xmlns:u=\"urn:schemas-upnp-org:service:ContentDirectory:1\">      <SearchCaps></SearchCaps>    </u:GetSearchCapabilitiesResponse>  </s:Body></s:Envelope>".toList

/-- The static text of `cds_GetSortCapabilities`. -/
def sort_caps_response : CString :=
  "<s:Envelope xmlns:s=\"http://schemas.xmlsoap.org/soap/envelope/\" s:encodingStyle=\"http://schemas.xmlsoap.org/soap/encoding/\">  <s:Body>    <u:GetSortCapabilitiesResponse xmlns:u=\"urn:schemas-upnp-org:service:ContentDirectory:1\">      <SortCaps></SortCaps>    </u:GetSortCapabilitiesResponse>  </s:Body></s:Envelope>".toList

/-- The static text of `cds_GetSystemUpdateID`. -/
def sys_update_id_response : CString :=
  "<s:Envelope xmlns:s=\"http://schemas.xmlsoap.org/soap/envelope/\" s:encodingStyle=\"http://schemas.xmlsoap.org/soap/encoding/\">  <s:Body>    <u:GetSystemUpdateIDResponse xmlns:u=\"urn:schemas-upnp-org:service:ContentDirectory:1\">      <Id>1</Id>    </u:GetSystemUpdateIDResponse>  </s:Body></s:Envelope>".toList

/-- The function `cds_GetSearchCapabilities`. -/
def cds_GetSearchCapabilities : Int × Option CString := (CDS_SUCCESS, some search_caps_response)

/-- The function `cds_GetSortCapabilities`. -/
def cds_GetSortCapabilities : Int × Option CString := (CDS_SUCCESS, some sort_caps_response)

/-- The function `cds_GetSystemUpdateID`. -/
def cds_GetSystemUpdateID : Int × Option CString := (CDS_SUCCESS, some sys_update_id_response)

/-- The function `cds_X_GetObjectIDfromIndex`: it reads `CategoryType` and `Index` and returns
`CDS_SUCCESS` without assigning the response (`none`). -/
def cds_X_GetObjectIDfromIndex (xml_read : CString → Option xml_node) (soap_action : CString) :
    Int × Option CString :=
  match xml_get_soap_body xml_read soap_action with
  | none => (CDS_402_ERROR, none)
  | some body_node =>
    match xml_first_node_by_name body_node "X_GetObjectIDfromIndex".toList with
    | none => (CDS_402_ERROR, none)
    | some node =>
      match xml_first_node_by_name node "CategoryType".toList with
      | none => (CDS_402_ERROR, none)
      | some _cat =>
        -- `xml_next_sibling_by_name( node, "Index" )`: the siblings after `CategoryType`
        match ((node.children.dropWhile (fun n => n.name ≠ "CategoryType".toList)).drop 1).find?
            (fun n => n.name = "Index".toList) with
        | none => (CDS_402_ERROR, none)
        | some _index => (CDS_SUCCESS, none)

/-- The handlers `cds_dispatch_action` can call. -/
inductive cds_action where
  | Browse
  | GetSortCapabilities
  | GetSearchCapabilities
  | GetSystemUpdateID
  | X_GetObjectIDfromIndex
deriving DecidableEq, Repr

/-- The result of the handler of an action. -/
def cds_run_action (xml_read : CString → Option xml_node) (soap_action_body : CString) :
    cds_action → Int × Option CString
  | .Browse => cds_Browse xml_read soap_action_body
  | .GetSortCapabilities => cds_GetSortCapabilities
  | .GetSearchCapabilities => cds_GetSearchCapabilities
  | .GetSystemUpdateID => cds_GetSystemUpdateID
  | .X_GetObjectIDfromIndex => cds_X_GetObjectIDfromIndex xml_read soap_action_body

/-- The function `cds_dispatch_action`: the handler that was called (`none` when no handler
was called), the return code and the text assigned to `*action_response`. -/
def cds_dispatch_action (xml_read : CString → Option xml_node)
    (soap_action soap_action_body : CString) : Option cds_action × Int × Option CString :=
  if strstr soap_action "#Browse".toList ≠ none then
    (some .Browse, cds_Browse xml_read soap_action_body)
  else if strstr soap_action "#GetSortCapabilities".toList ≠ none then
    (some .GetSortCapabilities, cds_GetSortCapabilities)
  else if strstr soap_action "#GetSearchCapabilities".toList ≠ none then
    (some .GetSearchCapabilities, cds_GetSearchCapabilities)
  else if strstr soap_action "#GetSystemUpdateID".toList ≠ none then
    (some .GetSystemUpdateID, cds_GetSystemUpdateID)
  else if strstr soap_action "#X_GetObjectIDfromIndex".toList ≠ none then
    (some .X_GetObjectIDfromIndex, cds_X_GetObjectIDfromIndex xml_read soap_action_body)
  else (none, CDS_720_ERROR, none)

/-! ## Item predicates (`item.h`, `item.c`) -/

/-- The helper `item_is_audio` of `item.h`. -/
def item_is_audio (item : item_info) : Nat := if item.type &&& ITEM_AUDIO ≠ 0 then 1 else 0

/-- The helper `item_is_video` of `item.h`. -/
def item_is_video (item : item_info) : Nat := if item.type &&& ITEM_VIDEO ≠ 0 then 1 else 0

/-- The helper `item_is_audio_video` of `item.h`. -/
def item_is_audio_video (item : item_info) : Nat := item_is_video item &&& item_is_audio item

/-- The streams the loop of `item_getinfo` tells apart: `CODEC_TYPE_AUDIO`, `CODEC_TYPE_VIDEO`
with `IS_PHOTO`, `CODEC_TYPE_VIDEO` without, and every other codec type. -/
inductive codec_stream where
  | audio
  | photo
  | video
  | other
deriving DecidableEq, Repr

/-- One turn of the stream loop of `item_getinfo` on the field `type`, the specific
`..._getinfo` call having succeeded. -/
def item_getinfo_stream (type : ITEM_TYPE) : codec_stream → ITEM_TYPE
  | .audio => if type &&& ITEM_VIDEO ≠ 0 then ITEM_AUDIOVIDEO else ITEM_AUDIO
  | .photo => ITEM_PHOTO
  | .video => if type &&& ITEM_AUDIO ≠ 0 then ITEM_AUDIOVIDEO else ITEM_VIDEO
  | .other => type

/-- The function `item_getinfo` on a file whose identity is `id` and whose streams are
`streams`, every `..._getinfo` call succeeding: the structure starts zeroed (`calloc`). -/
def item_getinfo (filename : CString) (id : OBJECT_ID) (streams : List codec_stream) :
    item_info :=
  { type := streams.foldl item_getinfo_stream ITEM_UNDEFINED, id := id, filename := filename }

/-! ## UUID generator (`uuid.c`) -/

/-- The constant `RAND_MAX` of the C library the project is built with. -/
def RAND_MAX : Nat := 32767

/-- The character of a hexadecimal digit, lower case as `%x` prints it. -/
def hex_digit_char (d : Nat) : Char := if d < 10 then Char.ofNat (48 + d) else Char.ofNat (87 + d)

/-- Hexadecimal digits of `n`, most significant first, put in front of `acc`. -/
def xtoa_aux : Nat → Nat → CString → CString
  | 0, _, acc => acc
  | fuel + 1, n, acc =>
    if n / 16 = 0 then hex_digit_char (n % 16) :: acc
    else xtoa_aux fuel (n / 16) (hex_digit_char (n % 16) :: acc)

/-- The `%02x` conversion of `sprintf`: at least two digits, padded with `0`. -/
def fmt_02x (n : Nat) : CString :=
  if n < 16 then '0' :: xtoa_aux (n + 1) n [] else xtoa_aux (n + 1) n []

/-- The byte `(unsigned char)((double) rand() / (RAND_MAX + 1) * 255)` for the value `r`
returned by `rand()`. -/
def random_byte (r : Nat) : Nat := ((r % (RAND_MAX + 1)) * 255 / (RAND_MAX + 1)) % 256

/-- The function `uuid_generate`; `rand i` is the value of the `i`-th call of `rand()`. -/
def uuid_generate (rand : Nat → Nat) : CString :=
  let b : Nat → Nat := fun i => random_byte (rand i)
  let b6 := ((b 6) &&& 0x0f) ||| 0x40
  let b8 := ((b 8) &&& 0x3f) ||| 0x80
  fmt_02x (b 0) ++ fmt_02x (b 1) ++ fmt_02x (b 2) ++ fmt_02x (b 3) ++ ['-'] ++
  fmt_02x (b 4) ++ fmt_02x (b 5) ++ ['-'] ++
  fmt_02x b6 ++ fmt_02x (b 7) ++ ['-'] ++
  fmt_02x b8 ++ fmt_02x (b 9) ++ ['-'] ++
  fmt_02x (b 10) ++ fmt_02x (b 11) ++ fmt_02x (b 12) ++ fmt_02x (b 13) ++ fmt_02x (b 14) ++
  fmt_02x (b 15)

/-! ## Configuration (`config.c`) -/

def CONFIG_SUCCESS : Int := 0
def CONFIG_LOAD_ERROR : Int := -1

/-- The fields `config_version`, `config_uuid` and `config_announce_as` of the struct
`config_param`; `none` is the `NULL` pointer. -/
structure config_param where
  config_version : Option CString
  config_uuid : Option CString
  config_announce_as : Option CString
deriving DecidableEq, Repr

/-- The static `g_param` at program start. -/
def g_param_start : config_param :=
  { config_version := none, config_uuid := none, config_announce_as := none }

/-- The function `config_parse_uuid`: the parameters and the `uuid` element afterwards. -/
def config_parse_uuid (rand : Nat → Nat) (uuid_node : xml_node) (g_param : config_param) :
    config_param × xml_node :=
  if uuid_node.content = [] then
    let node := xml_node.mk uuid_node.name (uuid_generate rand) uuid_node.children
    ({ g_param with config_uuid := some node.content }, node)
  else (g_param, uuid_node)

/-- The function `config_parse_announce_as`. -/
def config_parse_announce_as (announce_as_node : xml_node) (g_param : config_param) :
    config_param × xml_node :=
  if announce_as_node.content = [] then
    let node := xml_node.mk announce_as_node.name "YADA".toList announce_as_node.children
    ({ g_param with config_announce_as := some node.content }, node)
  else (g_param, announce_as_node)

/-- The function `config_parse` on the root element `root_node` of the document, whose
`version` attribute is `version`: the return code, the parameters and the `uuid` element
afterwards. The result is `none` when the code reads through a `NULL` pointer or past the end
of the version text. The parsers of the sections `httpd` and `upnp` assign other fields of
`g_param` only. -/
def config_parse (rand : Nat → Nat) (root_node : Option xml_node) (version : Option CString)
    (g_param : config_param) : Option (Int × config_param × Option xml_node) :=
  match root_node with
  | none => some (CONFIG_LOAD_ERROR, g_param, none)
  | some root_node =>
    match version with
    | none => none
    | some v =>
      let g_param := { g_param with config_version := some v }
      if v.length < 2 ∧ v.head? ≠ some '1' then none
      else if v.head? ≠ some '1' ∧ v.get? 2 ≠ some '0' then
        some (CONFIG_LOAD_ERROR, g_param, none)
      else
        match xml_first_node_by_name root_node "uuid".toList with
        | none => some (CONFIG_LOAD_ERROR, g_param, none)
        | some node =>
          let (g_param, uuid_node) := config_parse_uuid rand node g_param
          match xml_first_node_by_name root_node "announce_as".toList with
          | none => some (CONFIG_LOAD_ERROR, g_param, some uuid_node)
          | some node =>
            let (g_param, _) := config_parse_announce_as node g_param
            if (xml_first_node_by_name root_node "httpd".toList).isNone then
              some (CONFIG_LOAD_ERROR, g_param, some uuid_node)
            else if (xml_first_node_by_name root_node "upnp".toList).isNone then
              some (CONFIG_LOAD_ERROR, g_param, some uuid_node)
            else if (xml_first_node_by_name root_node "cds".toList).isNone then
              some (CONFIG_LOAD_ERROR, g_param, some uuid_node)
            else if (xml_first_node_by_name root_node "cms".toList).isNone then
              some (CONFIG_LOAD_ERROR, g_param, some uuid_node)
            else some (CONFIG_SUCCESS, g_param, some uuid_node)

/-- The function `config_get_uuid`. -/
def config_get_uuid (g_param : config_param) : Option CString := g_param.config_uuid

/-! ## Sample inputs -/

/-- The MD5 digests of the two sample paths `/share/a` and `/share/a/b`. -/
def md5_sample (path : CString) : OBJECT_ID :=
  if path = "/share/a".toList then "3e14d59ffc615c720980ceeafd56cf7f".toList
  else if path = "/share/a/b".toList then "17ab8b1b1b3c845648f11b2d1b536dfc".toList
  else "d41d8cd98f00b204e9800998ecf8427e".toList

/-- A photo item. -/
def sample_photo : item_info :=
  { type := ITEM_PHOTO, id := "0cc175b9c0f1b6a831c399e269772661".toList,
    filename := "test.jpg".toList }

/-- An audio item. -/
def sample_audio : item_info :=
  { type := ITEM_AUDIO, id := "92eb5ffee6ae2fec3ad71c777531578f".toList,
    filename := "test.mp3".toList }

/-- The tree after `cds_init`. -/
def init_heap : Option Heap := cds_init static_heap

/-- The tree after `cds_init`, `cds_add_folder("/share/a", "A", root)` and
`cds_add_folder("/share/a/b", "B", A)`, with the identity returned for `B`. -/
def nested_heap : Option (Heap × Option OBJECT_ID) := do
  let h ← init_heap
  let r ← cds_add_folder md5_sample h (some "/share/a".toList) (some "A".toList) CDS_ROOT_TREE_ID
  let a ← r.2
  cds_add_folder md5_sample r.1 (some "/share/a/b".toList) (some "B".toList) a

/-- The tree after `cds_init` and two calls `cds_add_item(audio, root)`: the objects 4 and 5
are the two children of `audio_tree`. -/
def two_items_heap : Option Heap := do
  let h ← init_heap
  let r ← cds_add_item h (some sample_audio) CDS_ROOT_TREE_ID
  let r ← cds_add_item r.1 (some sample_audio) CDS_ROOT_TREE_ID
  pure r.1

/-- The child cursors and the count of the folder at address `a`. -/
def folder_cursors (h : Heap) (a : Nat) : Option (Option Nat × Option Nat × Int) :=
  h[a]?.map (fun o => (o.first_child, o.last_child, o.num_children))

/-- The identity of the parent of the object at address `a`. -/
def parent_id_of (h : Heap) (a : Nat) : Option OBJECT_ID := do
  let o ← h[a]?
  let p ← o.parent
  let po ← h[p]?
  pure po.id

/-- An `npt_time` with all bytes zero. -/
def npt_zero : npt_time :=
  { type := NPT_INVALID, sec_hi := 0, sec_lo := 0, hh := 0, mm := 0, ss := 0, low := 0 }

/-- A `bytes_range` with all bytes zero. -/
def br_zero : bytes_range := { type := BR_INVALID, first := 0, last := 0 }

/-- A `timeseek_range` with all bytes zero. -/
def tsr_zero : timeseek_range :=
  { type := TSR_INVALID, npt_start := npt_zero, npt_end := npt_zero,
    instance_duration := npt_zero, range_start := 0, range_end := 0,
    instance_length := npt_zero }

/-- The tree of `nested_heap` after `cds_add_item(photo, B)`, with the returned pointer. -/
def nested_item_heap : Option (Heap × Option Nat) :=
  nested_heap.bind fun r => cds_add_item r.1 (some sample_photo) (r.2.getD [])

/-- The link fields `(parent, previous, next)` of the object at address `a`. -/
def object_links (h : Heap) (a : Nat) : Option (Option Nat × Option Nat × Option Nat) :=
  h[a]?.map (fun o => (o.parent, o.previous, o.next))

/-- The name and the identity of the folder at address `a`. -/
def folder_name_id (h : Heap) (a : Nat) : Option (CString × OBJECT_ID) :=
  h[a]?.map (fun o => (o.name, o.id))

/-- The parsed form of a Browse request with the given `ObjectID` and `BrowseFlag` texts. -/
def browse_request_xml (object_id flag : CString) : xml_node :=
  .mk "Envelope".toList [] [.mk "Body".toList [] [.mk "Browse".toList []
    [.mk "ObjectID".toList object_id [], .mk "BrowseFlag".toList flag [],
     .mk "Filter".toList "*".toList [], .mk "StartingIndex".toList "0".toList [],
     .mk "RequestedCount".toList "0".toList [], .mk "SortCriteria".toList [] []]]]

/-- The parsed form of the documented `X_GetObjectIDfromIndex` request (`CategoryType` 22,
`Index` 216). -/
def get_object_id_request_xml : xml_node :=
  .mk "Envelope".toList [] [.mk "Body".toList [] [.mk "X_GetObjectIDfromIndex".toList []
    [.mk "CategoryType".toList "22".toList [], .mk "Index".toList "216".toList []]]]

/-- The SOAPAction header texts of the five actions. -/
def cds_action_names : List (CString × cds_action) :=
  [("#Browse".toList, .Browse), ("#GetSortCapabilities".toList, .GetSortCapabilities),
   ("#GetSearchCapabilities".toList, .GetSearchCapabilities),
   ("#GetSystemUpdateID".toList, .GetSystemUpdateID),
   ("#X_GetObjectIDfromIndex".toList, .X_GetObjectIDfromIndex)]

/-- A configuration document with the given text in its `uuid` element. -/
def config_doc (uuid : CString) : xml_node :=
  .mk "yada".toList [] [.mk "uuid".toList uuid [], .mk "announce_as".toList "YADA".toList [],
    .mk "httpd".toList [] [], .mk "upnp".toList [] [], .mk "cds".toList [] [],
    .mk "cms".toList [] []]

/-- The content of the `uuid` element `config_parse` leaves. -/
def config_uuid_element (r : Option (Int × config_param × Option xml_node)) : Option CString :=
  r.bind (fun x => x.2.2.map (fun n => n.content))

/-- Whether `c` is a lower-case hexadecimal digit. -/
def is_lower_hex (c : Char) : Bool := ('0' ≤ c && c ≤ '9') || ('a' ≤ c && c ≤ 'f')

/-! ## HTTP server (`httpd.c`): data and tokenizer -/

/-- The enum `HTTP_METHOD`. -/
inductive HTTP_METHOD where
  | HTTP_METHOD_UNKNOWN
  | HTTP_METHOD_HEAD
  | HTTP_METHOD_GET
  | HTTP_METHOD_POST
deriving DecidableEq, Repr

/-- The enum `HTTP_VERSION`. -/
inductive HTTP_VERSION where
  | HTTP_VERSION_UNKNOWN
  | HTTP_VERSION_10
  | HTTP_VERSION_11
deriving DecidableEq, Repr

/-- The enum `TRANSFER_MODE`. -/
inductive TRANSFER_MODE where
  | TM_STREAMING
  | TM_INTERACTIVE
  | TM_BACKGROUND
deriving DecidableEq, Repr

open HTTP_METHOD HTTP_VERSION TRANSFER_MODE

/-- The struct `http_headers`; `none` is the `NULL` pointer. -/
structure http_headers where
  method : HTTP_METHOD
  method_uri : Option CString
  version : HTTP_VERSION
  date : Option CString
  user_agent : Option CString
  content_length : Int
  chunked : Int
  soap_action : Option CString
  tsr : timeseek_range
  br : bytes_range
  friendly_name : Option CString
  transfer_mode : TRANSFER_MODE
deriving DecidableEq, Repr

/-- The structure `calloc( 1, sizeof(http_headers) )` gives: all bytes zero. -/
def http_headers_calloc : http_headers :=
  { method := HTTP_METHOD_UNKNOWN, method_uri := none, version := HTTP_VERSION_UNKNOWN,
    date := none, user_agent := none, content_length := 0, chunked := 0, soap_action := none,
    tsr := tsr_zero, br := br_zero, friendly_name := none, transfer_mode := TM_STREAMING }

/-- The struct `httpd_context` without the thread handle and the mutex. -/
structure httpd_context where
  httpd_initialized : Nat
  ip_address : CString
  port : Int
  doc_root_path : Option CString
  httpd_run : Int
  error_code : Int
  content_features : Int
  timeseek_range : Int
  bytes_range : Int
  transfer_mode : Int
  sec_getmediainfo : Int
  sec_getcaptioninfo : Int
deriving DecidableEq, Repr

/-- The function `httpd_reset_context`. -/
def httpd_reset_context (g_context : httpd_context) : httpd_context :=
  { g_context with
    error_code := 0, content_features := 0, timeseek_range := 0, bytes_range := 0,
    sec_getmediainfo := 0, sec_getcaptioninfo := 0 }

/-- The zero byte that ends a C string. -/
def NUL : Char := Char.ofNat 0

/-- The byte at index `i` of the zero-terminated buffer whose bytes before the terminator are
`buf`: `none` past the terminator, where the allocated buffer ends. -/
def peek (buf : CString) (i : Nat) : Option Char :=
  if i < buf.length then buf.get? i else if i = buf.length then some NUL else none

/-- The C string that starts at index `p` of the buffer. -/
def c_str (buf : CString) (p : Nat) : CString := (buf.drop p).takeWhile (fun c => c ≠ NUL)

/-- The `n` bytes `memcpy` reads from index `p` of the buffer; `none` when they are not all
inside the buffer. -/
def copy_bytes (buf : CString) (p n : Nat) : Option CString :=
  if p + n ≤ buf.length + 1 then some (((buf ++ [NUL]).drop p).take n) else none

/-- The C string left in a zeroed area of `len + 1` bytes after `memcpy` of `len` bytes from
index `token`. -/
def copy_token (buf : CString) (token len : Nat) : Option CString :=
  (copy_bytes buf token len).map (fun l => l.takeWhile (fun c => c ≠ NUL))

/-- The function `tolower` on ASCII letters. -/
def c_tolower (c : Char) : Char :=
  if 65 ≤ c.toNat ∧ c.toNat ≤ 90 then Char.ofNat (c.toNat + 32) else c

/-- The test `strncmp( buf + token, s, strlen(s) ) == 0` for a literal `s`. -/
def strncmp_is (buf : CString) (token : Nat) (s : CString) : Bool :=
  (buf.drop token).take s.length = s

/-- The test `strncasecmp( buf + token, s, strlen(s) ) == 0` for a literal `s`. -/
def strncasecmp_is (buf : CString) (token : Nat) (s : CString) : Bool :=
  ((buf.drop token).take s.length).map c_tolower = s.map c_tolower

/-- The first loop of `httpd_next_header_token`: the value of `idx` when it ends. -/
def skip_space : Nat → CString → Nat → Nat → Option Nat
  | 0, _, _, _ => none
  | fuel + 1, buf, token, idx =>
    match peek buf (token + idx) with
    | none => none
    | some c =>
      if c ≠ NUL ∧ c_isspace c ∧ c ≠ '\r' then skip_space fuel buf token (idx + 1)
      else some idx

/-- The second loop of `httpd_next_header_token`: the value of `idx` when it ends. -/
def skip_token : Nat → CString → Nat → Nat → Option Nat
  | 0, _, _, _ => none
  | fuel + 1, buf, token, idx =>
    match peek buf (token + idx) with
    | none => none
    | some c =>
      if c ≠ NUL ∧ ¬ c_isspace c ∧ c ≠ '\n' then skip_token fuel buf token (idx + 1)
      else some idx

/-- The function `httpd_next_header_token` called on `buf + p`: the index of the token and
`*len`. The second loop goes on from the value `idx` has after the first one, counted from the
token. The result is `none` when a byte outside the buffer is read. -/
def httpd_next_header_token (buf : CString) (p : Nat) : Option (Nat × Nat) := do
  let idx ← skip_space (buf.length + 2) buf p 0
  let token := p + idx
  let idx ← skip_token (buf.length + 2) buf token idx
  if idx = 0 then
    let c0 ← peek buf token
    if c0 = '\r' then
      let c1 ← peek buf (token + 1)
      if c1 = '\n' then pure (token, 2) else pure (token, idx)
    else pure (token, idx)
  else pure (token, idx)

/-- The loop `do token = httpd_next_header_token( token+len, &len ); while( token[0] != '\r' )`;
`none` also when it does not end. -/
def skip_to_cr : Nat → CString → Nat → Nat → Option (Nat × Nat)
  | 0, _, _, _ => none
  | fuel + 1, buf, token, len =>
    match httpd_next_header_token buf (token + len) with
    | none => none
    | some (token, len) =>
      match peek buf token with
      | none => none
      | some c => if c ≠ '\r' then skip_to_cr fuel buf token len else some (token, len)

/-- The function `httpd_validate_headers`: the return value and the context afterwards. -/
def httpd_validate_headers (headers : http_headers) (g_context : httpd_context) :
    Int × httpd_context :=
  if g_context.transfer_mode ≠ 0 ∧
      (headers.transfer_mode = TM_INTERACTIVE ∨ headers.transfer_mode = TM_BACKGROUND) ∧
      g_context.timeseek_range ≠ 0 then
    (-400, { g_context with error_code := 400 })
  else (0, g_context)

/-! ## HTTP server (`httpd.c`): header and body parsers -/

/-- The local variables `token` and `len` of `httpd_parse_headers`, the structure `*headers`
and the global context. -/
structure parse_state where
  token : Nat
  len : Nat
  headers : http_headers
  g_context : httpd_context
deriving DecidableEq, Repr

/-- How one turn of the loop of `httpd_parse_headers` ends: the loop goes on, or it is left
(by `break` or with `done = 1`). -/
inductive parse_step where
  | next (s : parse_state)
  | stop (s : parse_state)
deriving DecidableEq, Repr

/-- The end of the loop body of `httpd_parse_headers`: the next token is read and, when it is
`\r\n`, `token` is moved behind it and `done` is set. -/
def httpd_parse_headers_turn_end (buf : CString) (s : parse_state) : Option parse_step := do
  let (token, len) ← httpd_next_header_token buf (s.token + s.len)
  if strncmp_is buf token "\r\n".toList then
    pure (.stop { s with token := token + 2, len := len })
  else pure (.next { s with token := token, len := len })

/-- The request-line and general-header branches of the loop body of `httpd_parse_headers`;
`none` in the outer option when no branch applies. -/
def httpd_parse_general_header (buf : CString) (s : parse_state) :
    Option (Option parse_step) :=
  let h := s.headers
  if strncasecmp_is buf s.token "GET ".toList || strncasecmp_is buf s.token "POST".toList then
    some (do
      let c ← peek buf s.token
      let method := if c = 'G' ∨ c = 'g' then HTTP_METHOD_GET else HTTP_METHOD_POST
      let (token, len) ← httpd_next_header_token buf (s.token + s.len)
      let method_uri ← copy_token buf token len
      let (token, len) ← httpd_next_header_token buf (token + len)
      let c7 ← peek buf (token + 7)
      let version := if c7 = '0' then HTTP_VERSION_10 else HTTP_VERSION_11
      let (token, len) ← httpd_next_header_token buf (token + len)
      httpd_parse_headers_turn_end buf
        { s with token := token, len := len,
                 headers := { h with method := method, method_uri := some method_uri,
                                     version := version } })
  else if strncasecmp_is buf s.token "HEAD".toList then
    some (do
      let (token, len) ← httpd_next_header_token buf (s.token + s.len)
      let method_uri ← copy_token buf token len
      let (token, len) ← httpd_next_header_token buf (token + len)
      httpd_parse_headers_turn_end buf
        { s with token := token, len := len,
                 headers := { h with method := HTTP_METHOD_POST,
                                     method_uri := some method_uri } })
  else if strncasecmp_is buf s.token "User-Agent".toList then
    some (do
      let (token, len) ← httpd_next_header_token buf (s.token + s.len)
      let user_agent ← copy_token buf token len
      let (token, len) ← httpd_next_header_token buf (token + len)
      httpd_parse_headers_turn_end buf
        { s with token := token, len := len,
                 headers := { h with user_agent := some user_agent } })
  else if strncasecmp_is buf s.token "Content-Length".toList then
    some (do
      let (token, len) ← httpd_next_header_token buf (s.token + s.len)
      let content_length := atoi (c_str buf token)
      let (token, len) ← httpd_next_header_token buf (token + len)
      httpd_parse_headers_turn_end buf
        { s with token := token, len := len,
                 headers := { h with content_length := content_length } })
  else if strncasecmp_is buf s.token "Transfer-Encoding".toList then
    some (httpd_parse_headers_turn_end buf
      { s with headers := { h with chunked := 1,
                                   content_length :=
                                     if h.content_length ≠ -1 then -1 else h.content_length } })
  else if strncasecmp_is buf s.token "SOAPACTION".toList then
    some (do
      let (token, len) ← httpd_next_header_token buf (s.token + s.len)
      let soap_action ← copy_token buf token len
      let (token, len) ← httpd_next_header_token buf (token + len)
      httpd_parse_headers_turn_end buf
        { s with token := token, len := len,
                 headers := { h with soap_action := some soap_action } })
  else none

/-- The DLNA and vendor header branches of the loop body of `httpd_parse_headers`; `none` in
the outer option when no branch applies. -/
def httpd_parse_dlna_header (buf : CString) (s : parse_state) : Option (Option parse_step) :=
  let h := s.headers
  let g := s.g_context
  if strncasecmp_is buf s.token "getcontentFeatures.dlna.org".toList then
    some (do
      -- the token found is passed to `atoi` only: `token` stays, `len` is overwritten
      let (value, len) ← httpd_next_header_token buf (s.token + s.len)
      if atoi (c_str buf value) ≠ 1 then
        pure (.stop { s with len := len, g_context := { g with error_code := 400 } })
      else
        let (token, len) ← httpd_next_header_token buf (s.token + len)
        httpd_parse_headers_turn_end buf
          { s with token := token, len := len, g_context := { g with content_features := 1 } })
  else if strncasecmp_is buf s.token "TimeSeekRange.dlna.org".toList then
    some (do
      let (token, len) ← httpd_next_header_token buf (s.token + s.len)
      let (res, tsr) ← timeseek_parse (c_str buf token) h.tsr
      if res = 0 then
        pure (.stop { token := token, len := len, headers := { h with tsr := tsr },
                      g_context := { g with error_code := 416 } })
      else
        httpd_parse_headers_turn_end buf
          { token := token, len := len, headers := { h with tsr := tsr },
            g_context := { g with timeseek_range := 1 } })
  else if strncasecmp_is buf s.token "Range".toList then
    some (do
      let (token, len) ← httpd_next_header_token buf (s.token + s.len)
      let (res, br) := bytesrange_parse (c_str buf token) h.br
      if res = 0 then
        pure (.stop { token := token, len := len, headers := { h with br := br },
                      g_context := { g with error_code := 416 } })
      else
        httpd_parse_headers_turn_end buf
          { token := token, len := len, headers := { h with br := br },
            g_context := { g with bytes_range := 1 } })
  else if strncasecmp_is buf s.token "friendlyName.dlna.org".toList then
    some (do
      let (token, len) ← httpd_next_header_token buf (s.token + s.len)
      let friendly_name ← copy_token buf token len
      httpd_parse_headers_turn_end buf
        { s with token := token, len := len,
                 headers := { h with friendly_name := some friendly_name } })
  else if strncasecmp_is buf s.token "transferMode.dlna.org".toList then
    some (do
      let (token, len) ← httpd_next_header_token buf (s.token + s.len)
      let mode : Option TRANSFER_MODE :=
        if strncmp_is buf token "Streaming".toList then some TM_STREAMING
        else if strncmp_is buf token "Interactive".toList then some TM_INTERACTIVE
        else if strncmp_is buf token "Background".toList then some TM_BACKGROUND
        else none
      match mode with
      | none =>
        pure (.stop { s with token := token, len := len,
                             g_context := { g with error_code := 400 } })
      | some m =>
        httpd_parse_headers_turn_end buf
          { token := token, len := len, headers := { h with transfer_mode := m },
            g_context := { g with transfer_mode := 1 } })
  else if strncasecmp_is buf s.token "getMediaInfo.sec".toList then
    some (httpd_parse_headers_turn_end buf { s with g_context := { g with sec_getmediainfo := 1 } })
  else if strncasecmp_is buf s.token "getCaptionInfo.sec".toList then
    some (httpd_parse_headers_turn_end buf
      { s with g_context := { g with sec_getcaptioninfo := 1 } })
  else none

/-- One turn of the loop of `httpd_parse_headers`. -/
def httpd_parse_headers_turn (buf : CString) (s : parse_state) : Option parse_step :=
  match httpd_parse_general_header buf s with
  | some r => r
  | none =>
    match httpd_parse_dlna_header buf s with
    | some r => r
    | none => do
      -- a header that is not recognised
      let (token, len) ← skip_to_cr (buf.length + 2) buf s.token s.len
      httpd_parse_headers_turn_end buf { s with token := token, len := len }

/-- The loop of `httpd_parse_headers`: the state when the loop is left. -/
def httpd_parse_headers_loop : Nat → CString → parse_state → Option parse_state
  | 0, _, _ => none
  | fuel + 1, buf, s =>
    match httpd_parse_headers_turn buf s with
    | none => none
    | some (.stop s) => some s
    | some (.next s) => httpd_parse_headers_loop fuel buf s

/-- The function `httpd_parse_headers`: the value returned (`token - buf`), the structure
`*headers` and the context afterwards. The result is `none` when the code reads outside the
buffer, has undefined behaviour in `timeseek_parse`, or does not return. -/
def httpd_parse_headers (g_context : httpd_context) (buf : CString) :
    Option (Nat × http_headers × httpd_context) := do
  let (token, len) ← httpd_next_header_token buf 0
  let s ← httpd_parse_headers_loop (buf.length + 2) buf
    { token := token, len := len,
      headers := { http_headers_calloc with content_length := -1 }, g_context := g_context }
  pure (s.token, s.headers, (httpd_validate_headers s.headers s.g_context).2)

/-- The value of a hexadecimal digit. -/
def hex_value (c : Char) : Option Nat :=
  if c_isdigit c then some (c.toNat - 48)
  else if 97 ≤ c.toNat ∧ c.toNat ≤ 102 then some (c.toNat - 87)
  else if 65 ≤ c.toNat ∧ c.toNat ≤ 70 then some (c.toNat - 55)
  else none

/-- The hexadecimal digits at the start of a text: their value, continuing from `acc`. -/
def scan_hex : CString → Nat → Nat
  | [], acc => acc
  | c :: cs, acc =>
    match hex_value c with
    | some d => scan_hex cs (acc * 16 + d)
    | none => acc

/-- The call `strtol( s, NULL, 16 )` with a 32-bit `long`: white space, an optional sign, an
optional `0x` in front of a digit, hexadecimal digits; the value is limited to the range of
`long`. -/
def strtol16 (s : CString) : Int :=
  let p := scan_sign (s.dropWhile c_isspace)
  let digits : CString :=
    match p.2 with
    | '0' :: x :: d :: r =>
      if (x = 'x' ∨ x = 'X') ∧ (hex_value d).isSome then d :: r else p.2
    | t => t
  let v : Int := scan_hex digits 0
  if p.1 then max (-v) (-2147483648) else min v 2147483647

/-- The loop `do token = httpd_next_header_token( token+next_size, &len );
while( token[0] != '\r' )` of `httpd_parse_body`; `none` also when it does not end. -/
def skip_chunk_end : Nat → CString → Nat → Nat → Option (Nat × Nat)
  | 0, _, _, _ => none
  | fuel + 1, buf, token, next_size =>
    match httpd_next_header_token buf (token + next_size) with
    | none => none
    | some (token, len) =>
      match peek buf token with
      | none => none
      | some c => if c ≠ '\r' then skip_chunk_end fuel buf token next_size else some (token, len)

/-- The chunk loop of `httpd_parse_body`: `body_length` and `full_body` when it is left. -/
def httpd_parse_chunks : Nat → CString → Nat → Nat → Option CString → Nat →
    Option (Nat × Option CString)
  | 0, _, _, _, _, _ => none
  | fuel + 1, buf, token, len, full_body, body_length =>
    let next_size := strtol16 (c_str buf token)
    if next_size = 0 then some (body_length, full_body)
    else if next_size < 0 then none
    else
      match skip_to_cr (buf.length + 2) buf token len with
      | none => none
      | some (token, len) =>
        match httpd_next_header_token buf (token + len) with
        | none => none
        | some (token, _) =>
          match copy_bytes buf token next_size.toNat with
          | none => none
          | some chunk =>
            match skip_chunk_end (buf.length + 2) buf token next_size.toNat with
            | none => none
            | some (token, len) =>
              match httpd_next_header_token buf (token + len) with
              | none => none
              | some (token, len) =>
                httpd_parse_chunks fuel buf token len
                  (some (full_body.getD [] ++ chunk))
                  (body_length + next_size.toNat)

/-- The function `httpd_parse_body` called on `buf + p`: the length returned and the bytes of
`(*body)->message` before its terminating zero (`none` for `NULL`). The result is `none` when
the code reads outside the buffer or does not return. -/
def httpd_parse_body (buf : CString) (p : Nat) (content_length : Int) :
    Option (Int × Option CString) :=
  if content_length = -1 then do
    let (token, len) ← httpd_next_header_token buf p
    let (body_length, full_body) ← httpd_parse_chunks (buf.length + 2) buf token len none 0
    pure (body_length, full_body)
  else if content_length > 0 then do
    let full_body ← copy_bytes buf p content_length.toNat
    pure (content_length, some full_body)
  else some (0, none)

/-- The struct `http_message` with the two structures it points to. -/
structure http_message where
  headers : http_headers
  body_content_length : Int
  body_message : Option CString
deriving DecidableEq, Repr

/-- The function `httpd_parse_http_message`: the length returned, the message and the context
afterwards. -/
def httpd_parse_http_message (g_context : httpd_context) (buf : CString) :
    Option (Int × http_message × httpd_context) := do
  let (length, headers, g_context) ← httpd_parse_headers g_context buf
  let (body_length, full_body) ← httpd_parse_body buf length headers.content_length
  pure (length + body_length,
        { headers := headers, body_content_length := body_length, body_message := full_body },
        g_context)

/-! ## HTTP server (`httpd.c`): responses and request processors -/

/-- The static text returned by `cds_get_scpd` of `cds.c`. -/
def cds_get_scpd : CString :=
  "<?xml version=\"1.0\" encoding=\"utf-8\"?><scpd xmlns=\"urn:schemas-upnp-org:service-1-0\">  <specVersion>    <major>1</major>    <minor>0</minor>  </specVersion>  <actionList>    <action>      <name>Browse</name>      <argumentList>        <argument>          <name>ObjectID</name>          <direction>in</direction>          <relatedStateVariable>A_ARG_TYPE_ObjectID</relatedStateVariable>        </argument>        <argument>          <name>BrowseFlag</name>          <direction>in</direction>          <relatedStateVariable>A_ARG_TYPE_BrowseFlag</relatedStateVariable>       </argument>        <argument>          <name>Filter</name>          <direction>in</direction>          <relatedStateVariable>A_ARG_TYPE_Filter</relatedStateVariable>        </argument>        <argument>          <name>StartingIndex</name>          <direction>in</direction>          <relatedStateVariable>A_ARG_TYPE_Index</relatedStateVariable>        </argument>        <argument>          <name>RequestedCount</name>          <direction>in</direction>          <relatedStateVariable>A_ARG_TYPE_Count</relatedStateVariable>        </argument>        <argument>          <name>SortCriteria</name>          <direction>in</direction>          <relatedStateVariable>A_ARG_TYPE_SortCriteria</relatedStateVariable>       </argument>        <argument>          <name>Result</name>          <direction>out</direction>          <relatedStateVariable>A_ARG_TYPE_Result</relatedStateVariable>        </argument>        <argument>          <name>NumberReturned</name>          <direction>out</direction>          <relatedStateVariable>A_ARG_TYPE_Count</relatedStateVariable>        </argument>        <argument>          <name>TotalMatches</name>          <direction>out</direction>          <relatedStateVariable>A_ARG_TYPE_Count</relatedStateVariable>        </argument>        <argument>          <name>UpdateID</name>          <direction>out</direction>          <relatedStateVariable>A_ARG_TYPE_UpdateID</relatedStateVariable>        </argument>      </argumentList>    </action>    <action>      <name>GetSystemUpdateID</name>      <argumentList>        <argument>          <name>Id</name>          <direction>out</direction>          <relatedStateVariable>SystemUpdateID</relatedStateVariable>        </argument>      </argumentList>    </action>    <action>      <name>GetSearchCapabilities</name>      <argumentList>        <argument>          <name>SearchCaps</name>          <direction>out</direction>          <relatedStateVariable>SearchCapabilities</relatedStateVariable>        </argument>      </argumentList>    </action>    <action>      <name>GetSortCapabilities</name>      <argumentList>        <argument>          <name>SortCaps</name>          <direction>out</direction>          <relatedStateVariable>SortCapabilities</relatedStateVariable>        </argument>      </argumentList>    </action>  </actionList>  <serviceStateTable>    <stateVariable sendEvents=\"no\">      <name>A_ARG_TYPE_BrowseFlag</name>      <dataType>string</dataType>      <allowedValueList>        <allowedValue>BrowseMetadata</allowedValue>        <allowedValue>BrowseDirectChildren</allowedValue>      </allowedValueList>    </stateVariable>    <stateVariable sendEvents=\"yes\">      <name>SystemUpdateID</name>      <dataType>ui4</dataType>    </stateVariable>    <stateVariable sendEvents=\"no\">      <name>A_ARG_TYPE_Count</name>      <dataType>ui4</dataType>    </stateVariable>    <stateVariable sendEvents=\"no\">      <name>A_ARG_TYPE_SortCriteria</name>      <dataType>string</dataType>    </stateVariable>    <stateVariable sendEvents=\"no\">      <name>SortCapabilities</name>      <dataType>string</dataType>    </stateVariable>    <stateVariable sendEvents=\"no\">      <name>A_ARG_TYPE_Index</name>      <dataType>ui4</dataType>    </stateVariable>    <stateVariable sendEvents=\"no\">      <name>A_ARG_TYPE_ObjectID</name>      <dataType>string</dataType>    </stateVariable>    <stateVariable sendEvents=\"no\">      <name>A_ARG_TYPE_UpdateID</name>      <dataType>ui4</dataType>    </stateVariable>    <stateVariable sendEvents=\"no\">      <name>A_ARG_TYPE_Result</name>      <dataType>string</dataType>    </stateVariable>   <stateVariable sendEvents=\"no\">      <name>SearchCapabilities</name>      <dataType>string</dataType>    </stateVariable>    <stateVariable sendEvents=\"no\">      <name>A_ARG_TYPE_Filter</name>      <dataType>string</dataType>    </stateVariable>  </serviceStateTable></scpd>".toList

def CDS_CONTROL_URL : CString := "/cds/control/ContentDirectory1".toList
def CDS_SCPD : CString := "cds.xml".toList
def CMS_SCPD : CString := "cms.xml".toList
def HTTPD_SUCCESS : Int := 0
def HTTPD_404_ERROR : Int := -404

/-- The `%d` conversion of `sprintf`. -/
def fmt_d (n : Int) : CString := if n < 0 then '-' :: utoa n.natAbs else utoa n.toNat

/-- The value an `int` conversion sees for the `size_t` value `n`. -/
def to_int32 (n : Nat) : Int :=
  if n % 4294967296 < 2147483648 then (n % 4294967296 : Nat) else (n % 4294967296 : Nat) - 4294967296

/-- The text `HTTP_200_MSG_HEADERS` with its two conversions filled in. -/
def HTTP_200_MSG_HEADERS (content_length : Int) (date : CString) : CString :=
  "HTTP/1.1 200 OK\r\nConnection: close\r\nContent-Length: ".toList ++ fmt_d content_length ++
  "\r\nContent-Type: text/xml; charset=\"utf-8\"\r\nDate: ".toList ++ date ++
  "\r\nEXT: \r\nServer: YADA-HTTP/1.0\r\n\r\n".toList

def HTTP_400_MSG_HEADERS : CString :=
  "HTTP/1.1 400 BAD REQUEST\r\nConnection: close\r\nContent-Length: 0\r\nServer: YADA-HTTP/1.0\r\n\r\n".toList
def HTTP_400_MSG_BODY : CString := []

def HTTP_401_MSG_HEADERS : CString :=
  "HTTP/1.1 401 UNAUTHORIZED\r\nConnection: close\r\nContent-Length: 0\r\nServer: YADA-HTTP/1.0\r\n\r\n".toList
def HTTP_401_MSG_BODY : CString := []

def HTTP_402_MSG_HEADERS : CString :=
  "HTTP/1.1 402 Invalid Arguments\r\nConnection: close\r\nContent-Length: 0\r\nServer: YADA-HTTP/1.0\r\n\r\n".toList
def HTTP_402_MSG_BODY : CString := []

def HTTP_404_MSG_HEADERS : CString :=
  "HTTP/1.1 404 NOT FOUND\r\nConnection: close\r\nContent-Length: 0\r\nServer: YADA-HTTP/1.0\r\n\r\n".toList
def HTTP_404_MSG_BODY : CString := []

def HTTP_416_MSG_HEADERS : CString :=
  "HTTP/1.1 416 Requested Range Not Satisfiable\r\nConnection: close\r\nContent-Length: 0\r\nServer: YADA-HTTP/1.0\r\n\r\n".toList
def HTTP_416_MSG_BODY : CString := []

def HTTP_500_MSG_HEADERS : CString :=
  "HTTP/1.1 500 INTERNAL SERVER ERROR\r\nConnection: close\r\nContent-Length: 0\r\nServer: YADA-HTTP/1.0\r\n\r\n".toList
def HTTP_500_MSG_BODY : CString := []

/-- The function `httpd_send_header_and_body`, every `send` succeeding: the two texts written
to the client socket, `strlen` bytes of each. -/
def httpd_send_header_and_body (headers body : CString) : List CString :=
  [headers.takeWhile (fun c => c ≠ NUL), body.takeWhile (fun c => c ≠ NUL)]

/-- The function `httpd_send_200_OK`; `http_time` is the text `httpd_build_http_time` returns.
The result is `none` when `body` is not assigned or the headers do not fit `msg_header`. -/
def httpd_send_200_OK (http_time : CString) (body : Option CString) : Option (List CString) :=
  match body with
  | none => none
  | some body =>
    let msg_header :=
      HTTP_200_MSG_HEADERS (to_int32 (body.takeWhile (fun c => c ≠ NUL)).length) http_time
    if msg_header.length < 512 then some (httpd_send_header_and_body msg_header body) else none

/-- The function `httpd_process_head`: what is written to the client and the return value. -/
def httpd_process_head (_message : http_message) : List CString × Int := ([], 0)

/-- The function `httpd_process_get`: what is written to the client and the return value;
`fopen` tells whether the file of a name can be opened. -/
def httpd_process_get (fopen : CString → Bool) (http_time : CString)
    (g_context : httpd_context) (message : http_message) : Option (List CString × Int) :=
  match message.headers.method_uri with
  | none => none
  | some uri =>
    if strstr uri CDS_SCPD ≠ none then
      (httpd_send_200_OK http_time (some cds_get_scpd)).map (fun sent => (sent, HTTPD_SUCCESS))
    else if strstr uri CMS_SCPD ≠ none then some ([], HTTPD_SUCCESS)
    else
      match g_context.doc_root_path with
      | none => none
      | some root =>
        if fopen (root ++ uri) then some ([], HTTPD_SUCCESS)
        else some (httpd_send_header_and_body HTTP_404_MSG_HEADERS HTTP_404_MSG_BODY,
                   HTTPD_404_ERROR)

/-- The function `httpd_process_post`. -/
def httpd_process_post (xml_read : CString → Option xml_node) (http_time : CString)
    (message : http_message) : Option (List CString × Int) :=
  match message.headers.method_uri with
  | none => none
  | some uri =>
    if uri = CDS_CONTROL_URL then
      match message.headers.soap_action, message.body_message with
      | some soap_action, some body =>
        let r := cds_dispatch_action xml_read soap_action (body.takeWhile (fun c => c ≠ NUL))
        if r.2.1 = CDS_SUCCESS then
          (httpd_send_200_OK http_time r.2.2).map (fun sent => (sent, 0))
        else some (httpd_send_header_and_body HTTP_500_MSG_HEADERS HTTP_500_MSG_BODY, 0)
      | _, _ => none
    else some ([], 0)

/-- The context `g_context` once `httpd_thread_proc` has set `httpd_initialized`, for a sample
address and root path. The field `httpd_run` is 0: the static initializer clears it and the
only assignment to it in `httpd.c` stores 0. -/
def g_context_start : httpd_context :=
  { httpd_initialized := 1, ip_address := "192.168.1.2".toList, port := 8080,
    doc_root_path := some "/srv/yada/".toList, httpd_run := 0, error_code := 0,
    content_features := 0, timeseek_range := 0, bytes_range := 0, transfer_mode := 0,
    sec_getmediainfo := 0, sec_getcaptioninfo := 0 }

/-- A context left by a connection that sent every observed header. -/
def g_context_used : httpd_context :=
  { g_context_start with
    error_code := 400, content_features := 1, timeseek_range := 1, bytes_range := 1,
    transfer_mode := 1, sec_getmediainfo := 1, sec_getcaptioninfo := 1 }

/-- The text `httpd_build_http_time` returns at a sample time. -/
def sample_http_time : CString := "Sun, 01 Nov 2026 10:00:00 GMT".toList

/-- The fields of the result of `httpd_parse_headers` on the transfer mode and the time seek
range: returned offset, `headers->transfer_mode`, the two context flags, `error_code`. -/
def transfer_fields (r : Option (Nat × http_headers × httpd_context)) :
    Option (Nat × TRANSFER_MODE × Int × Int × Int) :=
  r.map (fun x => (x.1, x.2.1.transfer_mode, x.2.2.transfer_mode, x.2.2.timeseek_range,
                   x.2.2.error_code))

/-- The fields of the result of `httpd_parse_headers` on the request line: returned offset,
method, URI, version. -/
def request_line_fields (r : Option (Nat × http_headers × httpd_context)) :
    Option (Nat × HTTP_METHOD × Option CString × HTTP_VERSION) :=
  r.map (fun x => (x.1, x.2.1.method, x.2.1.method_uri, x.2.1.version))

/-- The fields of the result of `httpd_parse_headers` on the body length: returned offset,
`chunked`, `content_length`. -/
def length_fields (r : Option (Nat × http_headers × httpd_context)) :
    Option (Nat × Int × Int) :=
  r.map (fun x => (x.1, x.2.1.chunked, x.2.1.content_length))

/-! ## SSDP (`micro-upnp/upnp-core.c`) -/

def UPNP_MULTICAST_ADDR : CString := "239.255.255.250".toList
def UPNP_SSDP_PORT : CString := "1900".toList
def UPNP_ROOTDEVICE_NT : CString := "upnp:rootdevice".toList
def UPNP_MEDIASERVER_NT : CString := "urn:schemas-upnp-org:device:MediaServer:1".toList
def UPNP_CONTENTDIRECTORY_NT : CString :=
  "urn:schemas-upnp-org:service:ContentDirectory:1".toList
def UPNP_CONNECTIONMANAGER_NT : CString :=
  "urn:schemas-upnp-org:service:ConnectionManager:1".toList
def UPNP_ALL_ST : CString := "ssdp:all".toList
def UPNP_ROOTDEVICE_ST : CString := "upnp:rootdevice".toList
def UPNP_MEDIASERVER_ST : CString := "urn:schemas-upnp-org:device:MediaServer:1".toList
def UPNP_CONTENTDIRECTORY_ST : CString :=
  "urn:schemas-upnp-org:service:ContentDirectory:1".toList
def UPNP_CONNECTIONMANAGER_ST : CString :=
  "urn:schemas-upnp-org:service:ConnectionManager:1".toList
def UPNP_ROOTDEVICE_XML : CString := "yada.xml".toList
def UPNP_CONTENTDIRECTORY_XML : CString := "cds.xml".toList
def UPNP_CONNECTIONMANAGER_XML : CString := "cms.xml".toList
def UPNP_SUCCESS : Int := 0
def UPNP_INVALID_MSEARCH_MESSAGE_ERROR : Int := -5

/-- The enum `UPNP_ST_TYPE`. -/
inductive UPNP_ST_TYPE where
  | INVALID_ST
  | ALL_ST
  | ROOTDEVICE_ST
  | MEDIASERVER_ST
  | CONTENTDIRECTORY_ST
  | CONNECTIONMANAGER_ST
deriving DecidableEq, Repr

open UPNP_ST_TYPE

/-- The struct `upnp_init_param` without `allowed_ips`; `none` is the `NULL` pointer. -/
structure upnp_init_param where
  ip_address : Option CString
  port : Int
  location : Option CString
  uuid : CString
deriving DecidableEq, Repr

/-- The struct `upnp_context` without the thread handles and mutexes. -/
structure upnp_context where
  upnp_initialized : Nat
  init_param : upnp_init_param
  uuid : CString
  os_name_version : CString
  discover_run : Int
  alive_run : Int
deriving DecidableEq, Repr

/-- The static `g_context` of `upnp-core.c` at program start: all bytes zero. -/
def upnp_context_start : upnp_context :=
  { upnp_initialized := 0,
    init_param := { ip_address := none, port := 0, location := none, uuid := [] },
    uuid := [], os_name_version := [], discover_run := 0, alive_run := 0 }

/-- A datagram handed to `sendto`: destination address, destination port and text. -/
structure ssdp_message where
  ip_address : CString
  port : Int
  text : CString
deriving DecidableEq, Repr

/-- The text `UPNP_ALIVE_MSG_NO_NT` with its conversions filled in. -/
def UPNP_ALIVE_MSG_NO_NT (ip_address : Option CString) (port : Int) (location : Option CString)
    (nt_uuid usn_uuid os_name_version : CString) : CString :=
  "NOTIFY * HTTP/1.1\r\nHOST: 239.255.255.250:1900\r\nCACHE-CONTROL: max-age=1800\r\nLOCATION: http://".toList
  ++ fmt_s ip_address ++ ":".toList ++ fmt_d port ++ "/".toList ++ fmt_s location
  ++ "/yada.xml\r\nNT: uuid:".toList ++ nt_uuid ++ "\r\nNTS: ssdp:alive\r\nUSN: uuid:".toList
  ++ usn_uuid ++ "\r\nSERVER: ".toList ++ os_name_version
  ++ " UPnP/1.0 YADA-UPNP/1.0\r\nCONTENT-LENGTH: 0\r\n\r\n".toList

/-- The text `UPNP_ALIVE_MSG(NT)` with its conversions filled in. -/
def UPNP_ALIVE_MSG (NT : CString) (ip_address : Option CString) (port : Int)
    (location : Option CString) (uuid os_name_version : CString) : CString :=
  "NOTIFY * HTTP/1.1\r\nHOST: 239.255.255.250:1900\r\nCACHE-CONTROL: max-age=1800\r\nLOCATION: http://".toList
  ++ fmt_s ip_address ++ ":".toList ++ fmt_d port ++ "/".toList ++ fmt_s location
  ++ "/yada.xml\r\nNT: ".toList ++ NT ++ "\r\nNTS: ssdp:alive\r\nUSN: uuid:".toList
  ++ uuid ++ "::".toList ++ NT ++ "\r\nSERVER: ".toList ++ os_name_version
  ++ " UPnP/1.0 YADA-UPNP/1.0\r\nCONTENT-LENGTH: 0\r\n\r\n".toList

/-- The text `UPNP_BYEBYE_MSG(NT)` with its conversion filled in. -/
def UPNP_BYEBYE_MSG (NT : CString) (uuid : CString) : CString :=
  "NOTIFY * HTTP/1.1\r\nHOST: 239.255.255.250:1900\r\nNT: ".toList ++ NT
  ++ "\r\nNTS: ssdp:byebye\r\nUSN: uuid:".toList ++ uuid ++ "::".toList ++ NT
  ++ "\r\nCONTENT-LENGTH: 0\r\n\r\n".toList

/-- The text `UPNP_MSEARCH_REPLY_MSG(ST)` with its conversions filled in. -/
def UPNP_MSEARCH_REPLY_MSG (ST : CString) (ip_address : Option CString) (port : Int)
    (location : Option CString) (xml uuid os_name_version : CString) : CString :=
  "HTTP/1.1 200 OK\r\nCACHE-CONTROL: max-age = 1800\r\nEXT:\r\nLOCATION: http://".toList
  ++ fmt_s ip_address ++ ":".toList ++ fmt_d port ++ "/".toList ++ fmt_s location
  ++ "/".toList ++ xml ++ "\r\nST: ".toList ++ ST ++ "\r\nUSN: uuid:".toList
  ++ uuid ++ "::".toList ++ ST ++ "\r\nSERVER: ".toList ++ os_name_version
  ++ " UPnP/1.0 YADA-UPNP/1.0\r\nCONTENT-LENGTH: 0\r\n\r\n".toList

/-- The function `upnp_send_message` for an already formatted text, `sendto` succeeding: the
datagram sent; `none` when the text does not fit the buffer `msg[512]`. -/
def upnp_send_message (ip_address : CString) (port : Int) (text : CString) :
    Option ssdp_message :=
  if text.length < 512 then some { ip_address := ip_address, port := port, text := text }
  else none

/-- One turn of the loop of `upnp_send_alive`: the five datagrams of an advertisement set. -/
def upnp_send_alive_set (g_context : upnp_context) : Option (List ssdp_message) := do
  let p := g_context.init_param
  let ssdp_port := atoi UPNP_SSDP_PORT
  let m1 ← upnp_send_message UPNP_MULTICAST_ADDR ssdp_port
    (UPNP_ALIVE_MSG UPNP_ROOTDEVICE_NT p.ip_address p.port p.location g_context.uuid
      g_context.os_name_version)
  let m2 ← upnp_send_message UPNP_MULTICAST_ADDR ssdp_port
    (UPNP_ALIVE_MSG_NO_NT p.ip_address p.port p.location g_context.uuid g_context.uuid
      g_context.os_name_version)
  let m3 ← upnp_send_message UPNP_MULTICAST_ADDR ssdp_port
    (UPNP_ALIVE_MSG UPNP_MEDIASERVER_NT p.ip_address p.port p.location g_context.uuid
      g_context.os_name_version)
  let m4 ← upnp_send_message UPNP_MULTICAST_ADDR ssdp_port
    (UPNP_ALIVE_MSG UPNP_CONTENTDIRECTORY_NT p.ip_address p.port p.location g_context.uuid
      g_context.os_name_version)
  let m5 ← upnp_send_message UPNP_MULTICAST_ADDR ssdp_port
    (UPNP_ALIVE_MSG UPNP_CONNECTIONMANAGER_NT p.ip_address p.port p.location g_context.uuid
      g_context.os_name_version)
  pure [m1, m2, m3, m4, m5]

/-- The loop `for(count = 0; count<2; count++)` of `upnp_send_alive` with `turns` turns still
to run. -/
def upnp_send_alive_loop (g_context : upnp_context) : Nat → Option (List ssdp_message)
  | 0 => some []
  | turns + 1 => do
    let set ← upnp_send_alive_set g_context
    let rest ← upnp_send_alive_loop g_context turns
    pure (set ++ rest)

/-- The function `upnp_send_alive`, every `sendto` succeeding: the datagrams sent, in order,
and the return value. -/
def upnp_send_alive (g_context : upnp_context) : Option (List ssdp_message × Int) :=
  (upnp_send_alive_loop g_context 2).map (fun sent => (sent, UPNP_SUCCESS))

/-- The function `upnp_send_byebye`, every `sendto` succeeding: the datagrams sent, in order,
and the return value. -/
def upnp_send_byebye (g_context : upnp_context) : Option (List ssdp_message × Int) := do
  let port := atoi UPNP_SSDP_PORT
  let m1 ← upnp_send_message UPNP_MULTICAST_ADDR port
    (UPNP_BYEBYE_MSG UPNP_ROOTDEVICE_NT g_context.uuid)
  let m2 ← upnp_send_message UPNP_MULTICAST_ADDR port
    (UPNP_BYEBYE_MSG UPNP_MEDIASERVER_NT g_context.uuid)
  let m3 ← upnp_send_message UPNP_MULTICAST_ADDR port
    (UPNP_BYEBYE_MSG UPNP_CONNECTIONMANAGER_NT g_context.uuid)
  let m4 ← upnp_send_message UPNP_MULTICAST_ADDR port
    (UPNP_BYEBYE_MSG UPNP_CONTENTDIRECTORY_NT g_context.uuid)
  pure ([m1, m2, m3, m4], UPNP_SUCCESS)

/-- The function `upnp_get_msearch_type`. -/
def upnp_get_msearch_type (buf : CString) : UPNP_ST_TYPE :=
  if strstr buf "MAN".toList = none then INVALID_ST
  else
    match strstr buf "ST".toList with
    | none => INVALID_ST
    | some i =>
      let st := buf.drop i
      if strstr st UPNP_ALL_ST ≠ none then ALL_ST
      else if strstr st UPNP_ROOTDEVICE_ST ≠ none then ROOTDEVICE_ST
      else if strstr st UPNP_MEDIASERVER_ST ≠ none then MEDIASERVER_ST
      else if strstr st UPNP_CONTENTDIRECTORY_ST ≠ none then CONTENTDIRECTORY_ST
      else if strstr st UPNP_CONNECTIONMANAGER_ST ≠ none then CONNECTIONMANAGER_ST
      else INVALID_ST

/-- One of the four conditional replies of `upnp_send_msearch_reply`. -/
def upnp_send_msearch_reply_for (g_context : upnp_context) (wanted : Bool)
    (ip_address : CString) (port : Int) (ST xml : CString) (sent : List ssdp_message) :
    Option (List ssdp_message) :=
  if wanted then
    (upnp_send_message ip_address port
      (UPNP_MSEARCH_REPLY_MSG ST g_context.init_param.ip_address g_context.init_param.port
        g_context.init_param.location xml g_context.uuid g_context.os_name_version)).map
      (fun m => sent ++ [m])
  else some sent

/-- The function `upnp_send_msearch_reply`, every `sendto` succeeding: the datagrams sent, in
order, and the return value. -/
def upnp_send_msearch_reply (g_context : upnp_context) (buf ip_address : CString) (port : Int) :
    Option (List ssdp_message × Int) :=
  let msearch_type := upnp_get_msearch_type buf
  if msearch_type = INVALID_ST then some ([], UPNP_INVALID_MSEARCH_MESSAGE_ERROR)
  else do
    let sent ← upnp_send_msearch_reply_for g_context
      (msearch_type = ROOTDEVICE_ST ∨ msearch_type = ALL_ST) ip_address port
      UPNP_ROOTDEVICE_ST UPNP_ROOTDEVICE_XML []
    let sent ← upnp_send_msearch_reply_for g_context
      (msearch_type = MEDIASERVER_ST ∨ msearch_type = ALL_ST) ip_address port
      UPNP_MEDIASERVER_ST UPNP_ROOTDEVICE_XML sent
    let sent ← upnp_send_msearch_reply_for g_context
      (msearch_type = CONTENTDIRECTORY_ST ∨ msearch_type = ALL_ST) ip_address port
      UPNP_CONTENTDIRECTORY_ST UPNP_CONTENTDIRECTORY_XML sent
    let sent ← upnp_send_msearch_reply_for g_context
      (msearch_type = CONNECTIONMANAGER_ST ∨ msearch_type = ALL_ST) ip_address port
      UPNP_CONNECTIONMANAGER_ST UPNP_CONNECTIONMANAGER_XML sent
    pure (sent, UPNP_SUCCESS)

/-- The function `strncmp` on two C strings. -/
def strncmp : CString → CString → Nat → Int
  | _, _, 0 => 0
  | [], [], _ + 1 => 0
  | [], b :: _, _ + 1 => -(b.toNat : Int)
  | a :: _, [], _ + 1 => (a.toNat : Int)
  | a :: as, b :: bs, n + 1 => if a = b then strncmp as bs n else (a.toNat : Int) - b.toNat

/-- The macro `UPNP_MSEARCH_RECEIVED(buf)`: the value of `strncmp(buf, "M-SEARCH", 8)`. -/
def UPNP_MSEARCH_RECEIVED (buf : CString) : Int := strncmp buf "M-SEARCH".toList 8

/-- The macro `UPNP_NOTIFY_RECEIVED(buf)`: the value of `strncmp(buf, "NOTIFY", 8)`. -/
def UPNP_NOTIFY_RECEIVED (buf : CString) : Int := strncmp buf "NOTIFY".toList 8

/-- One turn of the loop of `upnp_discover_thread_proc` in which `recvfrom` delivers the text
`buf` from the address `cli_ip`, port `cli_port`: whether `upnp_send_msearch_reply` was
called, and the datagrams sent. -/
def upnp_discover_datagram (g_context : upnp_context) (buf cli_ip : CString) (cli_port : Int) :
    Option (Bool × List ssdp_message) :=
  if UPNP_MSEARCH_RECEIVED buf ≠ 0 then
    (upnp_send_msearch_reply g_context buf cli_ip cli_port).map (fun r => (true, r.1))
  else if UPNP_NOTIFY_RECEIVED buf ≠ 0 then some (false, [])
  else some (false, [])

/-- The function `upnp_init` on a context that is not initialised, the socket engine and the
two threads starting: the context afterwards and the datagrams sent by the call itself.
`os_name_version` is the text `upnp_get_os_info` writes. -/
def upnp_init (os_name_version : CString) (init_param : upnp_init_param)
    (g_context : upnp_context) : Option (upnp_context × List ssdp_message) :=
  if g_context.upnp_initialized = 0 then do
    let g_context :=
      { g_context with init_param := init_param, os_name_version := os_name_version,
                       discover_run := 1, alive_run := 1 }
    let sent ← upnp_send_byebye g_context
    pure ({ g_context with upnp_initialized := 1 }, sent.1)
  else some (g_context, [])

/-- The test message of `upnp-core.c`. -/
def test_msearch : CString :=
  "M-SEARCH * HTTP/1.1\r\nHOST: 239.255.255.250:1900\r\nMAN: \"ssdp:discover\"\r\nMX: 3\r\nST: urn:schemas-upnp-org:device:MediaServer:1\r\nCONTENT-LENGTH: 0\r\n\r\n".toList

/-- A sample parameter of `upnp_init`. -/
def sample_init_param : upnp_init_param :=
  { ip_address := some "192.168.1.2".toList, port := 8080, location := some "location".toList,
    uuid := "2fac1234-31f8-41b4-a222-08002b34c003".toList }

/-- The context after `upnp_init` with the sample parameter. -/
def sample_upnp_context : Option upnp_context :=
  (upnp_init "Linux/5.10".toList sample_init_param upnp_context_start).map (fun r => r.1)

/-- The texts of one advertisement set for the context `g_context`, in the order of the five
notification types. -/
def alive_set_texts (g_context : upnp_context) : List CString :=
  [UPNP_ALIVE_MSG UPNP_ROOTDEVICE_NT g_context.init_param.ip_address g_context.init_param.port
     g_context.init_param.location g_context.uuid g_context.os_name_version,
   UPNP_ALIVE_MSG_NO_NT g_context.init_param.ip_address g_context.init_param.port
     g_context.init_param.location g_context.uuid g_context.uuid g_context.os_name_version,
   UPNP_ALIVE_MSG UPNP_MEDIASERVER_NT g_context.init_param.ip_address g_context.init_param.port
     g_context.init_param.location g_context.uuid g_context.os_name_version,
   UPNP_ALIVE_MSG UPNP_CONTENTDIRECTORY_NT g_context.init_param.ip_address
     g_context.init_param.port g_context.init_param.location g_context.uuid
     g_context.os_name_version,
   UPNP_ALIVE_MSG UPNP_CONNECTIONMANAGER_NT g_context.init_param.ip_address
     g_context.init_param.port g_context.init_param.location g_context.uuid
     g_context.os_name_version]

/-- The `NT` header lines of one advertisement set for the UUID `uuid`. -/
def alive_set_nt_lines (uuid : CString) : List CString :=
  ["\r\nNT: upnp:rootdevice\r\n".toList, "\r\nNT: uuid:".toList ++ uuid ++ "\r\n".toList,
   "\r\nNT: urn:schemas-upnp-org:device:MediaServer:1\r\n".toList,
   "\r\nNT: urn:schemas-upnp-org:service:ContentDirectory:1\r\n".toList,
   "\r\nNT: urn:schemas-upnp-org:service:ConnectionManager:1\r\n".toList]

/-- A context as `upnp_init` with the sample parameter leaves it. -/
def sample_context : upnp_context :=
  { upnp_initialized := 1, init_param := sample_init_param, uuid := [],
    os_name_version := "Linux/5.10".toList, discover_run := 1, alive_run := 1 }

/-! ## Call sequences and the child-list invariant of the content tree -/

/-- A call of one of the two functions that add to the content tree. -/
inductive cds_call where
  | add_item (item : Option item_info) (parent_id : OBJECT_ID)
  | add_folder (path name : Option CString) (parent_id : OBJECT_ID)
deriving DecidableEq, Repr

/-- The memory after running a sequence of calls; `none` when a call gets stuck. -/
def cds_run (md5 : CString → OBJECT_ID) : Heap → List cds_call → Option Heap
  | h, [] => some h
  | h, .add_item item parent_id :: calls =>
    match cds_add_item h item parent_id with
    | none => none
    | some r => cds_run md5 r.1 calls
  | h, .add_folder path name parent_id :: calls =>
    match cds_add_folder md5 h path name parent_id with
    | none => none
    | some r => cds_run md5 r.1 calls

/-- The chain `l` of siblings under the parent `par`: `cur` points to its first object, each
object has the parent `par`, its `previous` points to the object before it (`prev` for the
first one), its `next` to the object after it, and the `next` of the last one is `NULL`. Every
object lies at a higher address than its parent and its left sibling. -/
def IsChain (h : Heap) (par : Nat) : Option Nat → Option Nat → List Nat → Prop
  | _, cur, [] => cur = none
  | prev, cur, a :: l =>
    cur = some a ∧ par < a ∧ (∀ b, prev = some b → b < a) ∧
    ∃ o, h[a]? = some o ∧ o.parent = some par ∧ o.previous = prev ∧
      IsChain h par (some a) o.next l

/-- The child list of the object at address `p` is well formed: `first_child` starts a chain
whose length is `num_children` and whose last object is `last_child`. -/
def NodeOk (h : Heap) (p : Nat) : Prop :=
  ∃ o l, h[p]? = some o ∧ IsChain h p none o.first_child l ∧
    o.num_children = (l.length : Int) ∧ o.last_child = l.getLast?

/-- The `next` and `first_child` pointers lead to valid objects at higher addresses. -/
def Mono (h : Heap) : Prop :=
  ∀ a o, h[a]? = some o →
    (∀ n, o.next = some n → a < n ∧ n < h.length) ∧
    (∀ f, o.first_child = some f → a < f ∧ f < h.length)

/-- The invariant of the content tree: every object has a well-formed child list. -/
def Inv (h : Heap) : Prop := (∀ p, p < h.length → NodeOk h p) ∧ Mono h

/-- The `next` pointer of the object at address `a`. -/
def next_of (h : Heap) (a : Nat) : Option Nat := (h[a]?).bind (fun o => o.next)

/-- The `previous` pointer of the object at address `a`. -/
def previous_of (h : Heap) (a : Nat) : Option Nat := (h[a]?).bind (fun o => o.previous)

/-- The `parent` pointer of the object at address `a`. -/
def parent_of (h : Heap) (a : Nat) : Option Nat := (h[a]?).bind (fun o => o.parent)

/-- The list `l` is the chain reached from `cur` through `next`, up to the `NULL` pointer. -/
def ChainFrom (h : Heap) : Option Nat → List Nat → Prop
  | cur, [] => cur = none
  | cur, a :: l => cur = some a ∧ ChainFrom h (next_of h a) l

/-- The properties claimed of the folder `F` at address `a`, with `l` the chain of its
children. -/
def FolderLinks (h : Heap) (a : Nat) (F : cds_object) (l : List Nat) : Prop :=
  ChainFrom h F.first_child l ∧
  F.num_children = (l.length : Int) ∧
  (∀ f, F.first_child = some f → previous_of h f = none) ∧
  (∀ c, F.last_child = some c → next_of h c = none) ∧
  F.last_child = l.getLast? ∧
  (∀ c, c ∈ l → parent_of h c = some a) ∧
  (∀ c n, c ∈ l → next_of h c = some n → previous_of h n = some c) ∧
  (∀ c p, c ∈ l → previous_of h c = some p → next_of h p = some c)

/-- The invariant of the content tree after `cds_init`: every child list is well formed and
the children of the root are the three virtual folders. -/
def TreeInv (h : Heap) : Prop :=
  Inv h ∧ ∃ o, h[root_tree]? = some o ∧
    IsChain h root_tree none o.first_child [audio_tree, photo_tree, video_tree]

/-! ## Counting children (`cds_count_children`) -/

mutual
/-- The function `cds_count_children`; `none` when the model is stuck. The count is an `int`
that stays below twice the number of objects, so it is not reduced modulo `2^32`. -/
def cds_count_children : Nat → Heap → Nat → ITEM_TYPE → Int → Option Int
  | 0, _, _, _, _ => none
  | fuel + 1, h, root, item_type, recurse =>
    match h[root]? with
    | none => none
    | some r => cds_count_children_loop fuel h item_type recurse r.first_child 0
/-- The `while( child != NULL )` loop of `cds_count_children`. -/
def cds_count_children_loop : Nat → Heap → ITEM_TYPE → Int → Option Nat → Int → Option Int
  | 0, _, _, _, _, _ => none
  | _ + 1, _, _, _, none, count => some count
  | fuel + 1, h, item_type, recurse, some child, count =>
    match h[child]? with
    | none => none
    | some c =>
      let count := if item_type = ITEM_UNDEFINED then count + 1 else count
      let counted : Option Int :=
        match c.type with
        | CDS_OBJ_FOLDER =>
          if recurse ≠ 0 then
            (cds_count_children fuel h child item_type recurse).map (fun n => count + n)
          else some count
        | CDS_OBJ_ITEM =>
          match c.item with
          | none => none
          | some it => some (if it.type &&& item_type ≠ 0 then count + 1 else count)
      match counted with
      | none => none
      | some count => cds_count_children_loop fuel h item_type recurse c.next count
end

/-- The function `cds_count_direct_children`. -/
def cds_count_direct_children (h : Heap) (root : Nat) (item_type : ITEM_TYPE) : Option Int :=
  cds_count_children (walk_fuel h) h root item_type 0

/-- The objects reached from `cur` through `next`, at most `fuel` of them. -/
def chain_list : Nat → Heap → Option Nat → List Nat
  | 0, _, _ => []
  | _ + 1, _, none => []
  | fuel + 1, h, some c => c :: chain_list fuel h (next_of h c)

/-- The direct children of the object at `root`, in order. -/
def direct_children (h : Heap) (root : Nat) : List Nat :=
  chain_list h.length h ((h[root]?).bind (fun o => o.first_child))

/-- Whether the object at `a` is a folder. -/
def is_folder (h : Heap) (a : Nat) : Bool :=
  match h[a]? with
  | some o => o.type = CDS_OBJ_FOLDER
  | none => false

/-- The objects below `root` at any depth, down to `fuel` levels: each direct child, followed
by the objects below it when it is a folder. -/
def descendants : Nat → Heap → Nat → List Nat
  | 0, _, _ => []
  | fuel + 1, h, root =>
    (direct_children h root).flatMap
      (fun c => c :: (if is_folder h c then descendants fuel h c else []))

/-- Whether the object at `a` is an item node whose item has the kind `k`. -/
def is_item_of_kind (h : Heap) (k : ITEM_TYPE) (a : Nat) : Bool :=
  match h[a]? with
  | some o =>
    o.type = CDS_OBJ_ITEM &&
      (match o.item with
       | some it => it.type = k
       | none => false)
  | none => false

/-- Whether `t` is one of the kinds of `ITEM_TYPE` other than `ITEM_UNDEFINED`. -/
def is_kind (t : ITEM_TYPE) : Bool :=
  t = ITEM_VIDEO || t = ITEM_AUDIO || t = ITEM_AUDIOVIDEO || t = ITEM_PHOTO ||
    t = ITEM_PLAYLIST || t = ITEM_CONTAINER

/-- Whether every item node carries an item whose type is one of the kinds. -/
def items_ok (h : Heap) : Bool :=
  h.all (fun o => o.type = CDS_OBJ_FOLDER ||
    (match o.item with
     | some it => is_kind it.type
     | none => false))

/-- The sum the code computes for the object at `root`, by levels: `fuel` levels deep. -/
def count_by_levels : Nat → Heap → ITEM_TYPE → Int → Nat → Int
  | 0, _, _, _, _ => 0
  | fuel + 1, h, item_type, recurse, root =>
    ((direct_children h root).map (fun c =>
      (if item_type = ITEM_UNDEFINED then (1 : Int) else 0) +
      (match h[c]? with
       | none => 0
       | some o =>
         match o.type with
         | CDS_OBJ_FOLDER =>
           if recurse ≠ 0 then count_by_levels fuel h item_type recurse c else 0
         | CDS_OBJ_ITEM =>
           match o.item with
           | none => 0
           | some it => if it.type &&& item_type ≠ 0 then 1 else 0))).sum

/-- The tree of the test of `cds.c` in small: a video item and a folder below the root, a
photo and an audio item in the folder, an audio item below the root. -/
def counting_calls : List cds_call :=
  [.add_item (some { type := ITEM_VIDEO, id := "v1".toList, filename := "a.mpg".toList })
     CDS_ROOT_TREE_ID,
   .add_folder (some "/share/a".toList) (some "A".toList) CDS_ROOT_TREE_ID,
   .add_item (some sample_photo) "3e14d59ffc615c720980ceeafd56cf7f".toList,
   .add_item (some sample_audio) "3e14d59ffc615c720980ceeafd56cf7f".toList,
   .add_item (some sample_audio) CDS_ROOT_TREE_ID]

/-- The memory after `cds_init` and the calls of `counting_calls`. -/
def counting_heap : Heap :=
  ((cds_init static_heap).bind (fun h => cds_run md5_sample h counting_calls)).getD []

/-- The identities of the folders among the direct children of the object at `a`, in order:
the entry at position `i` is the folder at the relative path `[i]`. -/
def child_folder_ids (h : Heap) (a : Nat) : List OBJECT_ID :=
  ((direct_children h a).filter (is_folder h)).filterMap (fun c => (h[c]?).map (fun o => o.id))

/-- The tree after `cds_init` and `cds_add_folder("/share/a", "A", CDS_PHOTO_TREE_ID)`, with
the returned pointer. -/
def photo_id_heap : Option (Heap × Option OBJECT_ID) :=
  init_heap.bind fun h =>
    cds_add_folder md5_sample h (some "/share/a".toList) (some "A".toList) CDS_PHOTO_TREE_ID

/-! ## Evaluations of the code at concrete inputs -/

/-- C2: a photo item added with the identity of folder `B` (which lies two levels below
`Photo`, inside folder `A`) becomes object 10, a child of `A` (object 5, identity of
`/share/a`) and not of `B` (object 8, identity of `/share/a/b`, which stays empty):
`cds_find_folder_id` returns the direct child of the searched root that contains the folder,
not the folder itself. -/
theorem cds_add_item_below_nested_folder :
    nested_heap.map (fun r => r.2) = some (some "17ab8b1b1b3c845648f11b2d1b536dfc".toList) ∧
    nested_item_heap.map (fun x => x.2) = some (some 10) ∧
    nested_item_heap.map (fun x => object_links x.1 10) = some (some (some 5, some 8, none)) ∧
    nested_item_heap.map (fun x => folder_name_id x.1 5)
      = some (some ("A".toList, "3e14d59ffc615c720980ceeafd56cf7f".toList)) ∧
    nested_item_heap.map (fun x => folder_cursors x.1 5) = some (some (some 8, some 10, 2)) ∧
    nested_item_heap.map (fun x => folder_name_id x.1 8)
      = some (some ("B".toList, "17ab8b1b1b3c845648f11b2d1b536dfc".toList)) ∧
    nested_item_heap.map (fun x => object_links x.1 8) = some (some (some 5, none, some 10)) ∧
    nested_item_heap.map (fun x => folder_cursors x.1 8) = some (some (none, none, 0)) ∧
    nested_item_heap.map (fun x => object_links x.1 5) = some (some (some photo_tree, none, none)) := by
  refine ⟨?_, ?_, ?_, ?_, ?_, ?_, ?_, ?_, ?_⟩ <;> decide!

/-- C4: with two items under `Music`, `cds_reinit` leaves `audio_tree` with
`num_children = 1`, `first_child = NULL` and `last_child` still pointing to the second item,
instead of the empty folder `(NULL, NULL, 0)`. -/
theorem cds_reinit_leaves_children :
    (two_items_heap.map fun h => folder_cursors h audio_tree) = some (some (some 4, some 5, 2)) ∧
    ((two_items_heap.bind cds_reinit).map fun h => folder_cursors h audio_tree)
      = some (some (none, some 5, 1)) := by
  decide!

/-- C5: deleting the first of the two children 4, 5 of `audio_tree` sets `first_child` to
`NULL` instead of the next sibling 5: the folder keeps `last_child = 5` and
`num_children = 1` with an empty chain. -/
theorem cds_del_object_first_child :
    (two_items_heap.map fun h => folder_cursors h audio_tree) = some (some (some 4, some 5, 2)) ∧
    (two_items_heap.map fun h => object_links h 4) = some (some (some 1, none, some 5)) ∧
    (two_items_heap.map fun h => object_links h 5) = some (some (some 1, some 4, none)) ∧
    ((two_items_heap.bind fun h => cds_del_object h (some 4)).map fun h =>
      folder_cursors h audio_tree) = some (some (none, some 5, 1)) ∧
    ((two_items_heap.bind fun h => cds_del_object h (some 4)).map fun h =>
      object_links h 5) = some (some (some 1, none, none)) := by
  refine ⟨?_, ?_, ?_, ?_, ?_⟩ <;> decide!

/-- C6: after `cds_init` the root has the three children Music, Photo, Video in this order,
but the folder named `Music` carries `CDS_PHOTO_TREE_ID` and the folder named `Photo`
carries `CDS_MUSIC_TREE_ID`. -/
theorem cds_init_virtual_folder_ids :
    (init_heap.map fun h => folder_cursors h root_tree) = some (some (some 1, some 3, 3)) ∧
    (init_heap.map fun h => folder_name_id h root_tree)
      = some (some ("Root".toList, CDS_ROOT_TREE_ID)) ∧
    (init_heap.map fun h => object_links h audio_tree) = some (some (some 0, none, some 2)) ∧
    (init_heap.map fun h => object_links h photo_tree) = some (some (some 0, some 1, some 3)) ∧
    (init_heap.map fun h => object_links h video_tree) = some (some (some 0, some 2, none)) ∧
    (init_heap.map fun h => folder_name_id h audio_tree)
      = some (some ("Music".toList, CDS_PHOTO_TREE_ID)) ∧
    (init_heap.map fun h => folder_name_id h photo_tree)
      = some (some ("Photo".toList, CDS_MUSIC_TREE_ID)) ∧
    (init_heap.map fun h => folder_name_id h video_tree)
      = some (some ("Video".toList, CDS_VIDEO_TREE_ID)) ∧
    CDS_PHOTO_TREE_ID ≠ CDS_MUSIC_TREE_ID := by
  refine ⟨?_, ?_, ?_, ?_, ?_, ?_, ?_, ?_, ?_⟩ <;> decide!

/-- C7: `npt_parse` accepts `1:12:23` as `NPT_HHMMSS` (1, 12, 23); `npt_tostring` prints it
with dots, `1.12.23`, which `npt_parse` reads back as `NPT_SEC_FULL` with `sec_hi = 1` and
`sec_lo = 12`: another tag and other fields. -/
theorem npt_tostring_hhmmss_not_reparsed :
    npt_parse "1:12:23".toList npt_zero
      = (1, { npt_zero with type := NPT_HHMMSS, hh := 1, mm := 12, ss := 23 }) ∧
    npt_tostring (npt_parse "1:12:23".toList npt_zero).2 none = some "1.12.23".toList ∧
    npt_parse "1.12.23".toList npt_zero
      = (1, { npt_zero with type := NPT_SEC_FULL, sec_hi := 1, sec_lo := 12 }) := by
  decide!

/-- C8: `timeseek_parse` accepts the test input `npt=310.1-1:02:32.123\r` as `TSR_NPT_NPT`;
`timeseek_tostring` prints `npt=310.1-1.02.32.123`, which `timeseek_parse` rejects (return 0,
`TSR_INVALID`). -/
theorem timeseek_tostring_not_reparsed :
    (timeseek_parse "npt=310.1-1:02:32.123\r".toList tsr_zero).map (fun r => (r.1, r.2.type))
      = some (1, TSR_NPT_NPT) ∧
    (timeseek_parse "npt=310.1-1:02:32.123\r".toList tsr_zero).map
        (fun r => timeseek_tostring r.2 none)
      = some (some "npt=310.1-1.02.32.123".toList) ∧
    (timeseek_parse "npt=310.1-1.02.32.123".toList tsr_zero).map (fun r => (r.1, r.2.type))
      = some (0, TSR_INVALID) := by
  decide!

/-! ## Lemmas on the `%u` conversions -/

theorem digit_char_toNat {d : Nat} (h : d < 10) : (digit_char d).toNat = 48 + d := by
  interval_cases d <;> rfl

theorem c_isdigit_digit_char {d : Nat} (h : d < 10) : c_isdigit (digit_char d) = true := by
  interval_cases d <;> rfl

theorem scan_digits_append (l rest : CString) (acc : Nat)
    (hl : ∀ c ∈ l, c_isdigit c = true)
    (hr : ∀ c, rest.head? = some c → c_isdigit c = false) :
    scan_digits (l ++ rest) acc = (digits_value l acc, rest) := by
  induction l generalizing acc with
  | nil =>
    cases rest with
    | nil => simp [scan_digits, digits_value]
    | cons c cs =>
      have := hr c rfl
      simp [scan_digits, digits_value, this]
  | cons c cs ih =>
    have hc := hl c (List.mem_cons_self _ _)
    have := ih (acc * 10 + (c.toNat - 48)) (fun x hx => hl x (List.mem_cons_of_mem _ hx))
    simp [scan_digits, hc, this, digits_value]

theorem utoa_aux_digits (fuel : Nat) : ∀ (n : Nat) (acc : CString),
    (∀ c ∈ acc, c_isdigit c = true) → ∀ c ∈ utoa_aux fuel n acc, c_isdigit c = true := by
  induction fuel with
  | zero => intro n acc h; simpa [utoa_aux] using h
  | succ f ih =>
    intro n acc h
    have hd : c_isdigit (digit_char (n % 10)) = true := c_isdigit_digit_char (Nat.mod_lt _ (by norm_num))
    have h' : ∀ c ∈ digit_char (n % 10) :: acc, c_isdigit c = true := by
      intro c hc
      rcases List.mem_cons.1 hc with rfl | hc
      · exact hd
      · exact h c hc
    unfold utoa_aux
    split
    · exact h'
    · exact ih _ _ h'

theorem utoa_aux_value (fuel : Nat) : ∀ (n : Nat) (acc : CString), n < fuel →
    digits_value (utoa_aux fuel n acc) 0 = digits_value acc n := by
  induction fuel with
  | zero => intro n acc h; omega
  | succ f ih =>
    intro n acc h
    have hd : (digit_char (n % 10)).toNat = 48 + n % 10 := digit_char_toNat (Nat.mod_lt _ (by norm_num))
    unfold utoa_aux
    split
    · rename_i h0
      have : n % 10 = n := by omega
      simp only [digits_value, List.foldl_cons, hd]
      congr 1
      omega
    · rename_i h0
      rw [ih _ _ (by omega)]
      simp only [digits_value, List.foldl_cons, hd]
      congr 1
      omega

theorem utoa_aux_ne_nil (fuel n : Nat) (acc : CString) : utoa_aux (fuel + 1) n acc ≠ [] := by
  induction fuel generalizing n acc with
  | zero => unfold utoa_aux; split <;> simp [utoa_aux]
  | succ f ih =>
    unfold utoa_aux
    split
    · simp
    · exact ih _ _

theorem utoa_digits (n : Nat) : ∀ c ∈ utoa n, c_isdigit c = true :=
  utoa_aux_digits _ _ _ (by simp)

theorem utoa_value (n : Nat) : digits_value (utoa n) 0 = n := by
  have := utoa_aux_value (n + 1) n [] (by omega)
  simpa [utoa, digits_value] using this

theorem utoa_ne_nil (n : Nat) : utoa n ≠ [] := utoa_aux_ne_nil _ _ _

theorem utoa02_digits (n : Nat) : ∀ c ∈ utoa02 n, c_isdigit c = true := by
  intro c hc
  unfold utoa02 at hc
  split at hc
  · rcases List.mem_cons.1 hc with rfl | hc
    · rfl
    · exact utoa_digits n c hc
  · exact utoa_digits n c hc

theorem utoa02_value (n : Nat) : digits_value (utoa02 n) 0 = n := by
  unfold utoa02
  split
  · have := utoa_value n
    simpa [digits_value] using this
  · exact utoa_value n

theorem utoa02_ne_nil (n : Nat) : utoa02 n ≠ [] := by
  unfold utoa02
  split
  · simp
  · exact utoa_ne_nil n

theorem c_isdigit_facts {c : Char} (h : c_isdigit c = true) :
    c_isspace c = false ∧ c ≠ '-' ∧ c ≠ '+' ∧ c ≠ '*' ∧ c ≠ 'n' ∧ c ≠ ':' ∧ c ≠ '.' := by
  refine ⟨?_, ?_, ?_, ?_, ?_, ?_, ?_⟩
  · simp only [c_isspace, Bool.or_eq_false_iff, decide_eq_false_iff_not]
    refine ⟨⟨⟨⟨⟨?_, ?_⟩, ?_⟩, ?_⟩, ?_⟩, ?_⟩ <;> (rintro rfl; revert h; decide)
  all_goals (rintro rfl; revert h; decide)

theorem scan_u_digits (l rest : CString) (hne : l ≠ [])
    (hl : ∀ c ∈ l, c_isdigit c = true)
    (hr : ∀ c, rest.head? = some c → c_isdigit c = false) :
    scan_u (l ++ rest) = some (digits_value l 0 % 2 ^ 32, rest) := by
  cases l with
  | nil => exact absurd rfl hne
  | cons c cs =>
    have hc := hl c (List.mem_cons_self _ _)
    obtain ⟨hs, hm, hp, -, -, -, -⟩ := c_isdigit_facts hc
    have hsd := scan_digits_append (c :: cs) rest 0 hl hr
    simp only [List.cons_append] at hsd ⊢
    have hsg : scan_sign (c :: (cs ++ rest)) = (false, c :: (cs ++ rest)) := by
      unfold scan_sign
      split
      · rename_i heq; simp at heq; exact absurd heq.1 hm
      · rename_i heq; simp at heq; exact absurd heq.1 hp
      · rfl
    unfold scan_u
    simp [List.dropWhile, hs, hsg, hc, hsd]

theorem strchr_ne_none {s : CString} {c : Char} (h : c ∈ s) : strchr s c ≠ none := by
  induction s with
  | nil => simp at h
  | cons x xs ih =>
    unfold strchr
    split
    · simp
    · rename_i hx
      have : c ∈ xs := by
        rcases List.mem_cons.1 h with rfl | h
        · exact absurd rfl hx
        · exact h
      simpa using ih this

theorem sscanf_hhmmss_full (lh lm ls lf : CString)
    (hh : lh ≠ [] ∧ ∀ c ∈ lh, c_isdigit c = true) (hm : lm ≠ [] ∧ ∀ c ∈ lm, c_isdigit c = true)
    (hs : ls ≠ [] ∧ ∀ c ∈ ls, c_isdigit c = true) (hf : lf ≠ [] ∧ ∀ c ∈ lf, c_isdigit c = true) :
    sscanf (lh ++ ':' :: (lm ++ ':' :: (ls ++ '.' :: lf)))
        [conv_u, lit ':', conv_u, lit ':', conv_u, lit '.', conv_u]
      = [scan_value.u (digits_value lh 0 % 2 ^ 32), scan_value.u (digits_value lm 0 % 2 ^ 32),
         scan_value.u (digits_value ls 0 % 2 ^ 32), scan_value.u (digits_value lf 0 % 2 ^ 32)] := by
  have h1 := scan_u_digits lh (':' :: (lm ++ ':' :: (ls ++ '.' :: lf))) hh.1 hh.2
    (by intro c hc; simp at hc; subst hc; rfl)
  have h2 := scan_u_digits lm (':' :: (ls ++ '.' :: lf)) hm.1 hm.2
    (by intro c hc; simp at hc; subst hc; rfl)
  have h3 := scan_u_digits ls ('.' :: lf) hs.1 hs.2
    (by intro c hc; simp at hc; subst hc; rfl)
  have h4 := scan_u_digits lf [] hf.1 hf.2 (by simp)
  simp only [List.append_nil] at h4
  simp [sscanf, h1, h2, h3, h4]

theorem npt_parse_hhmmss_full (lh lm ls lf : CString) (npt : npt_time)
    (hh : lh ≠ [] ∧ ∀ c ∈ lh, c_isdigit c = true) (hm : lm ≠ [] ∧ ∀ c ∈ lm, c_isdigit c = true)
    (hs : ls ≠ [] ∧ ∀ c ∈ ls, c_isdigit c = true) (hf : lf ≠ [] ∧ ∀ c ∈ lf, c_isdigit c = true)
    (hm59 : digits_value lm 0 % 2 ^ 32 % 256 ≤ 59) (hs59 : digits_value ls 0 % 2 ^ 32 % 256 ≤ 59) :
    npt_parse (lh ++ ':' :: (lm ++ ':' :: (ls ++ '.' :: lf))) npt
      = (1, { npt with type := NPT_HHMMSS_FULL, hh := digits_value lh 0 % 2 ^ 32,
                       mm := digits_value lm 0 % 2 ^ 32 % 256,
                       ss := digits_value ls 0 % 2 ^ 32 % 256,
                       low := digits_value lf 0 % 2 ^ 32 }) := by
  have hsc := sscanf_hhmmss_full lh lm ls lf hh hm hs hf
  obtain ⟨c, cs, rfl⟩ := List.exists_cons_of_ne_nil hh.1
  have hc := hh.2 c (List.mem_cons_self _ _)
  obtain ⟨-, -, -, hstar, hn, -, -⟩ := c_isdigit_facts hc
  have hcolon : strchr (c :: cs ++ ':' :: (lm ++ ':' :: (ls ++ '.' :: lf))) ':' ≠ none :=
    strchr_ne_none (by simp)
  have hdot : strchr (c :: cs ++ ':' :: (lm ++ ':' :: (ls ++ '.' :: lf))) '.' ≠ none :=
    strchr_ne_none (by simp)
  have hnow : List.take 3 (c :: cs ++ ':' :: (lm ++ ':' :: (ls ++ '.' :: lf))) ≠ "now".toList := by
    intro h
    have : "now".toList = ['n', 'o', 'w'] := rfl
    rw [this] at h
    simp at h
    exact hn h.1
  unfold npt_parse
  rw [if_neg (by simpa using hstar), if_neg hnow, if_neg hcolon, if_pos hdot, hsc]
  simp only []
  rw [if_neg (by simp), if_neg (by simp; omega)]

/-! ## A failed parse leaves the invalid tag -/

theorem npt_parse_zero (s : CString) (npt : npt_time) (h : (npt_parse s npt).1 = 0) :
    (npt_parse s npt).2.type = NPT_INVALID := by
  unfold npt_parse at h ⊢
  repeat' split
  all_goals try simp_all
  all_goals (split_ifs at h ⊢; simp_all)

theorem bytesrange_parse_zero (s : CString) (br : bytes_range) (h : (bytesrange_parse s br).1 = 0) :
    (bytesrange_parse s br).2.type = BR_INVALID := by
  unfold bytesrange_parse at h ⊢
  repeat' split
  all_goals simp_all

theorem timeseek_parse_bytes_zero (b : Option CString) (tsr : timeseek_range)
    (h : (timeseek_parse_bytes b tsr).1 = 0) :
    (timeseek_parse_bytes b tsr).2.type = TSR_INVALID := by
  revert h
  unfold timeseek_parse_bytes
  cases b with
  | none => simp
  | some b =>
    simp only []
    generalize sscanf b _ = v1
    generalize sscanf b _ = v2
    repeat' split
    all_goals simp

theorem timeseek_parse_after_end_zero (npt : CString) (b : Option CString)
    (tsr : timeseek_range) (h : (timeseek_parse_after_end npt b tsr).1 = 0) :
    (timeseek_parse_after_end npt b tsr).2.type = TSR_INVALID := by
  revert h
  unfold timeseek_parse_after_end
  simp only []
  repeat' first | split | split_ifs
  all_goals
    intro h
    first | rfl | exact timeseek_parse_bytes_zero _ _ h

theorem timeseek_parse_rest_zero (npt : CString) (b : Option CString)
    (tsr : timeseek_range) (h : (timeseek_parse_rest npt b tsr).1 = 0) :
    (timeseek_parse_rest npt b tsr).2.type = TSR_INVALID := by
  revert h
  unfold timeseek_parse_rest
  simp only []
  repeat' first | split | split_ifs
  all_goals
    intro h
    first
    | rfl
    | (simp at h; done)
    | exact timeseek_parse_bytes_zero _ _ h
    | exact timeseek_parse_after_end_zero _ _ _ h

theorem timeseek_parse_zero (s : CString) (tsr : timeseek_range) :
    ∀ r, timeseek_parse s tsr = some r → r.1 = 0 → r.2.type = TSR_INVALID := by
  unfold timeseek_parse
  simp only []
  repeat' first | split | split_ifs
  all_goals
    intro r hr h
    first
    | (simp at hr; done)
    | (simp only [Option.some.injEq] at hr; subst hr
       first | rfl | exact timeseek_parse_rest_zero _ _ _ h)

/-! ## Seek-range grammar: claims -/

theorem bytesrange_parse_text_closed (ln lm rest : CString) (br : bytes_range)
    (hn : ln ≠ [] ∧ ∀ c ∈ ln, c_isdigit c = true) (hm : lm ≠ [] ∧ ∀ c ∈ lm, c_isdigit c = true)
    (hr : ∀ c, rest.head? = some c → c_isdigit c = false) :
    bytesrange_parse ("bytes=".toList ++ (ln ++ '-' :: (lm ++ rest))) br
      = (1, { br with first := digits_value ln 0 % 2 ^ 32, last := digits_value lm 0 % 2 ^ 32,
                      type := BR_CLOSED }) := by
  have h1 := scan_u_digits ln ('-' :: (lm ++ rest)) hn.1 hn.2
    (by intro c hc; simp at hc; subst hc; rfl)
  have h2 := scan_u_digits lm rest hm.1 hm.2 hr
  have hb : "bytes=".toList = ['b', 'y', 't', 'e', 's', '='] := rfl
  unfold bytesrange_parse
  simp [hb, sscanf, h1, h2]

theorem bytesrange_parse_text_open (ln rest : CString) (br : bytes_range)
    (hn : ln ≠ [] ∧ ∀ c ∈ ln, c_isdigit c = true)
    (hr : scan_u rest = none) :
    bytesrange_parse ("bytes=".toList ++ (ln ++ '-' :: rest)) br
      = (1, { br with first := digits_value ln 0 % 2 ^ 32, type := BR_OPEN }) := by
  have h1 := scan_u_digits ln ('-' :: rest) hn.1 hn.2
    (by intro c hc; simp at hc; subst hc; rfl)
  have hb : "bytes=".toList = ['b', 'y', 't', 'e', 's', '='] := rfl
  unfold bytesrange_parse
  simp [hb, sscanf, h1, hr]

/-- C9: `bytesrange_parse` reads `bytes=1-2` as the closed range (1, 2), and
`bytesrange_tostring` prints it as `bytes=2-` followed by an indeterminate number (`junk`):
the first position is lost, so the text is never `bytes=1-2` and the range read back from it
starts at 2. -/
theorem bytesrange_tostring_closed_loses_first (junk : Nat) :
    bytesrange_parse "bytes=1-2".toList br_zero
      = (1, { type := BR_CLOSED, first := 1, last := 2 }) ∧
    bytesrange_tostring junk { type := BR_CLOSED, first := 1, last := 2 } none
      = some ("bytes=2-".toList ++ utoa junk) ∧
    bytesrange_tostring junk { type := BR_CLOSED, first := 1, last := 2 } none
      ≠ some "bytes=1-2".toList ∧
    bytesrange_parse ("bytes=2-".toList ++ utoa junk) br_zero
      = (1, { type := BR_CLOSED, first := 2, last := junk % 2 ^ 32 }) := by
  have h2 : utoa 2 = ['2'] := by decide
  have hb : "bytes=".toList = ['b', 'y', 't', 'e', 's', '='] := rfl
  have hb2 : "bytes=2-".toList = "bytes=".toList ++ (['2'] ++ '-' :: []) := rfl
  have hb3 : "bytes=1-2".toList = ['b', 'y', 't', 'e', 's', '=', '1', '-', '2'] := rfl
  refine ⟨by decide!, ?_, ?_, ?_⟩
  · simp [bytesrange_tostring, copy_out, h2, hb2, hb]
  · simp [bytesrange_tostring, copy_out, h2, hb3, hb]
  · have := bytesrange_parse_text_closed ['2'] (utoa junk) [] br_zero
      ⟨by simp, by decide⟩ ⟨utoa_ne_nil junk, utoa_digits junk⟩ (by simp)
    rw [utoa_value] at this
    simpa [hb2, br_zero, digits_value] using this

/-- C10 (the claim as stated fails): for the hour 4294967296 = 2^32 the text
`4294967296:00:00.0` is accepted, but the field `hh` holds 0. -/
theorem npt_parse_hour_wraps :
    npt_parse (utoa 4294967296 ++ ':' :: (utoa02 0 ++ ':' :: (utoa02 0 ++ '.' :: utoa 0))) npt_zero
      = (1, { npt_zero with type := NPT_HHMMSS_FULL, hh := 0 }) ∧
    utoa 4294967296 ++ ':' :: (utoa02 0 ++ ':' :: (utoa02 0 ++ '.' :: utoa 0))
      = "4294967296:00:00.0".toList := by
  refine ⟨?_, ?_⟩ <;> decide!

/-- C10 (amended): for every hour `h < 2^32`, minute `m ≤ 59`, second `s ≤ 59` and fraction
`f ≤ 999`, `npt_parse` applied to the text `h:mm:ss.f` returns 1 and yields the tag
`NPT_HHMMSS_FULL` with `hh = h`, `mm = m`, `ss = s`, `low = f`. -/
theorem npt_parse_hhmmss_full_fields (h m s f : Nat) (npt : npt_time)
    (hh : h < 2 ^ 32) (hm : m ≤ 59) (hs : s ≤ 59) (hf : f ≤ 999) :
    npt_parse (utoa h ++ ':' :: (utoa02 m ++ ':' :: (utoa02 s ++ '.' :: utoa f))) npt
      = (1, { npt with type := NPT_HHMMSS_FULL, hh := h, mm := m, ss := s, low := f }) := by
  have key := npt_parse_hhmmss_full (utoa h) (utoa02 m) (utoa02 s) (utoa f) npt
    ⟨utoa_ne_nil h, utoa_digits h⟩ ⟨utoa02_ne_nil m, utoa02_digits m⟩
    ⟨utoa02_ne_nil s, utoa02_digits s⟩ ⟨utoa_ne_nil f, utoa_digits f⟩
  rw [utoa_value, utoa02_value, utoa02_value, utoa_value] at key
  have e1 : h % 2 ^ 32 = h := Nat.mod_eq_of_lt hh
  have e2 : m % 2 ^ 32 % 256 = m := by omega
  have e3 : s % 2 ^ 32 % 256 = s := by omega
  have e4 : f % 2 ^ 32 = f := by omega
  rw [e1, e2, e3, e4] at key
  exact key (by omega) (by omega)

/-- C10 (witness): the text `1:02:32.123` gives (1, 2, 32, 123). -/
theorem npt_parse_hhmmss_full_fields_witness :
    npt_parse (utoa 1 ++ ':' :: (utoa02 2 ++ ':' :: (utoa02 32 ++ '.' :: utoa 123))) npt_zero
      = (1, { npt_zero with type := NPT_HHMMSS_FULL, hh := 1, mm := 2, ss := 32, low := 123 }) :=
  npt_parse_hhmmss_full_fields 1 2 32 123 npt_zero (by decide) (by decide) (by decide) (by decide)

/-- C11: the minutes and seconds are stored through `%u` into `unsigned char` fields, so only
their low byte is compared with 59: `1:256:00` (256 minutes) and `1:00:300` (300 seconds) are
accepted with `mm = 0` and `ss = 44`, while `1:62:32` is rejected. -/
theorem npt_parse_minutes_above_255 :
    npt_parse "1:256:00".toList npt_zero = (1, { npt_zero with type := NPT_HHMMSS, hh := 1 }) ∧
    npt_parse "1:00:300".toList npt_zero
      = (1, { npt_zero with type := NPT_HHMMSS, hh := 1, ss := 44 }) ∧
    npt_parse "1:62:32".toList npt_zero
      = (0, { npt_zero with type := NPT_INVALID, hh := 1, mm := 62, ss := 32 }) := by
  refine ⟨?_, ?_, ?_⟩ <;> decide!

/-- C12 (the claim as stated fails): for N = 4294967296 = 2^32 the text `bytes=4294967296-`
is accepted as an open range whose `first` is 0. -/
theorem bytesrange_parse_first_wraps :
    bytesrange_parse ("bytes=".toList ++ (utoa 4294967296 ++ ['-'])) br_zero
      = (1, { type := BR_OPEN, first := 0, last := 0 }) := by
  decide!

/-- C12 (amended): for all `N`, `M` below `2^32`, `bytes=N-` is read as `BR_OPEN` with
`first = N` and `bytes=N-M` as `BR_CLOSED` with `first = N`, `last = M`, whatever the order of
`N` and `M`. -/
theorem bytesrange_parse_open_closed (N M : Nat) (br : bytes_range)
    (hN : N < 2 ^ 32) (hM : M < 2 ^ 32) :
    bytesrange_parse ("bytes=".toList ++ (utoa N ++ ['-'])) br
      = (1, { br with first := N, type := BR_OPEN }) ∧
    bytesrange_parse ("bytes=".toList ++ (utoa N ++ '-' :: utoa M)) br
      = (1, { br with first := N, last := M, type := BR_CLOSED }) := by
  constructor
  · have := bytesrange_parse_text_open (utoa N) [] br ⟨utoa_ne_nil N, utoa_digits N⟩ (by decide)
    rw [utoa_value, Nat.mod_eq_of_lt hN] at this
    exact this
  · have := bytesrange_parse_text_closed (utoa N) (utoa M) [] br ⟨utoa_ne_nil N, utoa_digits N⟩
      ⟨utoa_ne_nil M, utoa_digits M⟩ (by simp)
    rw [utoa_value, utoa_value, Nat.mod_eq_of_lt hN, Nat.mod_eq_of_lt hM] at this
    simpa using this

/-- C12 (witness): `bytes=1-` and `bytes=1-0`. -/
theorem bytesrange_parse_open_closed_witness :
    bytesrange_parse ("bytes=".toList ++ (utoa 1 ++ ['-'])) br_zero
      = (1, { br_zero with first := 1, type := BR_OPEN }) ∧
    bytesrange_parse ("bytes=".toList ++ (utoa 1 ++ '-' :: utoa 0)) br_zero
      = (1, { br_zero with first := 1, last := 0, type := BR_CLOSED }) :=
  bytesrange_parse_open_closed 1 0 br_zero (by decide) (by decide)

/-- C14: `timeseek_parse` returns 1 on `npt=310.1-` without assigning the tag: the output
keeps the tag it had before, `TSR_INVALID` or `TSR_NPT_NPT_ID_BYTES`, never `TSR_NPT`; and
`npt=1-2 bytes=3-4/5` is rejected, so `TSR_NPT_NPT_BYTES` is never the result. -/
theorem timeseek_parse_open_range_keeps_tag :
    (timeseek_parse "npt=310.1-".toList tsr_zero).map (fun r => (r.1, r.2.type))
      = some (1, TSR_INVALID) ∧
    (timeseek_parse "npt=310.1-".toList { tsr_zero with type := TSR_NPT_NPT_ID_BYTES }).map
        (fun r => (r.1, r.2.type))
      = some (1, TSR_NPT_NPT_ID_BYTES) ∧
    (timeseek_parse "npt=1-2 bytes=3-4/5".toList tsr_zero).map (fun r => (r.1, r.2.type))
      = some (0, TSR_INVALID) := by
  refine ⟨?_, ?_, ?_⟩ <;> decide!

/-- C15: `timeseek_parse` rejects the documented examples `npt=335.11-336.08` and
`npt=00:05:35.3-00:05:37.5` and the mixed form `npt=310.1-1:02:32.123`: after the end time
only `/`, CR or LF is accepted, the end of the string is not. With a trailing CR the mixed
form is accepted as `TSR_NPT_NPT`. -/
theorem timeseek_parse_rejects_npt_npt_at_end :
    (timeseek_parse "npt=335.11-336.08".toList tsr_zero).map (fun r => (r.1, r.2.type))
      = some (0, TSR_INVALID) ∧
    (timeseek_parse "npt=00:05:35.3-00:05:37.5".toList tsr_zero).map (fun r => (r.1, r.2.type))
      = some (0, TSR_INVALID) ∧
    (timeseek_parse "npt=310.1-1:02:32.123".toList tsr_zero).map (fun r => (r.1, r.2.type))
      = some (0, TSR_INVALID) ∧
    (timeseek_parse "npt=310.1-1:02:32.123\r".toList tsr_zero).map (fun r => (r.1, r.2.type))
      = some (1, TSR_NPT_NPT) := by
  refine ⟨?_, ?_, ?_, ?_⟩ <;> decide!

/-- C16: `timeseek_parse` looks for `npt=` anywhere in the string (`strstr`) and then reads the
start time from the fifth character on: `12345-npt=` does not begin with `npt=` and is
accepted (return 1) with the start time 5 seconds. -/
theorem timeseek_parse_accepts_inner_npt :
    (timeseek_parse "12345-npt=".toList tsr_zero).map (fun r => (r.1, r.2.npt_start))
      = some (1, { npt_zero with type := NPT_SEC, sec_hi := 5 }) := by
  decide!

/-- C17: whenever `npt_parse`, `bytesrange_parse` or `timeseek_parse` returns 0, the tag of
the output is `NPT_INVALID`, `BR_INVALID` or `TSR_INVALID`, whatever the output structure
held before. -/
theorem parse_failure_leaves_invalid_tag :
    (∀ (s : CString) (npt : npt_time),
      (npt_parse s npt).1 = 0 → (npt_parse s npt).2.type = NPT_INVALID) ∧
    (∀ (s : CString) (br : bytes_range),
      (bytesrange_parse s br).1 = 0 → (bytesrange_parse s br).2.type = BR_INVALID) ∧
    (∀ (s : CString) (tsr : timeseek_range) (r : Nat × timeseek_range),
      timeseek_parse s tsr = some r → r.1 = 0 → r.2.type = TSR_INVALID) :=
  ⟨npt_parse_zero, bytesrange_parse_zero, timeseek_parse_zero⟩

/-- C17 (witness): the rejected inputs `1:62:32`, `bytes=12345678` and `npt=335.11-336.08`,
parsed into structures that held a valid tag. -/
theorem parse_failure_leaves_invalid_tag_witness :
    (npt_parse "1:62:32".toList { npt_zero with type := NPT_NOW }).2.type = NPT_INVALID ∧
    (bytesrange_parse "bytes=12345678".toList { br_zero with type := BR_OPEN }).2.type
      = BR_INVALID ∧
    (timeseek_parse "npt=335.11-336.08".toList { tsr_zero with type := TSR_NPT_ID }).map
        (fun r => r.2.type) = some TSR_INVALID := by
  refine ⟨parse_failure_leaves_invalid_tag.1 _ _ (by decide!),
    parse_failure_leaves_invalid_tag.2.1 _ _ (by decide!), ?_⟩
  cases hr : timeseek_parse "npt=335.11-336.08".toList { tsr_zero with type := TSR_NPT_ID } with
  | none => exact absurd hr (by decide!)
  | some r =>
    have h0 : r.1 = 0 := by
      have : (timeseek_parse "npt=335.11-336.08".toList
          { tsr_zero with type := TSR_NPT_ID }).map (fun r => r.1) = some 0 := by decide!
      rw [hr] at this
      simpa using this
    simpa using parse_failure_leaves_invalid_tag.2.2 _ _ r hr h0

theorem cds_parse_browse_request_code (xml_read : CString → Option xml_node) (body : CString) :
    cds_parse_browse_request xml_read body = (CDS_402_ERROR, none) ∨
    ∃ r, cds_parse_browse_request xml_read body = (CDS_SUCCESS, some r) := by
  unfold cds_parse_browse_request
  repeat' split
  all_goals simp

theorem cds_Browse_code (xml_read : CString → Option xml_node) (body : CString) :
    (cds_Browse xml_read body).1 = CDS_SUCCESS ∨
    cds_Browse xml_read body = (CDS_402_ERROR, none) := by
  unfold cds_Browse
  rcases cds_parse_browse_request_code xml_read body with h | ⟨r, h⟩
  · right; rw [h]
  · left; rw [h]; simp only [if_true]
    cases r.BrowseFlag <;> simp [cds_browse_metadata, cds_browse_direct_children]

theorem cds_X_GetObjectIDfromIndex_code (xml_read : CString → Option xml_node) (body : CString) :
    (cds_X_GetObjectIDfromIndex xml_read body).1 = CDS_SUCCESS ∨
    (cds_X_GetObjectIDfromIndex xml_read body).1 = CDS_402_ERROR := by
  unfold cds_X_GetObjectIDfromIndex
  repeat' split
  all_goals simp

theorem cds_run_action_ne_720 (xml_read : CString → Option xml_node) (body : CString)
    (a : cds_action) : (cds_run_action xml_read body a).1 ≠ CDS_720_ERROR := by
  cases a
  · rcases cds_Browse_code xml_read body with h | h
    · simp [cds_run_action, h]; decide
    · simp [cds_run_action, h]; decide
  · simp [cds_run_action, cds_GetSortCapabilities]; decide
  · simp [cds_run_action, cds_GetSearchCapabilities]; decide
  · simp [cds_run_action, cds_GetSystemUpdateID]; decide
  · rcases cds_X_GetObjectIDfromIndex_code xml_read body with h | h
    · simp [cds_run_action, h]; decide
    · simp [cds_run_action, h]; decide

/-- C21: `cds_dispatch_action` calls no handler and returns `CDS_720_ERROR` exactly when the
SOAPAction text contains none of the five action names, and the return code is
`CDS_720_ERROR` only then; otherwise it calls the handler of the first of the five names, in
the order `#Browse`, `#GetSortCapabilities`, `#GetSearchCapabilities`, `#GetSystemUpdateID`,
`#X_GetObjectIDfromIndex`, that occurs in the text, and returns its result. -/
theorem cds_dispatch_action_first_match (xml_read : CString → Option xml_node)
    (soap_action body : CString) :
    (cds_dispatch_action xml_read soap_action body
      = match cds_action_names.find? (fun p => strstr soap_action p.1 ≠ none) with
        | none => (none, CDS_720_ERROR, none)
        | some p => (some p.2, cds_run_action xml_read body p.2)) ∧
    ((∀ p ∈ cds_action_names, strstr soap_action p.1 = none) ↔
      cds_dispatch_action xml_read soap_action body = (none, CDS_720_ERROR, none)) ∧
    ((∀ p ∈ cds_action_names, strstr soap_action p.1 = none) ↔
      (cds_dispatch_action xml_read soap_action body).2.1 = CDS_720_ERROR) := by
  have h1 := cds_run_action_ne_720 xml_read body .Browse
  have h2 := cds_run_action_ne_720 xml_read body .GetSortCapabilities
  have h3 := cds_run_action_ne_720 xml_read body .GetSearchCapabilities
  have h4 := cds_run_action_ne_720 xml_read body .GetSystemUpdateID
  have h5 := cds_run_action_ne_720 xml_read body .X_GetObjectIDfromIndex
  simp only [cds_run_action] at h1 h2 h3 h4 h5
  unfold cds_dispatch_action
  simp only [cds_action_names, List.find?, List.mem_cons, List.mem_singleton, List.not_mem_nil,
    or_false, forall_eq_or_imp, forall_eq]
  generalize strstr soap_action "#Browse".toList = s1
  generalize strstr soap_action "#GetSortCapabilities".toList = s2
  generalize strstr soap_action "#GetSearchCapabilities".toList = s3
  generalize strstr soap_action "#GetSystemUpdateID".toList = s4
  generalize strstr soap_action "#X_GetObjectIDfromIndex".toList = s5
  cases s1 <;> cases s2 <;> cases s3 <;> cases s4 <;> cases s5 <;>
    simp [cds_run_action, h1, h2, h3, h4, h5]

/-- C18: a `BrowseDirectChildren` request on the root of the freshly initialised tree, whose
three children are the virtual folders, is answered with the fixed text of
`cds_browse_direct_children`: `NumberReturned` and `TotalMatches` are 1, not 3, and the
folder `Music` is not in the answer; the answer is the same for every request. -/
theorem cds_Browse_direct_children_canned :
    (init_heap.bind (fun h => (h.get? root_tree).map (fun o => o.num_children)) = some 3) ∧
    cds_Browse (fun _ => some (browse_request_xml CDS_ROOT_TREE_ID
        "BrowseDirectChildren".toList)) []
      = (CDS_SUCCESS, some browse_direct_children_canned_response) ∧
    strstr browse_direct_children_canned_response
        "<NumberReturned>1</NumberReturned><TotalMatches>1</TotalMatches>".toList = some 777 ∧
    strstr browse_direct_children_canned_response "Music".toList = none ∧
    (∀ req, cds_browse_direct_children req
      = (CDS_SUCCESS, some browse_direct_children_canned_response)) := by
  refine ⟨?_, ?_, ?_, ?_, fun _ => rfl⟩ <;> decide!

/-- C19: a well-formed `BrowseMetadata` request whose `ObjectID` is carried by no node of the
freshly initialised tree is answered with `CDS_SUCCESS` and the fixed text of
`cds_browse_metadata`, and no request at all makes `cds_Browse` return `CDS_701_ERROR`. -/
theorem cds_Browse_unknown_object_succeeds :
    (init_heap.map (fun h => h.all (fun o => o.id ≠ "no-such-object".toList)) = some true) ∧
    cds_Browse (fun _ => some (browse_request_xml "no-such-object".toList
        "BrowseMetadata".toList)) []
      = (CDS_SUCCESS, some browse_metadata_canned_response) ∧
    (∀ xml_read body, (cds_Browse xml_read body).1 ≠ CDS_701_ERROR) := by
  refine ⟨?_, ?_, ?_⟩
  · decide!
  · decide!
  · intro xml_read body
    rcases cds_Browse_code xml_read body with h | h <;> rw [h] <;> decide

/-- C20: a Browse request with all required elements and the `BrowseFlag` text `BrowseAll`
is handled as `BrowseDirectChildren` and answered with `CDS_SUCCESS`, and no request at all
makes `cds_Browse` return `CDS_720_ERROR`. -/
theorem cds_Browse_unknown_flag_succeeds :
    (cds_parse_browse_request (fun _ => some (browse_request_xml CDS_ROOT_TREE_ID
        "BrowseAll".toList)) []).2.map (fun r => r.BrowseFlag)
      = some BROWSE_FLAG.BrowseDirectChildren ∧
    cds_Browse (fun _ => some (browse_request_xml CDS_ROOT_TREE_ID "BrowseAll".toList)) []
      = (CDS_SUCCESS, some browse_direct_children_canned_response) ∧
    (∀ xml_read body, (cds_Browse xml_read body).1 ≠ CDS_720_ERROR) := by
  refine ⟨?_, ?_, ?_⟩
  · decide!
  · decide!
  · intro xml_read body
    rcases cds_Browse_code xml_read body with h | h <;> rw [h] <;> decide

/-- C22: for the documented `X_GetObjectIDfromIndex` request `cds_dispatch_action` calls the
handler and returns `CDS_SUCCESS` while nothing is assigned to `*action_response`. -/
theorem cds_dispatch_action_X_GetObjectIDfromIndex_no_response :
    cds_dispatch_action (fun _ => some get_object_id_request_xml)
        "\"urn:schemas-upnp-org:service:ContentDirectory:1#X_GetObjectIDfromIndex\"".toList []
      = (some cds_action.X_GetObjectIDfromIndex, CDS_SUCCESS, none) := by
  decide!

/-! ## Items, UUID and configuration: claims -/

theorem fmt_02x_byte (b : Nat) (hb : b < 256) :
    fmt_02x b = [hex_digit_char (b / 16), hex_digit_char (b % 16)] := by
  have h : ∀ x : Fin 256, fmt_02x x.val = [hex_digit_char (x.val / 16), hex_digit_char (x.val % 16)] := by
    decide!
  exact h ⟨b, hb⟩

theorem is_lower_hex_hex_digit_char (d : Nat) (hd : d < 16) :
    is_lower_hex (hex_digit_char d) = true := by
  have h : ∀ x : Fin 16, is_lower_hex (hex_digit_char x.val) = true := by decide!
  exact h ⟨d, hd⟩

theorem random_byte_lt (r : Nat) : random_byte r < 256 := Nat.mod_lt _ (by decide)

theorem version_bits (x : Nat) (hx : x < 256) :
    ((x &&& 0x0f) ||| 0x40) < 256 ∧ ((x &&& 0x0f) ||| 0x40) / 16 = 4 := by
  have h : ∀ y : Fin 256, ((y.val &&& 0x0f) ||| 0x40) < 256 ∧ ((y.val &&& 0x0f) ||| 0x40) / 16 = 4 := by
    decide!
  exact h ⟨x, hx⟩

theorem variant_bits (x : Nat) (hx : x < 256) :
    ((x &&& 0x3f) ||| 0x80) < 256 ∧
    (((x &&& 0x3f) ||| 0x80) / 16 = 8 ∨ ((x &&& 0x3f) ||| 0x80) / 16 = 9 ∨
     ((x &&& 0x3f) ||| 0x80) / 16 = 10 ∨ ((x &&& 0x3f) ||| 0x80) / 16 = 11) := by
  have h : ∀ y : Fin 256, ((y.val &&& 0x3f) ||| 0x80) < 256 ∧
      (((y.val &&& 0x3f) ||| 0x80) / 16 = 8 ∨ ((y.val &&& 0x3f) ||| 0x80) / 16 = 9 ∨
       ((y.val &&& 0x3f) ||| 0x80) / 16 = 10 ∨ ((y.val &&& 0x3f) ||| 0x80) / 16 = 11) := by
    decide!
  exact h ⟨x, hx⟩

/-- C40: for every sequence of values returned by `rand()`, the text written by
`uuid_generate` has 36 characters, `-` at the positions 8, 13, 18 and 23 and a lower-case
hexadecimal digit at every other position, `4` at position 14 and one of `8`, `9`, `a`,
`b` at position 19. -/
theorem uuid_generate_version4 (rand : Nat → Nat) :
    (uuid_generate rand).length = 36 ∧
    (∀ i : Fin 36,
      if i.val = 8 ∨ i.val = 13 ∨ i.val = 18 ∨ i.val = 23
      then (uuid_generate rand).get? i.val = some '-'
      else ∃ c, (uuid_generate rand).get? i.val = some c ∧ is_lower_hex c = true) ∧
    (uuid_generate rand).get? 14 = some '4' ∧
    ((uuid_generate rand).get? 19 = some '8' ∨ (uuid_generate rand).get? 19 = some '9' ∨
     (uuid_generate rand).get? 19 = some 'a' ∨ (uuid_generate rand).get? 19 = some 'b') := by
  have hb : ∀ i, random_byte (rand i) < 256 := fun i => random_byte_lt _
  have h6 := version_bits (random_byte (rand 6)) (hb 6)
  have h8 := variant_bits (random_byte (rand 8)) (hb 8)
  have hx : ∀ b, b < 256 → is_lower_hex (hex_digit_char (b / 16)) = true ∧
      is_lower_hex (hex_digit_char (b % 16)) = true := fun b h =>
    ⟨is_lower_hex_hex_digit_char _ (by omega), is_lower_hex_hex_digit_char _ (by omega)⟩
  have e : uuid_generate rand =
      [hex_digit_char (random_byte (rand 0) / 16), hex_digit_char (random_byte (rand 0) % 16),
       hex_digit_char (random_byte (rand 1) / 16), hex_digit_char (random_byte (rand 1) % 16),
       hex_digit_char (random_byte (rand 2) / 16), hex_digit_char (random_byte (rand 2) % 16),
       hex_digit_char (random_byte (rand 3) / 16), hex_digit_char (random_byte (rand 3) % 16),
       '-',
       hex_digit_char (random_byte (rand 4) / 16), hex_digit_char (random_byte (rand 4) % 16),
       hex_digit_char (random_byte (rand 5) / 16), hex_digit_char (random_byte (rand 5) % 16),
       '-',
       hex_digit_char 4,
       hex_digit_char (((random_byte (rand 6) &&& 0x0f) ||| 0x40) % 16),
       hex_digit_char (random_byte (rand 7) / 16), hex_digit_char (random_byte (rand 7) % 16),
       '-',
       hex_digit_char (((random_byte (rand 8) &&& 0x3f) ||| 0x80) / 16),
       hex_digit_char (((random_byte (rand 8) &&& 0x3f) ||| 0x80) % 16),
       hex_digit_char (random_byte (rand 9) / 16), hex_digit_char (random_byte (rand 9) % 16),
       '-',
       hex_digit_char (random_byte (rand 10) / 16), hex_digit_char (random_byte (rand 10) % 16),
       hex_digit_char (random_byte (rand 11) / 16), hex_digit_char (random_byte (rand 11) % 16),
       hex_digit_char (random_byte (rand 12) / 16), hex_digit_char (random_byte (rand 12) % 16),
       hex_digit_char (random_byte (rand 13) / 16), hex_digit_char (random_byte (rand 13) % 16),
       hex_digit_char (random_byte (rand 14) / 16), hex_digit_char (random_byte (rand 14) % 16),
       hex_digit_char (random_byte (rand 15) / 16),
       hex_digit_char (random_byte (rand 15) % 16)] := by
    unfold uuid_generate
    simp only [fmt_02x_byte _ (hb _), fmt_02x_byte _ h6.1, fmt_02x_byte _ h8.1, h6.2,
      List.cons_append, List.nil_append]
  rw [e]
  refine ⟨rfl, ?_, ?_, ?_⟩
  · intro i
    have q6 := is_lower_hex_hex_digit_char (((random_byte (rand 6) &&& 0x0f) ||| 0x40) % 16)
      (Nat.mod_lt _ (by decide))
    have q8 := hx _ h8.1
    have q4 : is_lower_hex (hex_digit_char 4) = true := by decide
    fin_cases i <;> simp [hx _ (hb _), q6, q8, q4]
  · simp [hex_digit_char]
  · rcases h8.2 with h | h | h | h <;> rw [h] <;> simp [hex_digit_char]

/-- C37: `item_getinfo` gives the type `ITEM_AUDIOVIDEO` to a file with a video and an audio
stream, in either order, and `item_is_audio_video` returns 0 for it, as for every item of
type `ITEM_AUDIOVIDEO`. -/
theorem item_is_audio_video_zero_for_audiovideo :
    (item_getinfo "a.avi".toList "x".toList [.video, .audio]).type = ITEM_AUDIOVIDEO ∧
    (item_getinfo "a.avi".toList "x".toList [.audio, .video]).type = ITEM_AUDIOVIDEO ∧
    item_is_audio_video (item_getinfo "a.avi".toList "x".toList [.video, .audio]) = 0 ∧
    (∀ id filename,
      item_is_audio_video { type := ITEM_AUDIOVIDEO, id := id, filename := filename } = 0) := by
  refine ⟨by decide, by decide, by decide, fun _ _ => ?_⟩
  simp [item_is_audio_video, item_is_video, item_is_audio, ITEM_AUDIOVIDEO, ITEM_VIDEO,
    ITEM_AUDIO]

/-- C35: on a configuration with all sections, version `1.0` and a non-empty text in the
`uuid` element, `config_parse` returns `CONFIG_SUCCESS`, leaves the element as it is, and
`config_get_uuid` returns `NULL` afterwards; with an empty `uuid` element `config_get_uuid`
returns the generated text, which is also the content of the element. -/
theorem config_get_uuid_null_for_given_uuid (rand : Nat → Nat) (c : Char) (u : CString) :
    (config_parse rand (some (config_doc (c :: u))) (some "1.0".toList) g_param_start).map
        (fun x => (x.1, config_get_uuid x.2.1, x.2.2.map (fun n => n.content)))
      = some (CONFIG_SUCCESS, none, some (c :: u)) ∧
    (config_parse rand (some (config_doc [])) (some "1.0".toList) g_param_start).map
        (fun x => (x.1, config_get_uuid x.2.1, x.2.2.map (fun n => n.content)))
      = some (CONFIG_SUCCESS, some (uuid_generate rand), some (uuid_generate rand)) := by
  constructor <;> rfl

/-! ## HTTP server: claims -/

/-- C28: for a request with `transferMode.dlna.org: Interactive` and
`TimeSeekRange.dlna.org: npt=0-`, in either order, `httpd_parse_headers` leaves the loop at the
end of the first of the two lines (offsets 53 and 49 of 87), so only one of the two flags is
set and the error code recorded is 0, not 400. -/
theorem httpd_parse_headers_interactive_timeseek_no_error :
    transfer_fields (httpd_parse_headers g_context_start
        "GET /a HTTP/1.1\r\ntransferMode.dlna.org: Interactive\r\nTimeSeekRange.dlna.org: npt=0-\r\n\r\n".toList)
      = some (53, TRANSFER_MODE.TM_INTERACTIVE, 1, 0, 0) ∧
    transfer_fields (httpd_parse_headers g_context_start
        "GET /a HTTP/1.1\r\nTimeSeekRange.dlna.org: npt=0-\r\ntransferMode.dlna.org: Interactive\r\n\r\n".toList)
      = some (49, TRANSFER_MODE.TM_STREAMING, 0, 1, 0) := by
  constructor <;> decide!

/-- C29: `transferMode.dlna.org: Bulk` sets the error code 400, while the values
`Streamingx` and `Interactive2`, which only begin with one of the three words, are recorded as
`TM_STREAMING` and `TM_INTERACTIVE` with the error code 0. -/
theorem httpd_parse_headers_transfer_mode_prefix :
    transfer_fields (httpd_parse_headers g_context_start
        "GET /a HTTP/1.1\r\ntransferMode.dlna.org: Bulk\r\n\r\n".toList)
      = some (40, TRANSFER_MODE.TM_STREAMING, 0, 0, 400) ∧
    transfer_fields (httpd_parse_headers g_context_start
        "GET /a HTTP/1.1\r\ntransferMode.dlna.org: Streamingx\r\n\r\n".toList)
      = some (52, TRANSFER_MODE.TM_STREAMING, 1, 0, 0) ∧
    transfer_fields (httpd_parse_headers g_context_start
        "GET /a HTTP/1.1\r\ntransferMode.dlna.org: Interactive2\r\n\r\n".toList)
      = some (54, TRANSFER_MODE.TM_INTERACTIVE, 1, 0, 0) := by
  refine ⟨?_, ?_, ?_⟩ <;> decide!

/-- C30: with `Transfer-Encoding` in front of `Content-Length: 10` the result has
`chunked = 1` and `content_length = 10`; in the other order `content_length` is -1. -/
theorem httpd_parse_headers_content_length_after_chunked :
    length_fields (httpd_parse_headers g_context_start
        "POST /a HTTP/1.1\r\nTransfer-Encoding: chunked\r\nContent-Length: 10\r\n\r\n".toList)
      = some (68, 1, 10) ∧
    length_fields (httpd_parse_headers g_context_start
        "POST /a HTTP/1.1\r\nContent-Length: 10\r\nTransfer-Encoding: chunked\r\n\r\n".toList)
      = some (68, 1, -1) := by
  constructor <;> decide!

/-- C31: the request line `HEAD /a HTTP/1.0` is recorded with the method `HTTP_METHOD_POST`
and no version, and parsing ends two bytes before the end of the header section; `GET` and
`POST` request lines are recorded as claimed. -/
theorem httpd_parse_headers_head_recorded_as_post :
    request_line_fields (httpd_parse_headers g_context_start "HEAD /a HTTP/1.0\r\n\r\n".toList)
      = some (18, HTTP_METHOD.HTTP_METHOD_POST, some "/a".toList,
              HTTP_VERSION.HTTP_VERSION_UNKNOWN) ∧
    request_line_fields (httpd_parse_headers g_context_start "GET /a HTTP/1.0\r\n\r\n".toList)
      = some (19, HTTP_METHOD.HTTP_METHOD_GET, some "/a".toList,
              HTTP_VERSION.HTTP_VERSION_10) ∧
    request_line_fields (httpd_parse_headers g_context_start "POST /a HTTP/1.1\r\n\r\n".toList)
      = some (20, HTTP_METHOD.HTTP_METHOD_POST, some "/a".toList,
              HTTP_VERSION.HTTP_VERSION_11) := by
  refine ⟨?_, ?_, ?_⟩ <;> decide!

/-- C33: for the chunked body with the single chunk ` ` (one space) `httpd_parse_body` returns
the length 1 and the message `\r`, not the payload; the same happens for the payload `\n`,
while the chunks `Wiki` and `pedia` are put together as claimed. -/
theorem httpd_parse_body_payload_starting_with_space :
    httpd_parse_body "1\r\n \r\n0\r\n\r\n".toList 0 (-1) = some (1, some ['\r']) ∧
    httpd_parse_body "1\r\n\n\r\n0\r\n\r\n".toList 0 (-1) = some (1, some ['\r']) ∧
    httpd_parse_body "4\r\nWiki\r\n5\r\npedia\r\n0\r\n\r\n".toList 0 (-1)
      = some (9, some "Wikipedia".toList) := by
  refine ⟨?_, ?_, ?_⟩ <;> decide!

/-- C34: none of the 400, 401, 402, 404, 416 and 500 responses has a `Date` header; they have
`Connection: close`, `Server: YADA-HTTP/1.0`, `Content-Length: 0` and an empty body, and the
200 response for the body `hello` has the three headers and `Content-Length: 5`. -/
theorem http_error_responses_have_no_date :
    [HTTP_400_MSG_HEADERS, HTTP_401_MSG_HEADERS, HTTP_402_MSG_HEADERS, HTTP_404_MSG_HEADERS,
      HTTP_416_MSG_HEADERS, HTTP_500_MSG_HEADERS].map
        (fun h => (strstr h "Date".toList, (strstr h "Connection: close\r\n".toList).isSome,
                   (strstr h "Server: YADA-HTTP/1.0\r\n".toList).isSome,
                   (strstr h "Content-Length: 0\r\n".toList).isSome))
      = List.replicate 6 (none, true, true, true) ∧
    [HTTP_400_MSG_BODY, HTTP_401_MSG_BODY, HTTP_402_MSG_BODY, HTTP_404_MSG_BODY,
      HTTP_416_MSG_BODY, HTTP_500_MSG_BODY] = List.replicate 6 [] ∧
    httpd_send_200_OK sample_http_time (some "hello".toList)
      = some ["HTTP/1.1 200 OK\r\nConnection: close\r\nContent-Length: 5\r\nContent-Type: text/xml; charset=\"utf-8\"\r\nDate: Sun, 01 Nov 2026 10:00:00 GMT\r\nEXT: \r\nServer: YADA-HTTP/1.0\r\n\r\n".toList,
              "hello".toList] := by
  refine ⟨?_, ?_, ?_⟩ <;> decide!

/-- C38: for a request line followed by `Range: bytes=0-1`, `User-Agent: x` and the blank
line, `httpd_parse_headers` leaves the loop at the end of the `Range` line: it returns 35, not
52, and the `User-Agent` header is not recorded; the same request without the `Range` line is
parsed to its end. -/
theorem httpd_parse_headers_stops_after_range :
    (httpd_parse_headers g_context_start
        "GET /a HTTP/1.1\r\nRange: bytes=0-1\r\nUser-Agent: x\r\n\r\n".toList).map
        (fun x => (x.1, x.2.1.user_agent, x.2.1.br, x.2.2.bytes_range))
      = some (35, none, { type := BR_TYPE.BR_CLOSED, first := 0, last := 1 }, 1) ∧
    (httpd_parse_headers g_context_start "GET /a HTTP/1.1\r\nUser-Agent: x\r\n\r\n".toList).map
        (fun x => (x.1, x.2.1.user_agent, x.2.1.br, x.2.2.bytes_range))
      = some (34, some ['x'], br_zero, 0) := by
  constructor <;> decide!

/-- C39: `httpd_reset_context` leaves the flag `transfer_mode` as it is: after a connection
that set every flag, `transfer_mode` is still 1 while the other flags and `error_code` are 0. -/
theorem httpd_reset_context_keeps_transfer_mode :
    httpd_reset_context g_context_used = { g_context_start with transfer_mode := 1 } ∧
    (httpd_reset_context g_context_used).transfer_mode = 1 ∧
    (∀ g_context, (httpd_reset_context g_context).transfer_mode = g_context.transfer_mode) := by
  refine ⟨by decide!, by decide!, fun _ => rfl⟩

/-! ## SSDP: claims -/

theorem strstr_infix (a n b : CString) : strstr (a ++ n ++ b) n ≠ none := by
  induction a with
  | nil =>
    cases n with
    | nil => cases b <;> simp [strstr]
    | cons x xs => simp [strstr, List.isPrefixOf]
  | cons x xs ih =>
    simp only [List.cons_append, strstr]
    split
    · simp
    · simpa using ih

/-- C24: a datagram that begins with `M-SEARCH` makes `strncmp(buf, "M-SEARCH", 8)` zero, so
the branch that calls `upnp_send_msearch_reply` is not taken and nothing is sent, whatever
follows; this holds for the test message, which asks for the media server. -/
theorem upnp_discover_datagram_msearch_not_answered :
    upnp_get_msearch_type test_msearch = UPNP_ST_TYPE.MEDIASERVER_ST ∧
    (sample_upnp_context.bind
        (fun g => upnp_discover_datagram g test_msearch "10.0.0.5".toList 12345))
      = some (false, []) ∧
    (∀ g_context rest cli_ip cli_port,
      upnp_discover_datagram g_context ("M-SEARCH".toList ++ rest) cli_ip cli_port
        = some (false, [])) := by
  refine ⟨by decide!, by decide!, ?_⟩
  intro g_context rest cli_ip cli_port
  simp [upnp_discover_datagram, UPNP_MSEARCH_RECEIVED, UPNP_NOTIFY_RECEIVED, strncmp]

/-- C25: a datagram that begins with `NOTIFY` makes `strncmp(buf, "M-SEARCH", 8)` non-zero, so
`upnp_send_msearch_reply` is called for it; when its text holds `MAN` and `ST: ssdp:all`, the
four replies are sent to its source address. -/
theorem upnp_discover_datagram_notify_answered :
    (∀ g_context rest cli_ip cli_port,
      (upnp_discover_datagram g_context ("NOTIFY".toList ++ rest) cli_ip cli_port).map
          (fun r => r.1)
        = (upnp_send_msearch_reply g_context ("NOTIFY".toList ++ rest) cli_ip cli_port).map
          (fun _ => true)) ∧
    (sample_upnp_context.bind (fun g => upnp_discover_datagram g
        "NOTIFY * HTTP/1.1\r\nHOST: 239.255.255.250:1900\r\nMAN: \"ssdp:discover\"\r\nST: ssdp:all\r\n\r\n".toList
        "10.0.0.5".toList 12345))
      = some (true,
          [{ ip_address := "10.0.0.5".toList, port := 12345,
             text := UPNP_MSEARCH_REPLY_MSG UPNP_ROOTDEVICE_ST (some "192.168.1.2".toList) 8080
               (some "location".toList) UPNP_ROOTDEVICE_XML [] "Linux/5.10".toList },
           { ip_address := "10.0.0.5".toList, port := 12345,
             text := UPNP_MSEARCH_REPLY_MSG UPNP_MEDIASERVER_ST (some "192.168.1.2".toList) 8080
               (some "location".toList) UPNP_ROOTDEVICE_XML [] "Linux/5.10".toList },
           { ip_address := "10.0.0.5".toList, port := 12345,
             text := UPNP_MSEARCH_REPLY_MSG UPNP_CONTENTDIRECTORY_ST
               (some "192.168.1.2".toList) 8080 (some "location".toList)
               UPNP_CONTENTDIRECTORY_XML [] "Linux/5.10".toList },
           { ip_address := "10.0.0.5".toList, port := 12345,
             text := UPNP_MSEARCH_REPLY_MSG UPNP_CONNECTIONMANAGER_ST
               (some "192.168.1.2".toList) 8080 (some "location".toList)
               UPNP_CONNECTIONMANAGER_XML [] "Linux/5.10".toList }]) := by
  refine ⟨?_, by decide!⟩
  intro g_context rest cli_ip cli_port
  simp [upnp_discover_datagram, UPNP_MSEARCH_RECEIVED, strncmp]
  generalize upnp_send_msearch_reply g_context _ cli_ip cli_port = r
  cases r <;> rfl

/-- C27: after `upnp_init` with any parameter, the field `g_context.uuid`, which every
message template prints, is still empty, while the UUID passed is in
`g_context.init_param.uuid` only: the byebye messages sent by `upnp_init` carry
`USN: uuid:::NT`, and the alive message for the device carries `NT: uuid:` with nothing
after it. -/
theorem upnp_init_leaves_uuid_empty :
    (∀ os_name_version init_param,
      (upnp_init os_name_version init_param upnp_context_start).map
          (fun r => (r.1.uuid, r.1.init_param.uuid, r.2.map (fun m => m.text)))
        = some ([], init_param.uuid,
            [UPNP_BYEBYE_MSG UPNP_ROOTDEVICE_NT [], UPNP_BYEBYE_MSG UPNP_MEDIASERVER_NT [],
             UPNP_BYEBYE_MSG UPNP_CONNECTIONMANAGER_NT [],
             UPNP_BYEBYE_MSG UPNP_CONTENTDIRECTORY_NT []])) ∧
    UPNP_BYEBYE_MSG UPNP_ROOTDEVICE_NT []
      = "NOTIFY * HTTP/1.1\r\nHOST: 239.255.255.250:1900\r\nNT: upnp:rootdevice\r\nNTS: ssdp:byebye\r\nUSN: uuid:::upnp:rootdevice\r\nCONTENT-LENGTH: 0\r\n\r\n".toList ∧
    (sample_upnp_context.bind (fun g => (upnp_send_alive g).map
        (fun r => (r.1.get? 1).map (fun m => m.text))))
      = some (some "NOTIFY * HTTP/1.1\r\nHOST: 239.255.255.250:1900\r\nCACHE-CONTROL: max-age=1800\r\nLOCATION: http://192.168.1.2:8080/location/yada.xml\r\nNT: uuid:\r\nNTS: ssdp:alive\r\nUSN: uuid:\r\nSERVER: Linux/5.10 UPnP/1.0 YADA-UPNP/1.0\r\nCONTENT-LENGTH: 0\r\n\r\n".toList) := by
  refine ⟨fun _ _ => rfl, by decide!, by decide!⟩
theorem UPNP_ALIVE_MSG_length (NT : CString) (ip_address : Option CString) (port : Int)
    (location : Option CString) (uuid os_name_version : CString) :
    (UPNP_ALIVE_MSG NT ip_address port location uuid os_name_version).length
      = 197 + (fmt_s ip_address).length + (fmt_d port).length + (fmt_s location).length
        + 2 * NT.length + uuid.length + os_name_version.length := by
  simp only [UPNP_ALIVE_MSG, List.length_append]
  have e1 : "NOTIFY * HTTP/1.1\r\nHOST: 239.255.255.250:1900\r\nCACHE-CONTROL: max-age=1800\r\nLOCATION: http://".toList.length = 93 := by decide
  have e2 : ":".toList.length = 1 := by decide
  have e3 : "/".toList.length = 1 := by decide
  have e4 : "/yada.xml\r\nNT: ".toList.length = 15 := by decide
  have e5 : "\r\nNTS: ssdp:alive\r\nUSN: uuid:".toList.length = 29 := by decide
  have e6 : "::".toList.length = 2 := by decide
  have e7 : "\r\nSERVER: ".toList.length = 10 := by decide
  have e8 : " UPnP/1.0 YADA-UPNP/1.0\r\nCONTENT-LENGTH: 0\r\n\r\n".toList.length = 46 := by decide
  rw [e1, e2, e3, e4, e5, e6, e7, e8]
  omega

theorem UPNP_ALIVE_MSG_nt_line (NT : CString) (ip_address : Option CString) (port : Int)
    (location : Option CString) (uuid os_name_version : CString) :
    strstr (UPNP_ALIVE_MSG NT ip_address port location uuid os_name_version)
      ("\r\nNT: ".toList ++ NT ++ "\r\n".toList) ≠ none := by
  have e : UPNP_ALIVE_MSG NT ip_address port location uuid os_name_version
      = ("NOTIFY * HTTP/1.1\r\nHOST: 239.255.255.250:1900\r\nCACHE-CONTROL: max-age=1800\r\nLOCATION: http://".toList
          ++ fmt_s ip_address ++ ":".toList ++ fmt_d port ++ "/".toList ++ fmt_s location
          ++ "/yada.xml".toList)
        ++ ("\r\nNT: ".toList ++ NT ++ "\r\n".toList)
        ++ ("NTS: ssdp:alive\r\nUSN: uuid:".toList ++ uuid ++ "::".toList ++ NT
          ++ "\r\nSERVER: ".toList ++ os_name_version
          ++ " UPnP/1.0 YADA-UPNP/1.0\r\nCONTENT-LENGTH: 0\r\n\r\n".toList) := by
    simp [UPNP_ALIVE_MSG, List.append_assoc]
  rw [e]
  exact strstr_infix _ _ _

theorem UPNP_ALIVE_MSG_NO_NT_nt_line (ip_address : Option CString) (port : Int)
    (location : Option CString) (uuid os_name_version : CString) :
    strstr (UPNP_ALIVE_MSG_NO_NT ip_address port location uuid uuid os_name_version)
      ("\r\nNT: uuid:".toList ++ uuid ++ "\r\n".toList) ≠ none := by
  have e : UPNP_ALIVE_MSG_NO_NT ip_address port location uuid uuid os_name_version
      = ("NOTIFY * HTTP/1.1\r\nHOST: 239.255.255.250:1900\r\nCACHE-CONTROL: max-age=1800\r\nLOCATION: http://".toList
          ++ fmt_s ip_address ++ ":".toList ++ fmt_d port ++ "/".toList ++ fmt_s location
          ++ "/yada.xml".toList)
        ++ ("\r\nNT: uuid:".toList ++ uuid ++ "\r\n".toList)
        ++ ("NTS: ssdp:alive\r\nUSN: uuid:".toList ++ uuid ++ "\r\nSERVER: ".toList
          ++ os_name_version
          ++ " UPnP/1.0 YADA-UPNP/1.0\r\nCONTENT-LENGTH: 0\r\n\r\n".toList) := by
    simp [UPNP_ALIVE_MSG_NO_NT, List.append_assoc]
  rw [e]
  exact strstr_infix _ _ _

/-- C26: when the longest of the alive texts and the text for the device UUID fit the
512-byte message buffer, `upnp_send_alive` sends exactly 10 datagrams, all to
239.255.255.250 port 1900: the advertisement set of 5 texts with the `NT` lines
`upnp:rootdevice`, `uuid:<UUID>`, `...:device:MediaServer:1`,
`...:service:ContentDirectory:1`, `...:service:ConnectionManager:1`, in this order, followed
by the same 5 texts again. -/
theorem upnp_send_alive_ten_messages (g_context : upnp_context)
    (hfit : (UPNP_ALIVE_MSG UPNP_CONNECTIONMANAGER_NT g_context.init_param.ip_address
      g_context.init_param.port g_context.init_param.location g_context.uuid
      g_context.os_name_version).length < 512)
    (hfit_uuid : (UPNP_ALIVE_MSG_NO_NT g_context.init_param.ip_address
      g_context.init_param.port g_context.init_param.location g_context.uuid g_context.uuid
      g_context.os_name_version).length < 512) :
    ∃ sent, upnp_send_alive g_context = some (sent, UPNP_SUCCESS) ∧ sent.length = 10 ∧
      sent.map (fun m => m.text) = alive_set_texts g_context ++ alive_set_texts g_context ∧
      sent.all (fun m => m.ip_address = UPNP_MULTICAST_ADDR ∧ m.port = 1900) = true ∧
      List.Forall₂ (fun text line => strstr text line ≠ none) (alive_set_texts g_context)
        (alive_set_nt_lines g_context.uuid) := by
  have l5 := UPNP_ALIVE_MSG_length UPNP_CONNECTIONMANAGER_NT g_context.init_param.ip_address
      g_context.init_param.port g_context.init_param.location g_context.uuid
      g_context.os_name_version
  have l1 := UPNP_ALIVE_MSG_length UPNP_ROOTDEVICE_NT g_context.init_param.ip_address
      g_context.init_param.port g_context.init_param.location g_context.uuid
      g_context.os_name_version
  have l3 := UPNP_ALIVE_MSG_length UPNP_MEDIASERVER_NT g_context.init_param.ip_address
      g_context.init_param.port g_context.init_param.location g_context.uuid
      g_context.os_name_version
  have l4 := UPNP_ALIVE_MSG_length UPNP_CONTENTDIRECTORY_NT g_context.init_param.ip_address
      g_context.init_param.port g_context.init_param.location g_context.uuid
      g_context.os_name_version
  have n1 : UPNP_ROOTDEVICE_NT.length = 15 := by decide
  have n3 : UPNP_MEDIASERVER_NT.length = 41 := by decide
  have n4 : UPNP_CONTENTDIRECTORY_NT.length = 47 := by decide
  have n5 : UPNP_CONNECTIONMANAGER_NT.length = 48 := by decide
  have h1 : (UPNP_ALIVE_MSG UPNP_ROOTDEVICE_NT g_context.init_param.ip_address
      g_context.init_param.port g_context.init_param.location g_context.uuid
      g_context.os_name_version).length < 512 := by omega
  have h3 : (UPNP_ALIVE_MSG UPNP_MEDIASERVER_NT g_context.init_param.ip_address
      g_context.init_param.port g_context.init_param.location g_context.uuid
      g_context.os_name_version).length < 512 := by omega
  have h4 : (UPNP_ALIVE_MSG UPNP_CONTENTDIRECTORY_NT g_context.init_param.ip_address
      g_context.init_param.port g_context.init_param.location g_context.uuid
      g_context.os_name_version).length < 512 := by omega
  have p : atoi UPNP_SSDP_PORT = 1900 := by decide!
  have hset : upnp_send_alive_set g_context
      = some ((alive_set_texts g_context).map
          (fun t => { ip_address := UPNP_MULTICAST_ADDR, port := 1900, text := t })) := by
    simp [upnp_send_alive_set, upnp_send_message, h1, h3, h4, hfit, hfit_uuid, p,
      alive_set_texts]
  refine ⟨(alive_set_texts g_context ++ alive_set_texts g_context).map
      (fun t => { ip_address := UPNP_MULTICAST_ADDR, port := 1900, text := t }),
    ?_, ?_, ?_, ?_, ?_⟩
  · simp only [upnp_send_alive, upnp_send_alive_loop, hset]
    simp [UPNP_SUCCESS]
  · simp [alive_set_texts]
  · simp [alive_set_texts]
  · simp [alive_set_texts]
  · simp only [alive_set_texts, alive_set_nt_lines]
    refine List.Forall₂.cons (UPNP_ALIVE_MSG_nt_line _ _ _ _ _ _) ?_
    refine List.Forall₂.cons (UPNP_ALIVE_MSG_NO_NT_nt_line _ _ _ _ _) ?_
    refine List.Forall₂.cons (UPNP_ALIVE_MSG_nt_line _ _ _ _ _ _) ?_
    refine List.Forall₂.cons (UPNP_ALIVE_MSG_nt_line _ _ _ _ _ _) ?_
    exact List.Forall₂.cons (UPNP_ALIVE_MSG_nt_line _ _ _ _ _ _) List.Forall₂.nil

theorem upnp_send_alive_ten_messages_witness :
    (UPNP_ALIVE_MSG UPNP_CONNECTIONMANAGER_NT sample_context.init_param.ip_address
      sample_context.init_param.port sample_context.init_param.location sample_context.uuid
      sample_context.os_name_version).length < 512 ∧
    ∃ sent, upnp_send_alive sample_context = some (sent, UPNP_SUCCESS) ∧ sent.length = 10 ∧
      sent.map (fun m => m.text) = alive_set_texts sample_context ++ alive_set_texts sample_context ∧
      sent.all (fun m => m.ip_address = UPNP_MULTICAST_ADDR ∧ m.port = 1900) = true ∧
      List.Forall₂ (fun text line => strstr text line ≠ none) (alive_set_texts sample_context)
        (alive_set_nt_lines sample_context.uuid) :=
  ⟨by decide!, upnp_send_alive_ten_messages sample_context (by decide!) (by decide!)⟩

/-! ## The child-list invariant: lemmas -/

theorem IsChain_lt (h : Heap) (par : Nat) :
    ∀ (l : List Nat) (b : Nat) (cur : Option Nat), IsChain h par (some b) cur l →
      ∀ a ∈ l, b < a := by
  intro l
  induction l with
  | nil => intro b cur _ a ha; cases ha
  | cons x l ih =>
    intro b cur hc a ha
    obtain ⟨_, _, hb, o, _, _, _, hrest⟩ := hc
    have hbx := hb b rfl
    rcases List.mem_cons.1 ha with rfl | ha
    · exact hbx
    · exact Nat.lt_trans hbx (ih x _ hrest a ha)

theorem IsChain_mem (h : Heap) (par : Nat) :
    ∀ (l : List Nat) (prev cur : Option Nat), IsChain h par prev cur l →
      ∀ a ∈ l, par < a ∧ ∃ o, h[a]? = some o ∧ o.parent = some par := by
  intro l
  induction l with
  | nil => intro prev cur _ a ha; cases ha
  | cons x l ih =>
    intro prev cur hc a ha
    obtain ⟨_, hp, _, o, ho, hpar, _, hrest⟩ := hc
    rcases List.mem_cons.1 ha with rfl | ha
    · exact ⟨hp, o, ho, hpar⟩
    · exact ih _ _ hrest a ha

theorem IsChain_congr (h h' : Heap) (par : Nat) :
    ∀ (l : List Nat) (prev cur : Option Nat), IsChain h par prev cur l →
      (∀ a ∈ l, ∀ o, h[a]? = some o → ∃ o', h'[a]? = some o' ∧ o'.parent = o.parent ∧
        o'.previous = o.previous ∧ o'.next = o.next) →
      IsChain h' par prev cur l := by
  intro l
  induction l with
  | nil => intro prev cur hc _; exact hc
  | cons x l ih =>
    intro prev cur hc hsame
    obtain ⟨hcur, hp, hb, o, ho, hpar, hprev, hrest⟩ := hc
    obtain ⟨o', ho', e1, e2, e3⟩ := hsame x (List.mem_cons_self _ _) o ho
    refine ⟨hcur, hp, hb, o', ho', e1.trans hpar, e2.trans hprev, ?_⟩
    rw [e3]
    exact ih _ _ hrest (fun a ha => hsame a (List.mem_cons_of_mem _ ha))

/-- Appending the new object `L` to a chain: the `next` of the old last object now points to
`L`, the other objects of the chain keep their links. -/
theorem IsChain_snoc (h h' : Heap) (par L : Nat) (oL : cds_object) (hL : h'[L]? = some oL)
    (hparL : oL.parent = some par) (hnextL : oL.next = none) (hpL : par < L) :
    ∀ (l : List Nat) (prev cur : Option Nat), IsChain h par prev cur l →
      (∀ a ∈ l, a < L) → (∀ b, prev = some b → b < L) →
      oL.previous = (match l.getLast? with | some x => some x | none => prev) →
      (∀ a ∈ l, ∀ o, h[a]? = some o → ∃ o', h'[a]? = some o' ∧ o'.parent = o.parent ∧
        o'.previous = o.previous ∧
        o'.next = (if some a = l.getLast? then some L else o.next)) →
      IsChain h' par prev (match l with | [] => some L | _ :: _ => cur) (l ++ [L]) := by
  intro l
  induction l with
  | nil =>
    intro prev cur _ _ hprevL hpv _
    refine ⟨rfl, hpL, hprevL, oL, hL, hparL, ?_, ?_⟩
    · simpa using hpv
    · rw [hnextL]; rfl
  | cons x l ih =>
    intro prev cur hc hlt hprevL hpv hsame
    obtain ⟨hcur, hp, hb, o, ho, hpar, hprev, hrest⟩ := hc
    obtain ⟨o', ho', e1, e2, e3⟩ := hsame x (List.mem_cons_self _ _) o ho
    refine ⟨hcur, hp, hb, o', ho', e1.trans hpar, e2.trans hprev, ?_⟩
    have hxl : ∀ a ∈ l, x < a := IsChain_lt h par l x _ hrest
    cases l with
    | nil =>
      simp at e3
      rw [e3]
      refine ⟨rfl, hpL, ?_, oL, hL, hparL, ?_, ?_⟩
      · intro b hb'; cases hb'; exact hlt x (List.mem_cons_self _ _)
      · simpa using hpv
      · rw [hnextL]; rfl
    | cons y l' =>
      have hne : some x ≠ (x :: y :: l').getLast? := by
        intro hcontra
        have hmem : x ∈ (y :: l') := by
          have : (x :: y :: l').getLast? = (y :: l').getLast? := by simp [List.getLast?]
          rw [this] at hcontra
          exact List.mem_of_getLast?_eq_some hcontra.symm
        exact Nat.lt_irrefl _ (hxl x hmem)
      rw [if_neg hne] at e3
      rw [e3]
      have hlast : (x :: y :: l').getLast? = (y :: l').getLast? := by simp [List.getLast?]
      have := ih (some x) o.next hrest (fun a ha => hlt a (List.mem_cons_of_mem _ ha))
        (fun b hb' => by cases hb'; exact hlt x (List.mem_cons_self _ _))
        (by
          rw [hlast] at hpv
          cases hq : (y :: l').getLast? with
          | none => simp at hq
          | some z => rw [hq] at hpv; simpa using hpv)
        (fun a ha o1 ho1 => by
          obtain ⟨o2, h1, h2, h3, h4⟩ := hsame a (List.mem_cons_of_mem _ ha) o1 ho1
          rw [hlast] at h4
          exact ⟨o2, h1, h2, h3, h4⟩)
      simpa using this
theorem getElem?_append_new (h : Heap) (x : cds_object) (q : Nat) :
    (h ++ [x])[q]? = if q < h.length then h[q]? else if q = h.length then some x else none := by
  by_cases h1 : q < h.length
  · simp [h1, List.getElem?_append_left h1]
  · by_cases h2 : q = h.length
    · subst h2; simp
    · have : h.length < q := by omega
      simp [h1, h2]
      omega

theorem getElem?_lt (h : Heap) (p : Nat) (o : cds_object) (ho : h[p]? = some o) :
    p < h.length := by
  by_contra hc
  rw [List.getElem?_eq_none (by omega)] at ho
  cases ho

theorem Heap_write_eq (h : Heap) (p : Nat) (f : cds_object → cds_object) (o : cds_object)
    (ho : h[p]? = some o) : h.write p f = some (h.set p (f o)) := by
  simp [Heap.write, ho]

theorem getElem?_set_self (h : Heap) (p : Nat) (x o : cds_object) (ho : h[p]? = some o) :
    (h.set p x)[p]? = some x := by
  have := getElem?_lt h p o ho
  simp [List.getElem?_set, this]

theorem getElem?_set_other (h : Heap) (p q : Nat) (x : cds_object) (hne : p ≠ q) :
    (h.set p x)[q]? = h[q]? := by
  simp [List.getElem?_set, hne]

/-- The effect of `cds_link_new_object` on a parent without children. -/
theorem cds_link_new_object_first (h : Heap) (rp : Nat) (nobj o : cds_object)
    (ho : h[rp]? = some o) (hfc : o.first_child = none) :
    cds_link_new_object h rp nobj
      = some ((h ++ [{ nobj with parent := some rp, previous := o.last_child }]).set rp
          { o with first_child := some h.length, last_child := some h.length,
                   num_children := o.num_children + 1 }, h.length) := by
  have hlt : rp < h.length := getElem?_lt h rp o ho
  have h1 : (h ++ [{ nobj with parent := some rp, previous := o.last_child }])[rp]? = some o := by
    rw [getElem?_append_new, if_pos hlt, ho]
  unfold cds_link_new_object
  simp only [ho, Option.bind_eq_bind, Option.some_bind, h1, hfc, if_true]
  rw [Heap_write_eq _ _ _ o h1]
  simp only [Option.some_bind]
  rw [getElem?_set_self _ _ _ o h1]
  simp only [Option.some_bind]
  rw [Heap_write_eq _ _ _ _ (getElem?_set_self _ _ _ o h1)]
  simp only [Option.some_bind]
  rw [Heap_write_eq _ _ _ _ (getElem?_set_self _ _ _ _ (getElem?_set_self _ _ _ o h1))]
  simp only [Option.some_bind, List.set_set]
  rfl

/-- The effect of `cds_link_new_object` on a parent with children. -/
theorem cds_link_new_object_next (h : Heap) (rp last : Nat) (nobj o ol : cds_object)
    (ho : h[rp]? = some o) (hfc : o.first_child ≠ none) (hlast : o.last_child = some last)
    (hol : h[last]? = some ol) (hne : last ≠ rp) :
    cds_link_new_object h rp nobj
      = some (((h ++ [{ nobj with parent := some rp, previous := some last }]).set last
            { ol with next := some h.length }).set rp
          { o with last_child := some h.length, num_children := o.num_children + 1 },
          h.length) := by
  have hlt : rp < h.length := getElem?_lt h rp o ho
  have hlt2 : last < h.length := getElem?_lt h last ol hol
  have h1 : (h ++ [{ nobj with parent := some rp, previous := some last }])[rp]? = some o := by
    rw [getElem?_append_new, if_pos hlt, ho]
  have h2 : (h ++ [{ nobj with parent := some rp, previous := some last }])[last]? = some ol := by
    rw [getElem?_append_new, if_pos hlt2, hol]
  have h3 : ((h ++ [{ nobj with parent := some rp, previous := some last }]).set last
      { ol with next := some h.length })[rp]? = some o := by
    rw [getElem?_set_other _ _ _ _ hne, h1]
  unfold cds_link_new_object
  simp only [ho, Option.bind_eq_bind, Option.some_bind, hlast, h1, hfc, if_false]
  rw [Heap_write_eq _ _ _ ol h2]
  simp only [Option.some_bind]
  rw [Heap_write_eq _ _ _ o h3]
  simp only [Option.some_bind]
  rw [Heap_write_eq _ _ _ _ (getElem?_set_self _ _ _ o h3)]
  simp only [Option.some_bind, List.set_set]
  rfl
theorem NodeOk_congr (h h' : Heap) (p : Nat) (o o' : cds_object) (l : List Nat)
    (hc : IsChain h p none o.first_child l) (hn : o.num_children = (l.length : Int))
    (hl : o.last_child = l.getLast?) (ho' : h'[p]? = some o')
    (e1 : o'.first_child = o.first_child) (e2 : o'.num_children = o.num_children)
    (e3 : o'.last_child = o.last_child)
    (hsame : ∀ a ∈ l, ∀ oa, h[a]? = some oa → ∃ oa', h'[a]? = some oa' ∧
      oa'.parent = oa.parent ∧ oa'.previous = oa.previous ∧ oa'.next = oa.next) :
    NodeOk h' p := by
  refine ⟨o', l, ho', ?_, e2.trans hn, e3.trans hl⟩
  rw [e1]
  exact IsChain_congr h h' p l none _ hc hsame

/-- The invariant is kept by `cds_link_new_object` on a valid parent, and the call returns. -/
theorem Inv_link (h : Heap) (rp : Nat) (nobj : cds_object) (hinv : Inv h)
    (hrp : rp < h.length) (n1 : nobj.first_child = none) (n2 : nobj.last_child = none)
    (n3 : nobj.num_children = 0) (n4 : nobj.next = none) :
    ∃ h', cds_link_new_object h rp nobj = some (h', h.length) ∧ Inv h' ∧
      h'.length = h.length + 1 ∧ (∀ (q : Nat) (o : cds_object), h[q]? = some o → ∃ o' : cds_object,
        h'[q]? = some o' ∧ o'.id = o.id ∧ o'.type = o.type ∧ o'.item = o.item ∧
        o'.name = o.name ∧ o'.parent = o.parent ∧ o'.previous = o.previous ∧
        (o.parent ≠ some rp → o'.next = o.next) ∧
        (q ≠ rp → o'.first_child = o.first_child ∧ o'.last_child = o.last_child ∧
          o'.num_children = o.num_children)) ∧
      h'[h.length]? = some { nobj with parent := some rp,
                                       previous := (h[rp]?).bind (fun o => o.last_child) } := by
  obtain ⟨hnode, hmono⟩ := hinv
  obtain ⟨o, l, ho, hchain, hnum, hlastc⟩ := hnode rp hrp
  have hvalid : ∀ (q : Nat) (oq : cds_object), h[q]? = some oq → q < h.length :=
    fun q oq hq => getElem?_lt h q oq hq
  cases l with
  | nil =>
    have hfc : o.first_child = none := hchain
    have hlc : o.last_child = none := hlastc
    have hnum0 : o.num_children = 0 := by simpa using hnum
    refine ⟨_, cds_link_new_object_first h rp nobj o ho hfc, ?_, by simp, ?_, ?_⟩
    rotate_right
    · rw [getElem?_set_other _ _ _ _ (Nat.ne_of_lt hrp), getElem?_append_new,
        if_neg (Nat.lt_irrefl _), if_pos rfl, ho]
      rfl
    · -- pointwise description of the new memory
      have P : ∀ q, ((h ++ [{ nobj with parent := some rp, previous := o.last_child }]).set rp
          { o with first_child := some h.length, last_child := some h.length,
                   num_children := o.num_children + 1 })[q]?
          = if q = rp then some { o with first_child := some h.length,
                                         last_child := some h.length,
                                         num_children := o.num_children + 1 }
            else if q < h.length then h[q]?
            else if q = h.length then
              some { nobj with parent := some rp, previous := o.last_child }
            else none := by
        intro q
        by_cases hq : q = rp
        · subst hq
          rw [if_pos rfl]
          exact getElem?_set_self _ _ _ o (by rw [getElem?_append_new, if_pos hrp, ho])
        · rw [getElem?_set_other _ _ _ _ (Ne.symm hq), getElem?_append_new, if_neg hq]
      constructor
      · intro p hp
        rw [List.length_set, List.length_append, List.length_singleton] at hp
        by_cases hp1 : p = rp
        · subst hp1
          refine ⟨_, [h.length], (P p).trans (if_pos rfl), ?_, by simp [hnum0], by simp⟩
          refine ⟨rfl, hrp, ?_, { nobj with parent := some p, previous := o.last_child },
            ?_, rfl, ?_, ?_⟩
          · intro b hb; cases hb
          · rw [P, if_neg (Nat.ne_of_gt hrp), if_neg (Nat.lt_irrefl _), if_pos rfl]
          · simp [hlc]
          · simpa [IsChain] using n4
        · by_cases hp2 : p < h.length
          · obtain ⟨op, lp, hop, hcp, hnp, hlp⟩ := hnode p hp2
            refine NodeOk_congr h _ p op op lp hcp hnp hlp ?_ rfl rfl rfl ?_
            · rw [P, if_neg hp1, if_pos hp2, hop]
            · intro a ha oa hoa
              have halt := hvalid a oa hoa
              by_cases ha1 : a = rp
              · subst ha1
                rw [ho] at hoa
                cases hoa
                exact ⟨_, (P a).trans (if_pos rfl), rfl, rfl, rfl⟩
              · exact ⟨oa, by rw [P, if_neg ha1, if_pos halt, hoa], rfl, rfl, rfl⟩
          · have hpL : p = h.length := by omega
            subst hpL
            refine ⟨{ nobj with parent := some rp, previous := o.last_child }, [], ?_, ?_,
              by simp [n3], by simp [n2]⟩
            · rw [P, if_neg hp1, if_neg hp2, if_pos rfl]
            · simpa [IsChain] using n1
      · intro a oa hoa
        rw [P] at hoa
        rw [List.length_set, List.length_append, List.length_singleton]
        by_cases ha1 : a = rp
        · subst ha1
          rw [if_pos rfl] at hoa
          cases hoa
          refine ⟨fun n hn => ?_, fun f hf => ?_⟩
          · have := (hmono a o ho).1 n hn
            omega
          · simp at hf
            omega
        · rw [if_neg ha1] at hoa
          by_cases ha2 : a < h.length
          · rw [if_pos ha2] at hoa
            refine ⟨fun n hn => ?_, fun f hf => ?_⟩
            · have := (hmono a oa hoa).1 n hn
              omega
            · have := (hmono a oa hoa).2 f hf
              omega
          · rw [if_neg ha2] at hoa
            by_cases ha3 : a = h.length
            · rw [if_pos ha3] at hoa
              cases hoa
              refine ⟨fun n hn => ?_, fun f hf => ?_⟩
              · simp [n4] at hn
              · simp [n1] at hf
            · rw [if_neg ha3] at hoa
              cases hoa
    · intro q oq hq
      by_cases hq1 : q = rp
      · subst hq1
        rw [ho] at hq
        cases hq
        exact ⟨_, getElem?_set_self _ _ _ o (by rw [getElem?_append_new, if_pos hrp, ho]),
          rfl, rfl, rfl, rfl, rfl, rfl, fun _ => rfl, fun hc => absurd rfl hc⟩
      · refine ⟨oq, ?_, rfl, rfl, rfl, rfl, rfl, rfl, fun _ => rfl, fun _ => ⟨rfl, rfl, rfl⟩⟩
        rw [getElem?_set_other _ _ _ _ (Ne.symm hq1), getElem?_append_new,
          if_pos (hvalid q oq hq), hq]
  | cons x l' =>
    have hfc : o.first_child ≠ none := by
      have : o.first_child = some x := hchain.1
      rw [this]; simp
    obtain ⟨last, hlast⟩ : ∃ last, (x :: l').getLast? = some last := by
      cases hq : (x :: l').getLast? with
      | none => simp at hq
      | some z => exact ⟨z, rfl⟩
    have hlc : o.last_child = some last := hlastc.trans hlast
    have hlastmem : last ∈ (x :: l') := List.mem_of_getLast?_eq_some hlast
    obtain ⟨hrplast, ol, hol, hparl⟩ := IsChain_mem h rp _ _ _ hchain last hlastmem
    have hlastlt : last < h.length := hvalid last ol hol
    have hne : last ≠ rp := Nat.ne_of_gt hrplast
    refine ⟨_, cds_link_new_object_next h rp last nobj o ol ho hfc hlc hol hne, ?_, by simp,
      ?_, ?_⟩
    rotate_right
    · rw [getElem?_set_other _ _ _ _ (Nat.ne_of_lt hrp),
        getElem?_set_other _ _ _ _ (Nat.ne_of_lt hlastlt), getElem?_append_new,
        if_neg (Nat.lt_irrefl _), if_pos rfl, ho]
      simp [hlc]
    · have P : ∀ q, (((h ++ [{ nobj with parent := some rp, previous := some last }]).set last
            { ol with next := some h.length }).set rp
          { o with last_child := some h.length, num_children := o.num_children + 1 })[q]?
          = if q = rp then some { o with last_child := some h.length,
                                         num_children := o.num_children + 1 }
            else if q = last then some { ol with next := some h.length }
            else if q < h.length then h[q]?
            else if q = h.length then some { nobj with parent := some rp, previous := some last }
            else none := by
        intro q
        have h2 : (h ++ [{ nobj with parent := some rp, previous := some last }])[last]?
            = some ol := by rw [getElem?_append_new, if_pos hlastlt, hol]
        by_cases hq : q = rp
        · subst hq
          rw [if_pos rfl]
          refine getElem?_set_self _ _ _ o ?_
          rw [getElem?_set_other _ _ _ _ hne, getElem?_append_new, if_pos hrp, ho]
        · rw [getElem?_set_other _ _ _ _ (Ne.symm hq), if_neg hq]
          by_cases hq2 : q = last
          · subst hq2
            rw [if_pos rfl]
            exact getElem?_set_self _ _ _ ol h2
          · rw [getElem?_set_other _ _ _ _ (Ne.symm hq2), getElem?_append_new, if_neg hq2]
      constructor
      · intro p hp
        rw [List.length_set, List.length_set, List.length_append, List.length_singleton] at hp
        by_cases hp1 : p = rp
        · subst hp1
          have hsn := IsChain_snoc h _ p h.length
            { nobj with parent := some p, previous := some last }
            (by rw [P, if_neg (Nat.ne_of_gt hrp), if_neg (Nat.ne_of_gt hlastlt),
                  if_neg (Nat.lt_irrefl _), if_pos rfl])
            rfl n4 hrp (x :: l') none o.first_child hchain
            (fun a ha => by
              obtain ⟨_, oa, hoa, _⟩ := IsChain_mem h p _ _ _ hchain a ha
              exact hvalid a oa hoa)
            (fun b hb => by cases hb)
            (by rw [hlast])
            (fun a ha oa hoa => by
              obtain ⟨hpa, _, _, _⟩ := IsChain_mem h p _ _ _ hchain a ha
              by_cases ha1 : a = last
              · subst ha1
                rw [hol] at hoa
                cases hoa
                refine ⟨_, (P _).trans ((if_neg (Nat.ne_of_gt hpa)).trans (if_pos rfl)),
                  rfl, rfl, ?_⟩
                rw [hlast, if_pos rfl]
              · refine ⟨oa, ?_, rfl, rfl, ?_⟩
                · rw [P, if_neg (Nat.ne_of_gt hpa), if_neg ha1, if_pos (hvalid a oa hoa), hoa]
                · rw [hlast, if_neg]
                  intro hc
                  cases hc
                  exact ha1 rfl)
          refine ⟨_, (x :: l') ++ [h.length], (P p).trans (if_pos rfl), hsn, ?_, ?_⟩
          · simp [hnum]
          · exact (List.getLast?_concat (x :: l')).symm
        · by_cases hp2 : p < h.length
          · obtain ⟨op, lp, hop, hcp, hnp, hlp⟩ := hnode p hp2
            have hsame : ∀ a ∈ lp, ∀ oa, h[a]? = some oa → ∃ oa', ((((h ++
                [{ nobj with parent := some rp, previous := some last }]).set last
                { ol with next := some h.length }).set rp
                { o with last_child := some h.length,
                         num_children := o.num_children + 1 })[a]? = some oa') ∧
                oa'.parent = oa.parent ∧ oa'.previous = oa.previous ∧ oa'.next = oa.next := by
              intro a ha oa hoa
              obtain ⟨hpa, oa2, hoa2, hpara⟩ := IsChain_mem h p _ _ _ hcp a ha
              rw [hoa] at hoa2
              cases hoa2
              by_cases ha1 : a = rp
              · subst ha1
                rw [ho] at hoa
                cases hoa
                exact ⟨_, (P a).trans (if_pos rfl), rfl, rfl, rfl⟩
              · by_cases ha2 : a = last
                · subst ha2
                  rw [hol] at hoa
                  cases hoa
                  rw [hparl] at hpara
                  cases hpara
                  exact absurd rfl hp1
                · exact ⟨oa, by rw [P, if_neg ha1, if_neg ha2, if_pos (hvalid a oa hoa), hoa],
                    rfl, rfl, rfl⟩
            by_cases hp3 : p = last
            · subst hp3
              rw [hol] at hop
              cases hop
              exact NodeOk_congr h _ p ol { ol with next := some h.length } lp hcp hnp hlp
                (by rw [P, if_neg hp1, if_pos rfl]) rfl rfl rfl hsame
            · exact NodeOk_congr h _ p op op lp hcp hnp hlp
                (by rw [P, if_neg hp1, if_neg hp3, if_pos hp2, hop]) rfl rfl rfl hsame
          · have hpL : p = h.length := by omega
            subst hpL
            refine ⟨{ nobj with parent := some rp, previous := some last }, [], ?_, ?_,
              by simp [n3], by simp [n2]⟩
            · rw [P, if_neg hp1, if_neg (Nat.ne_of_gt hlastlt), if_neg hp2, if_pos rfl]
            · simpa [IsChain] using n1
      · intro a oa hoa
        rw [P] at hoa
        rw [List.length_set, List.length_set, List.length_append, List.length_singleton]
        by_cases ha1 : a = rp
        · subst ha1
          rw [if_pos rfl] at hoa
          cases hoa
          refine ⟨fun n hn => ?_, fun f hf => ?_⟩
          · have := (hmono a o ho).1 n hn
            omega
          · have := (hmono a o ho).2 f hf
            omega
        · rw [if_neg ha1] at hoa
          by_cases ha4 : a = last
          · subst ha4
            rw [if_pos rfl] at hoa
            cases hoa
            refine ⟨fun n hn => ?_, fun f hf => ?_⟩
            · simp at hn
              omega
            · have := (hmono a ol hol).2 f hf
              omega
          · rw [if_neg ha4] at hoa
            by_cases ha2 : a < h.length
            · rw [if_pos ha2] at hoa
              refine ⟨fun n hn => ?_, fun f hf => ?_⟩
              · have := (hmono a oa hoa).1 n hn
                omega
              · have := (hmono a oa hoa).2 f hf
                omega
            · rw [if_neg ha2] at hoa
              by_cases ha3 : a = h.length
              · rw [if_pos ha3] at hoa
                cases hoa
                refine ⟨fun n hn => ?_, fun f hf => ?_⟩
                · simp [n4] at hn
                · simp [n1] at hf
              · rw [if_neg ha3] at hoa
                cases hoa
    · intro q oq hq
      have h2 : (h ++ [{ nobj with parent := some rp, previous := some last }])[last]?
          = some ol := by rw [getElem?_append_new, if_pos hlastlt, hol]
      by_cases hq1 : q = rp
      · subst hq1
        rw [ho] at hq
        cases hq
        refine ⟨_, getElem?_set_self _ _ _ o ?_, rfl, rfl, rfl, rfl, rfl, rfl, fun _ => rfl,
          fun hc => absurd rfl hc⟩
        rw [getElem?_set_other _ _ _ _ hne, getElem?_append_new, if_pos hrp, ho]
      · by_cases hq2 : q = last
        · subst hq2
          rw [hol] at hq
          cases hq
          refine ⟨{ ol with next := some h.length }, ?_, rfl, rfl, rfl, rfl, rfl, rfl,
            fun hc => absurd hparl hc, fun _ => ⟨rfl, rfl, rfl⟩⟩
          rw [getElem?_set_other _ _ _ _ (Ne.symm hq1)]
          exact getElem?_set_self _ _ _ ol h2
        · refine ⟨oq, ?_, rfl, rfl, rfl, rfl, rfl, rfl, fun _ => rfl, fun _ => ⟨rfl, rfl, rfl⟩⟩
          rw [getElem?_set_other _ _ _ _ (Ne.symm hq1), getElem?_set_other _ _ _ _ (Ne.symm hq2),
            getElem?_append_new, if_pos (hvalid q oq hq), hq]
/-- With fuel for twice the number of objects behind the start address, `cds_find_folder_id`
and its loop return, and a pointer returned is a valid address. -/
theorem cds_find_folder_id_total (h : Heap) (id : OBJECT_ID) (hmono : Mono h) :
    ∀ fuel : Nat,
      (∀ r, r < h.length → 2 * (h.length - r) ≤ fuel →
        ∃ res, cds_find_folder_id fuel h id (some r) = some res ∧
          ∀ p, res = some p → r ≤ p ∧ p < h.length) ∧
      (∀ cur : Option Nat, (∀ c, cur = some c → c < h.length ∧ 2 * (h.length - c) + 1 ≤ fuel) →
        1 ≤ fuel →
        ∃ res, cds_find_folder_id_loop fuel h id cur = some res ∧
          ∀ p, res = some p → (∀ c, cur = some c → c ≤ p) ∧ p < h.length) := by
  intro fuel
  induction fuel with
  | zero =>
    constructor
    · intro r hr hf
      omega
    · intro cur _ hf
      omega
  | succ fuel ih =>
    constructor
    · intro r hr hf
      obtain ⟨o, ho⟩ : ∃ o, h[r]? = some o := ⟨h[r], List.getElem?_eq_getElem hr⟩
      simp only [cds_find_folder_id, Option.getD_some, ho]
      by_cases hid : o.id = id
      · simp only [hid, if_true]
        exact ⟨_, rfl, fun p hp => by cases hp; exact ⟨Nat.le_refl _, hr⟩⟩
      · simp only [hid, if_false]
        obtain ⟨res, hres, hp⟩ := ih.2 o.first_child (by
          intro c hc
          have := (hmono r o ho).2 c hc
          omega) (by omega)
        refine ⟨res, hres, fun p hpe => ?_⟩
        obtain ⟨h1, h2⟩ := hp p hpe
        refine ⟨?_, h2⟩
        cases hfc : o.first_child with
        | none =>
          rw [hfc] at hres
          cases fuel with
          | zero => omega
          | succ f =>
            simp only [cds_find_folder_id_loop] at hres
            cases hres
            cases hpe
        | some c =>
          have := (hmono r o ho).2 c hfc
          have := h1 c hfc
          omega
    · intro cur hcur hf
      cases cur with
      | none =>
        simp only [cds_find_folder_id_loop]
        exact ⟨_, rfl, fun p hp => by cases hp⟩
      | some c =>
        obtain ⟨hc, hcf⟩ := hcur c rfl
        obtain ⟨oc, hoc⟩ : ∃ o, h[c]? = some o := ⟨h[c], List.getElem?_eq_getElem hc⟩
        have hnext : ∃ res, cds_find_folder_id_loop fuel h id oc.next = some res ∧
            ∀ p, res = some p → (∀ c', some c = some c' → c' ≤ p) ∧ p < h.length := by
          obtain ⟨res, hres, hp⟩ := ih.2 oc.next (by
            intro n hn
            have := (hmono c oc hoc).1 n hn
            omega) (by omega)
          refine ⟨res, hres, fun p hpe => ?_⟩
          obtain ⟨h1, h2⟩ := hp p hpe
          refine ⟨?_, h2⟩
          intro c' hc'
          cases hc'
          cases hnx : oc.next with
          | none =>
            rw [hnx] at hres
            cases fuel with
            | zero => omega
            | succ f =>
              simp only [cds_find_folder_id_loop] at hres
              cases hres
              cases hpe
          | some n =>
            have := (hmono c oc hoc).1 n hnx
            have := h1 n hnx
            omega
        simp only [cds_find_folder_id_loop, hoc]
        by_cases hty : oc.type = CDS_OBJ_FOLDER
        · simp only [hty, if_true]
          obtain ⟨res, hres, _⟩ := ih.1 c hc (by omega)
          rw [hres]
          cases res with
          | none => exact hnext
          | some q =>
            exact ⟨_, rfl, fun p hp => by
              cases hp
              exact ⟨fun c' hc' => by cases hc'; exact Nat.le_refl _, hc⟩⟩
        · simp only [hty, if_false]
          exact hnext
/-- A chain under a parent other than `rp` is untouched by linking a new object under `rp`. -/
theorem IsChain_other (h h' : Heap) (rp par : Nat) (hpar : par ≠ rp)
    (hpt : ∀ (q : Nat) (o : cds_object), h[q]? = some o → ∃ o' : cds_object,
        h'[q]? = some o' ∧ o'.id = o.id ∧ o'.type = o.type ∧ o'.item = o.item ∧
        o'.name = o.name ∧ o'.parent = o.parent ∧ o'.previous = o.previous ∧
        (o.parent ≠ some rp → o'.next = o.next) ∧
        (q ≠ rp → o'.first_child = o.first_child ∧ o'.last_child = o.last_child ∧
          o'.num_children = o.num_children))
    (l : List Nat) (prev cur : Option Nat) (hc : IsChain h par prev cur l) :
    IsChain h' par prev cur l := by
  refine IsChain_congr h h' par l prev cur hc ?_
  intro a ha oa hoa
  obtain ⟨_, oa2, hoa2, hpa⟩ := IsChain_mem h par l prev cur hc a ha
  rw [hoa] at hoa2
  cases hoa2
  obtain ⟨o', h1, _, _, _, _, h5, h6, h7, _⟩ := hpt a oa hoa
  refine ⟨o', h1, h5, h6, h7 ?_⟩
  rw [hpa]
  intro hcontra
  cases hcontra
  exact hpar rfl

theorem TreeInv_length (h : Heap) (ht : TreeInv h) : 4 ≤ h.length := by
  obtain ⟨_, o, _, hc⟩ := ht
  obtain ⟨_, o3, ho3, _⟩ := IsChain_mem h root_tree _ _ _ hc video_tree (by simp)
  have := getElem?_lt h video_tree o3 ho3
  simpa [video_tree] using this

/-- Linking a new object under a parent other than the root keeps the tree invariant. -/
theorem TreeInv_link (h : Heap) (rp : Nat) (nobj : cds_object) (ht : TreeInv h)
    (hrp : rp < h.length) (hrp0 : rp ≠ root_tree) (n1 : nobj.first_child = none)
    (n2 : nobj.last_child = none) (n3 : nobj.num_children = 0) (n4 : nobj.next = none) :
    ∃ h', cds_link_new_object h rp nobj = some (h', h.length) ∧ TreeInv h' ∧
      h'.length = h.length + 1 ∧
      (∀ (l : List Nat) (prev cur : Option Nat), IsChain h root_tree prev cur l →
        IsChain h' root_tree prev cur l) ∧
      (∃ oL, h'[h.length]? = some oL ∧ oL.id = nobj.id) := by
  obtain ⟨hinv, o, ho, hc⟩ := ht
  obtain ⟨h', hl, hinv', hlen, hpt, hnew⟩ := Inv_link h rp nobj hinv hrp n1 n2 n3 n4
  refine ⟨h', hl, ⟨hinv', ?_⟩, hlen, fun l prev cur hcl =>
    IsChain_other h h' rp root_tree (Ne.symm hrp0) hpt l prev cur hcl, ⟨_, hnew, rfl⟩⟩
  obtain ⟨o', h1, _, _, _, _, _, _, _, h8⟩ := hpt root_tree o ho
  refine ⟨o', h1, ?_⟩
  rw [(h8 (Ne.symm hrp0)).1]
  exact IsChain_other h h' rp root_tree (Ne.symm hrp0) hpt _ _ _ hc

/-- The parent that `cds_add_item` and `cds_add_folder` resolve below a virtual folder: the
lookup returns, and a parent found is a valid address not below the start. -/
theorem real_parent_total (h : Heap) (parent_id root_id : OBJECT_ID) (tree : Nat)
    (hmono : Mono h) (htree : tree < h.length) :
    ∃ res, (if parent_id = root_id then some (some tree)
        else cds_find_folder_id (walk_fuel h) h parent_id (some tree)) = some res ∧
      ∀ p, res = some p → tree ≤ p ∧ p < h.length := by
  by_cases hpid : parent_id = root_id
  · rw [if_pos hpid]
    exact ⟨_, rfl, fun p hp => by cases hp; exact ⟨Nat.le_refl _, htree⟩⟩
  · rw [if_neg hpid]
    exact (cds_find_folder_id_total h parent_id hmono (walk_fuel h)).1 tree htree
      (by unfold walk_fuel; omega)

/-- The function `cds_add_item` returns and keeps the tree invariant. -/
theorem cds_add_item_TreeInv (h : Heap) (item : Option item_info) (parent_id : OBJECT_ID)
    (ht : TreeInv h) :
    ∃ r, cds_add_item h item parent_id = some r ∧ TreeInv r.1 := by
  have hlen := TreeInv_length h ht
  cases item with
  | none => exact ⟨_, rfl, ht⟩
  | some it =>
    cases hft : cds_find_item_tree it with
    | none => exact ⟨(h, none), by simp only [cds_add_item, hft], ht⟩
    | some real_tree =>
      have hrt : 1 ≤ real_tree ∧ real_tree < h.length := by
        unfold cds_find_item_tree at hft
        simp only [photo_tree, audio_tree, video_tree] at hft
        split_ifs at hft <;> cases hft <;> omega
      obtain ⟨hinv, root, hroot, hrc⟩ := ht
      have ht : TreeInv h := ⟨hinv, root, hroot, hrc⟩
      obtain ⟨res, hres, hp⟩ := real_parent_total h parent_id root.id real_tree ht.1.2 hrt.2
      have hlink : ∀ rp, res = some rp → ∃ h', cds_link_new_object h rp
          { calloc_object with item := some it } = some (h', h.length) ∧ TreeInv h' := by
        intro rp hrp
        obtain ⟨h1, h2⟩ := hp rp hrp
        obtain ⟨h', hl, ht', _, _, _⟩ := TreeInv_link h rp { calloc_object with item := some it } ht
          h2 (by simp only [root_tree]; omega) rfl rfl rfl rfl
        exact ⟨h', hl, ht'⟩
      by_cases hpid : parent_id = root.id
      · rw [if_pos hpid] at hres
        cases hres
        obtain ⟨h', hl, ht'⟩ := hlink real_tree rfl
        refine ⟨(h', some h.length), ?_, ht'⟩
        simp only [cds_add_item, hft, hroot, Option.bind_eq_bind, Option.some_bind, hpid,
          if_true, hl]
        rfl
      · rw [if_neg hpid] at hres
        cases res with
        | none =>
          refine ⟨(h, none), ?_, ht⟩
          simp only [cds_add_item, hft, hroot, Option.bind_eq_bind, Option.some_bind, hpid,
            if_false, hres]
          rfl
        | some rp =>
          obtain ⟨h', hl, ht'⟩ := hlink rp rfl
          refine ⟨(h', some h.length), ?_, ht'⟩
          simp only [cds_add_item, hft, hroot, Option.bind_eq_bind, Option.some_bind, hpid,
            if_false, hres, hl]
          rfl

/-- The loop of `cds_add_folder` over the remaining children `lrest` of the root returns and
keeps the tree invariant. -/
theorem cds_add_folder_loop_TreeInv (digest : OBJECT_ID) (name : CString)
    (parent_id : OBJECT_ID) :
    ∀ (lrest : List Nat) (fuel : Nat) (h : Heap) (prev cur new_folder : Option Nat),
      TreeInv h → IsChain h root_tree prev cur lrest → lrest.length < fuel →
      (cur = none → ∃ a o, new_folder = some a ∧ h[a]? = some o) →
      ∃ r, cds_add_folder_loop digest name parent_id fuel h cur new_folder = some r ∧
        TreeInv r.1 := by
  intro lrest
  induction lrest with
  | nil =>
    intro fuel h prev cur new_folder ht hc hf hnf
    have hcur : cur = none := hc
    obtain ⟨a, o, hnfa, hoa⟩ := hnf hcur
    cases fuel with
    | zero => simp at hf
    | succ f =>
      subst hcur
      subst hnfa
      refine ⟨(h, some o.id), ?_, ht⟩
      simp only [cds_add_folder_loop, Option.bind_eq_bind, Option.some_bind, hoa]
      rfl
  | cons c rest ih =>
    intro fuel h prev cur new_folder ht hc hf _
    have hcur : cur = some c := hc.1
    subst hcur
    obtain ⟨_, hrc, _, oc, hoc, _, _, _⟩ := id hc
    cases fuel with
    | zero => simp at hf
    | succ f =>
      have hf' : rest.length < f := by simpa using hf
      obtain ⟨hinv, root, hroot, hrch⟩ := ht
      have ht : TreeInv h := ⟨hinv, root, hroot, hrch⟩
      have hclt : c < h.length := getElem?_lt h c oc hoc
      obtain ⟨res, hres, hp⟩ := real_parent_total h parent_id root.id c hinv.2 hclt
      have hstep : ∀ rp, res = some rp → ∃ r,
          ((cds_link_new_object h rp
              { calloc_object with type := CDS_OBJ_FOLDER, name := name, id := digest }).bind
            (fun x => (x.1[c]?).bind (fun ct =>
              cds_add_folder_loop digest name parent_id f x.1 ct.next (some x.2)))) = some r ∧
          TreeInv r.1 := by
        intro rp hrp
        obtain ⟨h1, h2⟩ := hp rp hrp
        obtain ⟨h', hl, ht', _, hch, oL, hoL, _⟩ := TreeInv_link h rp
          { calloc_object with type := CDS_OBJ_FOLDER, name := name, id := digest } ht
          h2 (by simp only [root_tree] at hrc ⊢; omega) rfl rfl rfl rfl
        obtain ⟨_, _, _, oc', hoc', _, _, hrest'⟩ := hch _ _ _ hc
        obtain ⟨r, hr, htr⟩ := ih f h' (some c) oc'.next (some h.length) ht' hrest' hf'
          (fun _ => ⟨h.length, oL, rfl, hoL⟩)
        refine ⟨r, ?_, htr⟩
        simp only [hl, Option.some_bind, hoc', hr]
      by_cases hpid : parent_id = root.id
      · rw [if_pos hpid] at hres
        cases hres
        obtain ⟨r, hr, htr⟩ := hstep c rfl
        refine ⟨r, ?_, htr⟩
        rw [← hr]
        simp only [cds_add_folder_loop, hroot, Option.bind_eq_bind, Option.some_bind, hpid,
          if_true]
      · rw [if_neg hpid] at hres
        cases res with
        | none =>
          refine ⟨(h, none), ?_, ht⟩
          simp only [cds_add_folder_loop, hroot, Option.bind_eq_bind, Option.some_bind, hpid,
            if_false, hres]
          rfl
        | some rp =>
          obtain ⟨r, hr, htr⟩ := hstep rp rfl
          refine ⟨r, ?_, htr⟩
          rw [← hr]
          simp only [cds_add_folder_loop, hroot, Option.bind_eq_bind, Option.some_bind, hpid,
            if_false, hres]

/-- The function `cds_add_folder` returns and keeps the tree invariant. -/
theorem cds_add_folder_TreeInv (md5 : CString → OBJECT_ID) (h : Heap)
    (path name : Option CString) (parent_id : OBJECT_ID) (ht : TreeInv h) :
    ∃ r, cds_add_folder md5 h path name parent_id = some r ∧ TreeInv r.1 := by
  obtain ⟨hinv, root, hroot, hrch⟩ := ht
  have ht : TreeInv h := ⟨hinv, root, hroot, hrch⟩
  have hlen := TreeInv_length h ht
  cases path with
  | none => exact ⟨(h, none), by simp only [cds_add_folder], ht⟩
  | some p =>
    cases name with
    | none => exact ⟨(h, none), by simp only [cds_add_folder], ht⟩
    | some n =>
      by_cases hpn : p = [] ∨ n = []
      · exact ⟨(h, none), by simp only [cds_add_folder, hpn, if_true], ht⟩
      · obtain ⟨r, hr, htr⟩ := cds_add_folder_loop_TreeInv (md5 p) n parent_id
          [audio_tree, photo_tree, video_tree] (walk_fuel h) h none root.first_child none ht
          hrch (by unfold walk_fuel; simp; omega)
          (fun hc => by
            have : root.first_child = some audio_tree := hrch.1
            rw [this] at hc
            cases hc)
        refine ⟨r, ?_, htr⟩
        simp only [cds_add_folder, hpn, if_false, hroot, Option.bind_eq_bind, Option.some_bind,
          hr]
/-- The memory `cds_init` builds from the static objects. -/
theorem cds_init_static :
    cds_init static_heap = some
      [{ static_folder "Root".toList CDS_ROOT_TREE_ID with
           first_child := some audio_tree, last_child := some video_tree, num_children := 3 },
       { static_folder "Music".toList CDS_PHOTO_TREE_ID with
           parent := some root_tree, next := some photo_tree },
       { static_folder "Photo".toList CDS_MUSIC_TREE_ID with
           parent := some root_tree, previous := some audio_tree, next := some video_tree },
       { static_folder "Video".toList CDS_VIDEO_TREE_ID with
           parent := some root_tree, previous := some photo_tree }] := by
  decide!

/-- The tree invariant holds after `cds_init`. -/
theorem cds_init_TreeInv : ∃ h, cds_init static_heap = some h ∧ TreeInv h := by
  refine ⟨_, cds_init_static, ⟨?_, ?_⟩, ?_⟩
  · intro p hp
    simp only [List.length_cons, List.length_nil] at hp
    have hp' : p = 0 ∨ p = 1 ∨ p = 2 ∨ p = 3 := by omega
    rcases hp' with rfl | rfl | rfl | rfl
    · refine ⟨_, [audio_tree, photo_tree, video_tree], rfl, ?_, rfl, rfl⟩
      simp [IsChain, static_folder, audio_tree, photo_tree, video_tree, root_tree]
    · exact ⟨_, [], rfl, rfl, rfl, rfl⟩
    · exact ⟨_, [], rfl, rfl, rfl, rfl⟩
    · exact ⟨_, [], rfl, rfl, rfl, rfl⟩
  · intro a o ho
    have ha := getElem?_lt _ a o ho
    simp only [List.length_cons, List.length_nil] at ha
    have ha' : a = 0 ∨ a = 1 ∨ a = 2 ∨ a = 3 := by omega
    rcases ha' with rfl | rfl | rfl | rfl <;>
      (simp [static_folder, audio_tree, photo_tree, video_tree, root_tree] at ho
       subst ho
       simp)
  · refine ⟨_, rfl, ?_⟩
    simp [IsChain, static_folder, audio_tree, photo_tree, video_tree, root_tree]

/-- Every sequence of calls runs to its end and keeps the tree invariant. -/
theorem cds_run_TreeInv (md5 : CString → OBJECT_ID) :
    ∀ (calls : List cds_call) (h : Heap), TreeInv h →
      ∃ h', cds_run md5 h calls = some h' ∧ TreeInv h' := by
  intro calls
  induction calls with
  | nil => intro h ht; exact ⟨h, rfl, ht⟩
  | cons c calls ih =>
    intro h ht
    cases c with
    | add_item item parent_id =>
      obtain ⟨r, hr, htr⟩ := cds_add_item_TreeInv h item parent_id ht
      obtain ⟨h', hh', ht'⟩ := ih r.1 htr
      exact ⟨h', by simp only [cds_run, hr, hh'], ht'⟩
    | add_folder path name parent_id =>
      obtain ⟨r, hr, htr⟩ := cds_add_folder_TreeInv md5 h path name parent_id ht
      obtain ⟨h', hh', ht'⟩ := ih r.1 htr
      exact ⟨h', by simp only [cds_run, hr, hh'], ht'⟩
theorem IsChain_ChainFrom (h : Heap) (par : Nat) :
    ∀ (l : List Nat) (prev cur : Option Nat), IsChain h par prev cur l → ChainFrom h cur l := by
  intro l
  induction l with
  | nil => intro prev cur hc; exact hc
  | cons x l ih =>
    intro prev cur hc
    obtain ⟨hcur, _, _, o, ho, _, _, hrest⟩ := hc
    refine ⟨hcur, ?_⟩
    have : next_of h x = o.next := by simp [next_of, ho]
    rw [this]
    exact ih _ _ hrest

theorem IsChain_last_next (h : Heap) (par : Nat) :
    ∀ (l : List Nat) (prev cur : Option Nat), IsChain h par prev cur l →
      ∀ c, l.getLast? = some c → next_of h c = none := by
  intro l
  induction l with
  | nil => intro prev cur _ c hc; simp at hc
  | cons x l ih =>
    intro prev cur hc c hlast
    obtain ⟨_, _, _, o, ho, _, _, hrest⟩ := hc
    cases l with
    | nil =>
      simp at hlast
      subst hlast
      have : o.next = none := hrest
      simp [next_of, ho, this]
    | cons y l' =>
      have : (x :: y :: l').getLast? = (y :: l').getLast? := by simp [List.getLast?]
      rw [this] at hlast
      exact ih _ _ hrest c hlast

theorem IsChain_next_prev (h : Heap) (par : Nat) :
    ∀ (l : List Nat) (prev cur : Option Nat), IsChain h par prev cur l →
      ∀ c n, c ∈ l → next_of h c = some n → previous_of h n = some c := by
  intro l
  induction l with
  | nil => intro prev cur _ c n hc; cases hc
  | cons x l ih =>
    intro prev cur hc c n hmem hnext
    obtain ⟨_, _, _, o, ho, _, _, hrest⟩ := hc
    rcases List.mem_cons.1 hmem with rfl | hmem
    · have hn : o.next = some n := by simpa [next_of, ho] using hnext
      rw [hn] at hrest
      cases l with
      | nil => cases hrest
      | cons y l' =>
        obtain ⟨hy, _, _, oy, hoy, _, hprev, _⟩ := hrest
        cases hy
        simp [previous_of, hoy, hprev]
    · exact ih _ _ hrest c n hmem hnext

theorem IsChain_prev_next (h : Heap) (par : Nat) :
    ∀ (l : List Nat) (prev cur : Option Nat), IsChain h par prev cur l →
      (∀ b, prev = some b → next_of h b = cur) →
      ∀ c q, c ∈ l → previous_of h c = some q → next_of h q = some c := by
  intro l
  induction l with
  | nil => intro prev cur _ _ c q hc; cases hc
  | cons x l ih =>
    intro prev cur hc hprevnext c q hmem hpq
    obtain ⟨hcur, _, _, o, ho, _, hprev, hrest⟩ := hc
    rcases List.mem_cons.1 hmem with rfl | hmem
    · have hq : prev = some q := by
        rw [← hprev]
        simpa [previous_of, ho] using hpq
      rw [hprevnext q hq, hcur]
    · refine ih _ _ hrest ?_ c q hmem hpq
      intro b hb
      cases hb
      simp [next_of, ho]

/-- A well-formed child list has the claimed properties. -/
theorem NodeOk_FolderLinks (h : Heap) (a : Nat) (F : cds_object) (hF : h[a]? = some F)
    (hok : NodeOk h a) : ∃ l, FolderLinks h a F l := by
  obtain ⟨o, l, ho, hc, hnum, hlast⟩ := hok
  rw [hF] at ho
  cases ho
  refine ⟨l, IsChain_ChainFrom h a l _ _ hc, hnum, ?_, ?_, hlast, ?_, ?_, ?_⟩
  · intro f hf
    rw [hf] at hc
    cases l with
    | nil => cases hc
    | cons x l' =>
      obtain ⟨hx, _, _, ox, hox, _, hprev, _⟩ := hc
      cases hx
      simp [previous_of, hox, hprev]
  · intro c hcl
    exact IsChain_last_next h a l _ _ hc c (hlast.symm.trans hcl)
  · intro c hcl
    obtain ⟨_, oc, hoc, hpar⟩ := IsChain_mem h a l _ _ hc c hcl
    simp [parent_of, hoc, hpar]
  · exact IsChain_next_prev h a l _ _ hc
  · exact IsChain_prev_next h a l _ _ hc (fun b hb => by cases hb)

/-- C1: from `cds_init`, every sequence of `cds_add_item` and `cds_add_folder` calls runs to
its end, and afterwards every object `F` in memory, so every folder of the tree, has the
claimed links: `num_children` is the length of the chain `l` reached from `first_child`
through `next`, the `previous` of the first child and the `next` of the last child are
`NULL`, `last_child` is the last object of the chain, every object of the chain has the
parent `F`, and `next` and `previous` are inverse of each other along the chain. -/
theorem cds_child_lists_well_formed (md5 : CString → OBJECT_ID) (calls : List cds_call) :
    ∃ h0 h, cds_init static_heap = some h0 ∧ cds_run md5 h0 calls = some h ∧
      ∀ (a : Nat) (F : cds_object), h[a]? = some F → ∃ l, FolderLinks h a F l := by
  obtain ⟨h0, hinit, ht0⟩ := cds_init_TreeInv
  obtain ⟨h, hrun, ht⟩ := cds_run_TreeInv md5 calls h0 ht0
  refine ⟨h0, h, hinit, hrun, fun a F hF => ?_⟩
  exact NodeOk_FolderLinks h a F hF (ht.1.1 a (getElem?_lt h a F hF))

/-! ## Counting children: lemmas -/

theorem chain_list_none (fuel : Nat) (h : Heap) : chain_list fuel h none = [] := by
  cases fuel <;> rfl

/-- With pointers that lead to higher addresses, the chain from `cur` is covered by every
fuel that is at least the number of addresses behind `cur`, and lies above `lo`. -/
theorem chain_list_stable (h : Heap) (hmono : Mono h) :
    ∀ (n fuel : Nat) (cur : Option Nat) (lo : Nat),
      (∀ c, cur = some c → lo < c ∧ c < h.length ∧ h.length - c ≤ n) → n ≤ fuel →
      chain_list fuel h cur = chain_list n h cur ∧
        ∀ a ∈ chain_list n h cur, lo < a ∧ a < h.length := by
  intro n
  induction n with
  | zero =>
    intro fuel cur lo hcur _
    cases cur with
    | none => rw [chain_list_none]; exact ⟨rfl, fun a ha => by cases ha⟩
    | some c => have := hcur c rfl; omega
  | succ n ih =>
    intro fuel cur lo hcur hfuel
    cases cur with
    | none => rw [chain_list_none, chain_list_none]; exact ⟨rfl, fun a ha => by cases ha⟩
    | some c =>
      obtain ⟨h1, h2, h3⟩ := hcur c rfl
      cases fuel with
      | zero => omega
      | succ f =>
        obtain ⟨o, ho⟩ : ∃ o, h[c]? = some o := ⟨h[c], List.getElem?_eq_getElem h2⟩
        have hnext : ∀ m, next_of h c = some m → c < m ∧ m < h.length ∧ h.length - m ≤ n := by
          intro m hm
          have hm' : o.next = some m := by simpa [next_of, ho] using hm
          have := (hmono c o ho).1 m hm'
          omega
        obtain ⟨e, hb⟩ := ih f (next_of h c) c hnext (by omega)
        simp only [chain_list]
        refine ⟨by rw [e], ?_⟩
        intro a ha
        rcases List.mem_cons.1 ha with rfl | ha
        · exact ⟨h1, h2⟩
        · have := hb a ha
          omega

theorem chain_list_cons (h : Heap) (hmono : Mono h) (c : Nat) (hc : c < h.length) :
    chain_list h.length h (some c) = c :: chain_list h.length h (next_of h c) := by
  obtain ⟨o, ho⟩ : ∃ o, h[c]? = some o := ⟨h[c], List.getElem?_eq_getElem hc⟩
  obtain ⟨n, hn⟩ : ∃ n, h.length = n + 1 := ⟨h.length - 1, by omega⟩
  have hnext : ∀ m, next_of h c = some m → c < m ∧ m < h.length ∧ h.length - m ≤ n := by
    intro m hm
    have hm' : o.next = some m := by simpa [next_of, ho] using hm
    have := (hmono c o ho).1 m hm'
    omega
  obtain ⟨e, _⟩ := chain_list_stable h hmono n h.length (next_of h c) c hnext (by omega)
  rw [e]
  conv_lhs => rw [hn]
  rfl

theorem direct_children_bounds (h : Heap) (hmono : Mono h) (r : Nat) :
    ∀ a ∈ direct_children h r, r < a ∧ a < h.length := by
  unfold direct_children
  cases hr : h[r]? with
  | none =>
    simp only [Option.none_bind, chain_list_none]
    intro a ha
    cases ha
  | some o =>
    simp only [Option.some_bind]
    refine (chain_list_stable h hmono h.length h.length o.first_child r ?_ (Nat.le_refl _)).2
    intro c hc
    have := (hmono r o hr).2 c hc
    omega

/-- The sum by levels does not depend on the number of levels once it covers the addresses
behind `r`. -/
theorem count_by_levels_stable (h : Heap) (hmono : Mono h) (item_type : ITEM_TYPE)
    (recurse : Int) :
    ∀ (m r fuel : Nat), r < h.length → h.length - r ≤ m → m ≤ fuel →
      count_by_levels fuel h item_type recurse r = count_by_levels m h item_type recurse r := by
  intro m
  induction m with
  | zero => intro r fuel hr hm _; omega
  | succ m ih =>
    intro r fuel hr hm hfuel
    cases fuel with
    | zero => omega
    | succ f =>
      simp only [count_by_levels]
      congr 1
      refine List.map_congr_left ?_
      intro c hc
      obtain ⟨h1, h2⟩ := direct_children_bounds h hmono r c hc
      congr 1
      cases hoc : h[c]? with
      | none => rfl
      | some o =>
        simp only []
        cases o.type with
        | CDS_OBJ_ITEM => rfl
        | CDS_OBJ_FOLDER =>
          by_cases hrec : recurse ≠ 0
          · simp only [hrec, if_true]
            rw [ih c f h2 (by omega) (by omega)]
          · simp only [hrec, if_false]

theorem items_ok_item (h : Heap) (hitems : items_ok h = true) (c : Nat) (o : cds_object)
    (ho : h[c]? = some o) (hty : o.type = CDS_OBJ_ITEM) :
    ∃ it, o.item = some it ∧ is_kind it.type = true := by
  have hmem : o ∈ h := List.getElem?_mem ho
  have := (List.all_eq_true.1 hitems) o hmem
  rw [hty] at this
  cases hit : o.item with
  | none => rw [hit] at this; simp at this
  | some it => rw [hit] at this; exact ⟨it, rfl, by simpa using this⟩

/-- The weight of one child in the count: 1 when every child is counted, plus the count of
the folder below it or 1 for a matching item. -/
theorem cds_count_children_levels (h : Heap) (hmono : Mono h) (hitems : items_ok h = true)
    (item_type : ITEM_TYPE) (recurse : Int) :
    ∀ fuel : Nat,
      (∀ r, r < h.length → 2 * (h.length - r) ≤ fuel →
        cds_count_children fuel h r item_type recurse
          = some (count_by_levels (h.length + 1) h item_type recurse r)) ∧
      (∀ (cur : Option Nat) (count : Int),
        (∀ c, cur = some c → c < h.length ∧ 2 * (h.length - c) + 1 ≤ fuel) → 1 ≤ fuel →
        cds_count_children_loop fuel h item_type recurse cur count
          = some (count + ((chain_list h.length h cur).map (fun c =>
              (if item_type = ITEM_UNDEFINED then (1 : Int) else 0) +
              (match h[c]? with
               | none => 0
               | some o =>
                 match o.type with
                 | CDS_OBJ_FOLDER =>
                   if recurse ≠ 0 then count_by_levels h.length h item_type recurse c else 0
                 | CDS_OBJ_ITEM =>
                   match o.item with
                   | none => 0
                   | some it => if it.type &&& item_type ≠ 0 then 1 else 0))).sum)) := by
  intro fuel
  induction fuel with
  | zero =>
    constructor
    · intro r hr hf; omega
    · intro cur count _ hf; omega
  | succ fuel ih =>
    constructor
    · intro r hr hf
      obtain ⟨o, ho⟩ : ∃ o, h[r]? = some o := ⟨h[r], List.getElem?_eq_getElem hr⟩
      simp only [cds_count_children, ho]
      rw [ih.2 o.first_child 0 (by
        intro c hc
        have := (hmono r o ho).2 c hc
        omega) (by omega)]
      simp only [count_by_levels, direct_children, ho, Option.some_bind, zero_add]
    · intro cur count hcur hf
      cases cur with
      | none =>
        simp only [cds_count_children_loop, chain_list_none, List.map_nil, List.sum_nil,
          add_zero]
      | some c =>
        obtain ⟨hc, hcf⟩ := hcur c rfl
        obtain ⟨oc, hoc⟩ : ∃ o, h[c]? = some o := ⟨h[c], List.getElem?_eq_getElem hc⟩
        have hnextof : next_of h c = oc.next := by simp [next_of, hoc]
        have hnext : ∀ (count' : Int), cds_count_children_loop fuel h item_type recurse oc.next
            count' = some (count' + ((chain_list h.length h oc.next).map (fun c =>
              (if item_type = ITEM_UNDEFINED then (1 : Int) else 0) +
              (match h[c]? with
               | none => 0
               | some o =>
                 match o.type with
                 | CDS_OBJ_FOLDER =>
                   if recurse ≠ 0 then count_by_levels h.length h item_type recurse c else 0
                 | CDS_OBJ_ITEM =>
                   match o.item with
                   | none => 0
                   | some it => if it.type &&& item_type ≠ 0 then 1 else 0))).sum) := by
          intro count'
          refine ih.2 oc.next count' ?_ (by omega)
          intro n hn
          have := (hmono c oc hoc).1 n hn
          omega
        rw [chain_list_cons h hmono c hc, hnextof]
        simp only [cds_count_children_loop, hoc, List.map_cons, List.sum_cons]
        cases hty : oc.type with
        | CDS_OBJ_ITEM =>
          obtain ⟨it, hit, _⟩ := items_ok_item h hitems c oc hoc hty
          simp only [hit, hnext]
          congr 1
          split_ifs <;> omega
        | CDS_OBJ_FOLDER =>
          by_cases hrec : recurse ≠ 0
          · have hsub := ih.1 c hc (by omega)
            rw [count_by_levels_stable h hmono item_type recurse h.length c (h.length + 1) hc
              (by omega) (by omega)] at hsub
            simp only [hrec, if_true, ne_eq, not_false_eq_true, hsub, Option.map_some', hnext]
            congr 1
            split_ifs <;> omega
          · simp only [hrec, if_false, hnext]
            congr 1
            split_ifs <;> omega

theorem is_kind_and (a b : ITEM_TYPE) (ha : is_kind a = true) (hb : is_kind b = true) :
    (a &&& b ≠ 0) ↔ a = b := by
  simp only [is_kind, Bool.or_eq_true, decide_eq_true_eq, ITEM_VIDEO, ITEM_AUDIO,
    ITEM_AUDIOVIDEO, ITEM_PHOTO, ITEM_PLAYLIST, ITEM_CONTAINER] at ha hb
  rcases ha with ((((rfl | rfl) | rfl) | rfl) | rfl) | rfl <;>
    rcases hb with ((((rfl | rfl) | rfl) | rfl) | rfl) | rfl <;> decide

theorem is_kind_ne_undefined (k : ITEM_TYPE) (hk : is_kind k = true) : k ≠ ITEM_UNDEFINED := by
  rintro rfl
  revert hk
  decide

theorem countP_flatMap_sum (p : Nat → Bool) (g : Nat → List Nat) (l : List Nat) :
    (((l.flatMap g).countP p : Nat) : Int) = (l.map (fun c => (((g c).countP p : Nat) : Int))).sum := by
  induction l with
  | nil => rfl
  | cons a l ih =>
    simp only [List.flatMap_cons, List.countP_append, List.map_cons, List.sum_cons,
      Nat.cast_add, ih]

theorem countP_sum (p : Nat → Bool) (l : List Nat) :
    ((l.countP p : Nat) : Int) = (l.map (fun c => if p c = true then (1 : Int) else 0)).sum := by
  induction l with
  | nil => rfl
  | cons a l ih =>
    simp only [List.countP_cons, List.map_cons, List.sum_cons, Nat.cast_add, ih]
    by_cases hp : p a = true
    · simp [hp]; omega
    · simp [hp]

/-- The sum by levels with `recurse` set counts the item nodes of the kind below `r`. -/
theorem count_by_levels_descendants (h : Heap) (hitems : items_ok h = true) (k : ITEM_TYPE)
    (hk : is_kind k = true) :
    ∀ (fuel r : Nat), count_by_levels fuel h k 1 r
      = (((descendants fuel h r).countP (is_item_of_kind h k) : Nat) : Int) := by
  have hk0 := is_kind_ne_undefined k hk
  intro fuel
  induction fuel with
  | zero => intro r; rfl
  | succ f ih =>
    intro r
    simp only [count_by_levels, descendants, countP_flatMap_sum]
    congr 1
    refine List.map_congr_left ?_
    intro c _
    simp only [hk0, if_false, zero_add, List.countP_cons, Nat.cast_add]
    cases hoc : h[c]? with
    | none => simp [is_item_of_kind, is_folder, hoc]
    | some o =>
      cases hty : o.type with
      | CDS_OBJ_FOLDER =>
        simp [is_item_of_kind, is_folder, hoc, hty, ih c]
      | CDS_OBJ_ITEM =>
        obtain ⟨it, hit, hkind⟩ := items_ok_item h hitems c o hoc hty
        by_cases he : it.type = k
        · have := (is_kind_and it.type k hkind hk).2 he
          simp [is_item_of_kind, is_folder, hoc, hty, hit, he, this]
          exact hk0
        · have : ¬ (it.type &&& k ≠ 0) := fun hx => he ((is_kind_and it.type k hkind hk).1 hx)
          simp [is_item_of_kind, is_folder, hoc, hty, hit, he]
          simpa using this

/-- The sum by levels without `recurse` counts the direct children that are items of the
kind. -/
theorem count_by_levels_direct (h : Heap) (hitems : items_ok h = true) (k : ITEM_TYPE)
    (hk : is_kind k = true) (fuel r : Nat) :
    count_by_levels (fuel + 1) h k 0 r
      = (((direct_children h r).countP (is_item_of_kind h k) : Nat) : Int) := by
  have hk0 := is_kind_ne_undefined k hk
  simp only [count_by_levels, countP_sum]
  congr 1
  refine List.map_congr_left ?_
  intro c _
  simp only [hk0, if_false, zero_add]
  cases hoc : h[c]? with
  | none => simp [is_item_of_kind, hoc]
  | some o =>
    cases hty : o.type with
    | CDS_OBJ_FOLDER => simp [is_item_of_kind, hoc, hty]
    | CDS_OBJ_ITEM =>
      obtain ⟨it, hit, hkind⟩ := items_ok_item h hitems c o hoc hty
      by_cases he : it.type = k
      · have := (is_kind_and it.type k hkind hk).2 he
        simp [is_item_of_kind, hoc, hty, hit, he]
        exact hk0
      · have : ¬ (it.type &&& k ≠ 0) := fun hx => he ((is_kind_and it.type k hkind hk).1 hx)
        simp [is_item_of_kind, hoc, hty, hit, he]
        simpa using this

/-- The sum by levels for `ITEM_UNDEFINED` without `recurse` is the number of direct
children. -/
theorem count_by_levels_all (h : Heap) (fuel r : Nat) :
    count_by_levels (fuel + 1) h ITEM_UNDEFINED 0 r = ((direct_children h r).length : Int) := by
  have hone : ∀ l : List Nat, (l.map (fun _ => (1 : Int))).sum = (l.length : Int) := by
    intro l
    induction l with
    | nil => rfl
    | cons a l ih => simp only [List.map_cons, List.sum_cons, List.length_cons, ih]; omega
  rw [← hone]
  simp only [count_by_levels]
  congr 1
  refine List.map_congr_left ?_
  intro c _
  cases hoc : h[c]? with
  | none => simp
  | some o =>
    cases hty : o.type with
    | CDS_OBJ_FOLDER => simp [hty]
    | CDS_OBJ_ITEM =>
      cases hit : o.item with
      | none => simp [hty, hit]
      | some it => simp [hty, hit, ITEM_UNDEFINED]

/-- The list of the objects below `r` does not depend on the number of levels once it covers
the addresses behind `r`. -/
theorem descendants_stable (h : Heap) (hmono : Mono h) :
    ∀ (m r fuel : Nat), r < h.length → h.length - r ≤ m → m ≤ fuel →
      descendants fuel h r = descendants m h r := by
  intro m
  induction m with
  | zero => intro r fuel hr hm _; omega
  | succ m ih =>
    intro r fuel hr hm hfuel
    cases fuel with
    | zero => omega
    | succ f =>
      simp only [descendants, List.flatMap]
      congr 1
      refine List.map_congr_left ?_
      intro c hc
      obtain ⟨h1, h2⟩ := direct_children_bounds h hmono r c hc
      rw [ih c f h2 (by omega) (by omega)]

/-- C23: in a tree with well-formed child lists whose item nodes carry one of the kinds of
`ITEM_TYPE`, for every object `root` and every kind `k` other than `ITEM_UNDEFINED`:
`cds_count_children( root, k, 1 )` returns the number of item nodes of kind `k` among the
objects below `root` at any depth; `cds_count_children( root, k, 0 )` the number of direct
children of `root` that are items of kind `k`; and
`cds_count_children( root, ITEM_UNDEFINED, 0 )` the number of direct children of `root`,
folders included. -/
theorem cds_count_children_counts (h : Heap) (root : Nat) (k : ITEM_TYPE)
    (hinv : Inv h) (hitems : items_ok h = true) (hroot : root < h.length)
    (hk : is_kind k = true) :
    cds_count_children (walk_fuel h) h root k 1
      = some (((descendants h.length h root).countP (is_item_of_kind h k) : Nat) : Int) ∧
    cds_count_children (walk_fuel h) h root k 0
      = some (((direct_children h root).countP (is_item_of_kind h k) : Nat) : Int) ∧
    cds_count_children (walk_fuel h) h root ITEM_UNDEFINED 0
      = some ((direct_children h root).length : Int) := by
  have hfuel : 2 * (h.length - root) ≤ walk_fuel h := by unfold walk_fuel; omega
  refine ⟨?_, ?_, ?_⟩
  · rw [(cds_count_children_levels h hinv.2 hitems k 1 (walk_fuel h)).1 root hroot hfuel,
      count_by_levels_stable h hinv.2 k 1 h.length root (h.length + 1) hroot (by omega)
        (by omega),
      count_by_levels_descendants h hitems k hk]
  · rw [(cds_count_children_levels h hinv.2 hitems k 0 (walk_fuel h)).1 root hroot hfuel,
      count_by_levels_direct h hitems k hk]
  · rw [(cds_count_children_levels h hinv.2 hitems ITEM_UNDEFINED 0 (walk_fuel h)).1 root
        hroot hfuel,
      count_by_levels_all]

/-- The memory `counting_heap` is the result of `cds_init` and the calls of `counting_calls`,
and has well-formed child lists. -/
theorem counting_heap_Inv : Inv counting_heap := by
  obtain ⟨h0, hinit, ht0⟩ := cds_init_TreeInv
  obtain ⟨h, hrun, ht⟩ := cds_run_TreeInv md5_sample counting_calls h0 ht0
  have e : counting_heap = h := by
    simp only [counting_heap, hinit, Option.some_bind, hrun, Option.getD_some]
  rw [e]
  exact ht.1

/-- C23 (witness): the tree of `counting_heap` (11 objects), the folder `Music` (object 1) and
the kind `ITEM_AUDIO`: below `Music` lie the folder `A` (object 5), the audio item in it
(object 9) and an audio item (object 10). Two audio items at any depth, one among the direct
children, two direct children. -/
theorem cds_count_children_counts_witness :
    (cds_count_children (walk_fuel counting_heap) counting_heap audio_tree ITEM_AUDIO 1
      = some (((descendants counting_heap.length counting_heap audio_tree).countP
          (is_item_of_kind counting_heap ITEM_AUDIO) : Nat) : Int) ∧
    cds_count_children (walk_fuel counting_heap) counting_heap audio_tree ITEM_AUDIO 0
      = some (((direct_children counting_heap audio_tree).countP
          (is_item_of_kind counting_heap ITEM_AUDIO) : Nat) : Int) ∧
    cds_count_children (walk_fuel counting_heap) counting_heap audio_tree ITEM_UNDEFINED 0
      = some ((direct_children counting_heap audio_tree).length : Int)) ∧
    counting_heap.length = 11 ∧
    descendants counting_heap.length counting_heap audio_tree = [5, 9, 10] ∧
    (descendants counting_heap.length counting_heap audio_tree).countP
      (is_item_of_kind counting_heap ITEM_AUDIO) = 2 ∧
    direct_children counting_heap audio_tree = [5, 10] ∧
    (direct_children counting_heap audio_tree).countP
      (is_item_of_kind counting_heap ITEM_AUDIO) = 1 :=
  ⟨cds_count_children_counts counting_heap audio_tree ITEM_AUDIO counting_heap_Inv
      (by decide!) (by decide!) (by decide!),
    by decide!, by decide!, by decide!, by decide!, by decide!⟩

/-! ## Item kinds in the trees the functions build -/

/-- Linking a new folder, or a new item node whose item has one of the kinds, keeps
`items_ok`. -/
theorem items_ok_link (h : Heap) (rp : Nat) (nobj : cds_object) (hinv : Inv h)
    (hitems : items_ok h = true) (hrp : rp < h.length) (n1 : nobj.first_child = none)
    (n2 : nobj.last_child = none) (n3 : nobj.num_children = 0) (n4 : nobj.next = none)
    (hn : nobj.type = CDS_OBJ_FOLDER ∨ ∃ it, nobj.item = some it ∧ is_kind it.type = true)
    (h' : Heap) (a : Nat) (hl : cds_link_new_object h rp nobj = some (h', a)) :
    items_ok h' = true := by
  obtain ⟨h2, hl2, _, hlen, hpt, hnew⟩ := Inv_link h rp nobj hinv hrp n1 n2 n3 n4
  rw [hl] at hl2
  cases hl2
  have hall := List.all_eq_true.1 hitems
  unfold items_ok
  rw [List.all_eq_true]
  intro x hx
  obtain ⟨i, hi⟩ := List.getElem?_of_mem hx
  have hilt : i < h'.length := getElem?_lt h' i x hi
  by_cases hlt : i < h.length
  · obtain ⟨o, ho⟩ : ∃ o, h[i]? = some o := ⟨h[i], List.getElem?_eq_getElem hlt⟩
    obtain ⟨o', ho', _, hty, hit, _⟩ := hpt i o ho
    rw [hi] at ho'
    cases ho'
    have := hall o (List.getElem?_mem ho)
    rw [hty, hit]
    exact this
  · have hie : i = h.length := by omega
    subst hie
    rw [hi] at hnew
    cases hnew
    rcases hn with hn | ⟨it, hit, hk⟩
    · simp [hn]
    · simp [hit, hk]

theorem cds_find_item_tree_kind (it : item_info) (t : Nat)
    (h : cds_find_item_tree it = some t) : is_kind it.type = true := by
  unfold cds_find_item_tree at h
  unfold is_kind
  split_ifs at h with h1 h2 h3
  · simp [h1]
  · simp [h2]
  · rcases h3 with h3 | h3 <;> simp [h3]

/-- The function `cds_add_item` keeps `items_ok`. -/
theorem cds_add_item_items_ok (h : Heap) (item : Option item_info) (parent_id : OBJECT_ID)
    (ht : TreeInv h) (hitems : items_ok h = true) (r : Heap × Option Nat)
    (hr : cds_add_item h item parent_id = some r) : items_ok r.1 = true := by
  have hlen := TreeInv_length h ht
  cases item with
  | none => simp only [cds_add_item] at hr; cases hr; exact hitems
  | some it =>
    cases hft : cds_find_item_tree it with
    | none => simp only [cds_add_item, hft] at hr; cases hr; exact hitems
    | some real_tree =>
      have hkind := cds_find_item_tree_kind it real_tree hft
      have hrt : 1 ≤ real_tree ∧ real_tree < h.length := by
        unfold cds_find_item_tree at hft
        simp only [photo_tree, audio_tree, video_tree] at hft
        split_ifs at hft <;> cases hft <;> omega
      obtain ⟨hinv, root, hroot, hrc⟩ := ht
      obtain ⟨res, hres, hp⟩ := real_parent_total h parent_id root.id real_tree hinv.2 hrt.2
      have hlink : ∀ rp, res = some rp → ∃ h', cds_link_new_object h rp
          { calloc_object with item := some it } = some (h', h.length) ∧
          items_ok h' = true := by
        intro rp hrp
        obtain ⟨_, h2⟩ := hp rp hrp
        obtain ⟨h', hl, _⟩ := Inv_link h rp { calloc_object with item := some it } hinv h2
          rfl rfl rfl rfl
        exact ⟨h', hl, items_ok_link h rp _ hinv hitems h2 rfl rfl rfl rfl
          (Or.inr ⟨it, rfl, hkind⟩) h' h.length hl⟩
      by_cases hpid : parent_id = root.id
      · rw [if_pos hpid] at hres
        cases hres
        obtain ⟨h', hl, hk'⟩ := hlink real_tree rfl
        have heq : cds_add_item h (some it) parent_id = some (h', some h.length) := by
          simp only [cds_add_item, hft, hroot, Option.bind_eq_bind, Option.some_bind, hpid,
            if_true, hl]
          rfl
        rw [heq] at hr
        cases hr
        exact hk'
      · rw [if_neg hpid] at hres
        cases res with
        | none =>
          have heq : cds_add_item h (some it) parent_id = some (h, none) := by
            simp only [cds_add_item, hft, hroot, Option.bind_eq_bind, Option.some_bind, hpid,
              if_false, hres]
            rfl
          rw [heq] at hr
          cases hr
          exact hitems
        | some rp =>
          obtain ⟨h', hl, hk'⟩ := hlink rp rfl
          have heq : cds_add_item h (some it) parent_id = some (h', some h.length) := by
            simp only [cds_add_item, hft, hroot, Option.bind_eq_bind, Option.some_bind, hpid,
              if_false, hres, hl]
            rfl
          rw [heq] at hr
          cases hr
          exact hk'

/-- The loop of `cds_add_folder` keeps `items_ok`. -/
theorem cds_add_folder_loop_items_ok (digest : OBJECT_ID) (name : CString)
    (parent_id : OBJECT_ID) :
    ∀ (lrest : List Nat) (fuel : Nat) (h : Heap) (prev cur new_folder : Option Nat),
      TreeInv h → items_ok h = true → IsChain h root_tree prev cur lrest →
      ∀ r, cds_add_folder_loop digest name parent_id fuel h cur new_folder = some r →
        items_ok r.1 = true := by
  intro lrest
  induction lrest with
  | nil =>
    intro fuel h prev cur new_folder ht hitems hc r hr
    have hcur : cur = none := hc
    subst hcur
    cases fuel with
    | zero => simp [cds_add_folder_loop] at hr
    | succ f =>
      cases new_folder with
      | none => simp [cds_add_folder_loop] at hr
      | some nf =>
        cases ho : h[nf]? with
        | none => simp [cds_add_folder_loop, ho] at hr
        | some o =>
          have heq : cds_add_folder_loop digest name parent_id (f + 1) h none (some nf)
              = some (h, some o.id) := by
            simp only [cds_add_folder_loop, Option.bind_eq_bind, Option.some_bind, ho]
            rfl
          rw [heq] at hr
          cases hr
          exact hitems
  | cons c rest ih =>
    intro fuel h prev cur new_folder ht hitems hc r hr
    have hcur : cur = some c := hc.1
    subst hcur
    obtain ⟨_, hrc, _, oc, hoc, _, _, _⟩ := id hc
    cases fuel with
    | zero => simp [cds_add_folder_loop] at hr
    | succ f =>
      obtain ⟨hinv, root, hroot, hrch⟩ := ht
      have ht : TreeInv h := ⟨hinv, root, hroot, hrch⟩
      have hclt : c < h.length := getElem?_lt h c oc hoc
      obtain ⟨res, hres, hp⟩ := real_parent_total h parent_id root.id c hinv.2 hclt
      have hstep : ∀ rp, res = some rp → ∀ r,
          ((cds_link_new_object h rp
              { calloc_object with type := CDS_OBJ_FOLDER, name := name, id := digest }).bind
            (fun x => (x.1[c]?).bind (fun ct =>
              cds_add_folder_loop digest name parent_id f x.1 ct.next (some x.2)))) = some r →
          items_ok r.1 = true := by
        intro rp hrp r hr
        obtain ⟨h1, h2⟩ := hp rp hrp
        obtain ⟨h', hl, ht', _, hch, oL, hoL, _⟩ := TreeInv_link h rp
          { calloc_object with type := CDS_OBJ_FOLDER, name := name, id := digest } ht
          h2 (by simp only [root_tree] at hrc ⊢; omega) rfl rfl rfl rfl
        have hitems' := items_ok_link h rp _ hinv hitems h2 rfl rfl rfl rfl
          (Or.inl rfl) h' h.length hl
        obtain ⟨_, _, _, oc', hoc', _, _, hrest'⟩ := hch _ _ _ hc
        simp only [hl, Option.some_bind, hoc'] at hr
        exact ih f h' (some c) oc'.next (some h.length) ht' hitems' hrest' r hr
      by_cases hpid : parent_id = root.id
      · rw [if_pos hpid] at hres
        cases hres
        refine hstep c rfl r ?_
        rw [← hr]
        simp only [cds_add_folder_loop, hroot, Option.bind_eq_bind, Option.some_bind, hpid,
          if_true]
      · rw [if_neg hpid] at hres
        cases res with
        | none =>
          have heq : cds_add_folder_loop digest name parent_id (f + 1) h (some c) new_folder
              = some (h, none) := by
            simp only [cds_add_folder_loop, hroot, Option.bind_eq_bind, Option.some_bind, hpid,
              if_false, hres]
            rfl
          rw [heq] at hr
          cases hr
          exact hitems
        | some rp =>
          refine hstep rp rfl r ?_
          rw [← hr]
          simp only [cds_add_folder_loop, hroot, Option.bind_eq_bind, Option.some_bind, hpid,
            if_false, hres]

/-- The function `cds_add_folder` keeps `items_ok`. -/
theorem cds_add_folder_items_ok (md5 : CString → OBJECT_ID) (h : Heap)
    (path name : Option CString) (parent_id : OBJECT_ID) (ht : TreeInv h)
    (hitems : items_ok h = true) (r : Heap × Option OBJECT_ID)
    (hr : cds_add_folder md5 h path name parent_id = some r) : items_ok r.1 = true := by
  obtain ⟨hinv, root, hroot, hrch⟩ := ht
  have ht : TreeInv h := ⟨hinv, root, hroot, hrch⟩
  cases path with
  | none => simp only [cds_add_folder] at hr; cases hr; exact hitems
  | some p =>
    cases name with
    | none => simp only [cds_add_folder] at hr; cases hr; exact hitems
    | some n =>
      by_cases hpn : p = [] ∨ n = []
      · simp only [cds_add_folder, hpn, if_true] at hr; cases hr; exact hitems
      · simp only [cds_add_folder, hpn, if_false, hroot, Option.bind_eq_bind,
          Option.some_bind] at hr
        exact cds_add_folder_loop_items_ok (md5 p) n parent_id
          [audio_tree, photo_tree, video_tree] (walk_fuel h) h none root.first_child none ht
          hitems hrch r hr

/-- Every sequence of calls keeps `items_ok`. -/
theorem cds_run_items_ok (md5 : CString → OBJECT_ID) :
    ∀ (calls : List cds_call) (h h' : Heap), TreeInv h → items_ok h = true →
      cds_run md5 h calls = some h' → items_ok h' = true := by
  intro calls
  induction calls with
  | nil => intro h h' _ hitems hr; simp only [cds_run] at hr; cases hr; exact hitems
  | cons c calls ih =>
    intro h h' ht hitems hr
    cases c with
    | add_item item parent_id =>
      obtain ⟨r, hr1, htr⟩ := cds_add_item_TreeInv h item parent_id ht
      simp only [cds_run, hr1] at hr
      exact ih r.1 h' htr (cds_add_item_items_ok h item parent_id ht hitems r hr1) hr
    | add_folder path name parent_id =>
      obtain ⟨r, hr1, htr⟩ := cds_add_folder_TreeInv md5 h path name parent_id ht
      simp only [cds_run, hr1] at hr
      exact ih r.1 h' htr (cds_add_folder_items_ok md5 h path name parent_id ht hitems r hr1) hr

/-- The trees the functions build satisfy the hypotheses of the counting theorem: from
`cds_init`, every sequence of `cds_add_item` and `cds_add_folder` calls ends in a memory with
well-formed child lists in which every item node carries an item of one of the kinds. -/
theorem cds_run_Inv_items_ok (md5 : CString → OBJECT_ID) (calls : List cds_call) :
    ∃ h0 h, cds_init static_heap = some h0 ∧ cds_run md5 h0 calls = some h ∧
      Inv h ∧ items_ok h = true := by
  obtain ⟨h0, hinit, ht0⟩ := cds_init_TreeInv
  obtain ⟨h, hrun, ht⟩ := cds_run_TreeInv md5 calls h0 ht0
  have h0ok : items_ok h0 = true := by
    have e := cds_init_static
    rw [hinit] at e
    cases e
    decide
  exact ⟨h0, h, hinit, hrun, ht.1, cds_run_items_ok md5 calls h0 h ht0 h0ok hrun⟩

/-! ## Replicated folders: claims -/

/-- C3: after `cds_init`, the call `cds_add_folder("/share/a", "A", CDS_PHOTO_TREE_ID)` returns
`NULL` and yet leaves one new object (object 4) in memory: the folder `A`, with the identity
of `/share/a`, linked as only child of `Music` (object 1), which carries the identity
`CDS_PHOTO_TREE_ID`. `Photo` and `Video` have no child, so the identity occurs at the relative
path `[0]` under `Music` and under neither of the other two virtual folders. -/
theorem cds_add_folder_partial_on_virtual_folder_id :
    init_heap.map (fun h => folder_name_id h audio_tree)
      = some (some ("Music".toList, CDS_PHOTO_TREE_ID)) ∧
    photo_id_heap.map (fun r => r.2) = some none ∧
    photo_id_heap.map (fun r => r.1.length) = some 5 ∧
    photo_id_heap.map (fun r => folder_name_id r.1 4)
      = some (some ("A".toList, "3e14d59ffc615c720980ceeafd56cf7f".toList)) ∧
    photo_id_heap.map (fun r => object_links r.1 4) = some (some (some audio_tree, none, none)) ∧
    photo_id_heap.map (fun r => folder_cursors r.1 audio_tree) = some (some (some 4, some 4, 1)) ∧
    photo_id_heap.map (fun r => child_folder_ids r.1 audio_tree)
      = some ["3e14d59ffc615c720980ceeafd56cf7f".toList] ∧
    photo_id_heap.map (fun r => child_folder_ids r.1 photo_tree) = some [] ∧
    photo_id_heap.map (fun r => child_folder_ids r.1 video_tree) = some [] := by
  refine ⟨?_, ?_, ?_, ?_, ?_, ?_, ?_, ?_, ?_⟩ <;> decide!

end Yada
